import Mathlib

/-!
Real-time refraction demo: camera, geometry store and frame driver.

A shallow embedding of `include/my_camera.h`, `include/my_mesh.h`,
`include/my_model.h`, `include/my_imgui.h` and `src/main.cpp`.

Numbers of type `float` are values of an ordered field `α` (exact arithmetic);
the library functions that are not field operations (`cos`, `sin`, `tan`,
`sqrt`, the constant π) are taken from a record `FloatOps α`, instantiated with
the real functions in `realOps` and with computable rational approximations in
`approxOps`.  Every OpenGL command, shader call and stream
output the program issues is appended to a trace, each with the context state
it was issued in.
-/

namespace RTR

/-! ## glm vectors -/

/-- Library functions on `float` that are not field operations. -/
structure FloatOps (α : Type) where
  pi : α
  cos : α → α
  sin : α → α
  tan : α → α
  sqrt : α → α

/-- Four Newton steps toward the square root of `x`, started at `(x + 1) / 2`. -/
def newtonSqrt (x : ℚ) : ℚ :=
  let step := fun y : ℚ => (y + x / y) / 2
  step (step (step (step ((x + 1) / 2))))

/-- A computable instance of the library functions over the rationals, which
answers with approximations as a floating-point library does: π as 355/113,
truncated series for sine and cosine, Newton steps for the square root. -/
def approxOps : FloatOps ℚ where
  pi := 355 / 113
  cos := fun x => 1 - x ^ 2 / 2 + x ^ 4 / 24 - x ^ 6 / 720
  sin := fun x => x - x ^ 3 / 6 + x ^ 5 / 120 - x ^ 7 / 5040
  tan := fun x =>
    (x - x ^ 3 / 6 + x ^ 5 / 120 - x ^ 7 / 5040) / (1 - x ^ 2 / 2 + x ^ 4 / 24 - x ^ 6 / 720)
  sqrt := newtonSqrt

/-- `glm::vec3`. -/
structure Vec3 (α : Type) where
  x : α
  y : α
  z : α

namespace Vec3

variable {α : Type} [LinearOrderedField α]

/-- `a + b` on `glm::vec3`. -/
def add (a b : Vec3 α) : Vec3 α := ⟨a.x + b.x, a.y + b.y, a.z + b.z⟩

/-- `a - b` on `glm::vec3`. -/
def sub (a b : Vec3 α) : Vec3 α := ⟨a.x - b.x, a.y - b.y, a.z - b.z⟩

/-- `v * s` on `glm::vec3` with a scalar. -/
def smul (v : Vec3 α) (s : α) : Vec3 α := ⟨v.x * s, v.y * s, v.z * s⟩

/-- `glm::dot`. -/
def dot (a b : Vec3 α) : α := a.x * b.x + a.y * b.y + a.z * b.z

/-- `glm::cross`. -/
def cross (a b : Vec3 α) : Vec3 α :=
  ⟨a.y * b.z - b.y * a.z, a.z * b.x - b.z * a.x, a.x * b.y - b.x * a.y⟩

/-- `glm::inversesqrt`.  At 0 the field convention gives `1 / 0 = 0` where the
library gives infinity; the theorems on normalised vectors take a non-zero
argument. -/
def inversesqrt (ops : FloatOps α) (s : α) : α := 1 / ops.sqrt s

/-- `glm::normalize`: `v * inversesqrt(dot(v, v))`. -/
def normalize (ops : FloatOps α) (v : Vec3 α) : Vec3 α :=
  v.smul (inversesqrt ops (dot v v))

/-- `glm::length`: `sqrt(dot(v, v))`. -/
def length (ops : FloatOps α) (v : Vec3 α) : α := ops.sqrt (dot v v)

end Vec3

/-- `glm::radians`. -/
def radians {α : Type} [LinearOrderedField α] (ops : FloatOps α) (degrees : α) : α :=
  degrees * (ops.pi / 180)

/-! ## `my_camera.h` -/

section CameraDefs

variable {α : Type} [LinearOrderedField α]

/-- Constraint on pitch, `MIN_PITCH`. -/
def MIN_PITCH : α := -89
/-- Constraint on pitch, `MAX_PITCH`. -/
def MAX_PITCH : α := 89
/-- Constraint on zoom, `MIN_ZOOM`. -/
def MIN_ZOOM : α := 1
/-- Constraint on zoom, `MAX_ZOOM`. -/
def MAX_ZOOM : α := 60

/-- Default yaw, `YAW`. -/
def YAW : α := -90
/-- Default pitch, `PITCH`. -/
def PITCH : α := 0
/-- Default speed, `CAMERA_SPEED` (2.5). -/
def CAMERA_SPEED : α := 5 / 2
/-- Default sensitivity, `MOUSE_SENSITIVITY` (0.1). -/
def MOUSE_SENSITIVITY : α := 1 / 10
/-- Default field of view, `ZOOM`. -/
def ZOOM : α := 50

/-- Key code `GLFW_KEY_W` of the GLFW header. -/
def GLFW_KEY_W : Int := 87
/-- Key code `GLFW_KEY_A` of the GLFW header. -/
def GLFW_KEY_A : Int := 65
/-- Key code `GLFW_KEY_S` of the GLFW header. -/
def GLFW_KEY_S : Int := 83
/-- Key code `GLFW_KEY_D` of the GLFW header. -/
def GLFW_KEY_D : Int := 68
/-- Key code `GLFW_KEY_Q` of the GLFW header. -/
def GLFW_KEY_Q : Int := 81
/-- Key code `GLFW_KEY_E` of the GLFW header. -/
def GLFW_KEY_E : Int := 69

end CameraDefs

/-- The fields of `class Camera`. -/
structure Camera (α : Type) where
  position : Vec3 α
  front : Vec3 α
  up : Vec3 α
  right : Vec3 α
  worldUp : Vec3 α
  yaw : α
  pitch : α
  movementSpeed : α
  mouseSensitivity : α
  zoom : α
  fps : Bool
  fixedYPos : α
  zoomEnabled : Bool

namespace Camera

variable {α : Type} [LinearOrderedField α]

/-- `Camera::updateCameraVectors`. -/
def updateCameraVectors (ops : FloatOps α) (c : Camera α) : Camera α :=
  let newFront : Vec3 α :=
    ⟨ops.cos (radians ops c.yaw) * ops.cos (radians ops c.pitch),
     ops.sin (radians ops c.pitch),
     ops.sin (radians ops c.yaw) * ops.cos (radians ops c.pitch)⟩
  let front := Vec3.normalize ops newFront
  let right := Vec3.normalize ops (Vec3.cross front c.worldUp)
  let up := Vec3.normalize ops (Vec3.cross right front)
  { c with front := front, right := right, up := up }

/-- `Camera::Camera`: the member initialisers, the assignments of the body and
the closing call of `updateCameraVectors`.  The members `up` and `right` have no
initialiser; they are first written by `updateCameraVectors`. -/
def new (ops : FloatOps α) (position : Vec3 α) (up : Vec3 α) (yaw pitch : α)
    (fps : Bool) (yFixed : α) (zoomEnable : Bool) : Camera α :=
  updateCameraVectors ops
    { position := position
      front := ⟨0, 0, -1⟩
      up := ⟨0, 0, 0⟩
      right := ⟨0, 0, 0⟩
      worldUp := up
      yaw := yaw
      pitch := pitch
      movementSpeed := CAMERA_SPEED
      mouseSensitivity := MOUSE_SENSITIVITY
      zoom := ZOOM
      fps := fps
      fixedYPos := yFixed
      zoomEnabled := zoomEnable }

/-- `Camera::setMouseSensitivity`. -/
def setMouseSensitivity (c : Camera α) (newSensitivity : α) : Camera α :=
  { c with mouseSensitivity := newSensitivity }

/-- `Camera::setCameraMovementSpeed`. -/
def setCameraMovementSpeed (c : Camera α) (newSpeed : α) : Camera α :=
  { c with movementSpeed := newSpeed }

/-- `Camera::setFPSCamera`. -/
def setFPSCamera (c : Camera α) (fps : Bool) (yPos : α) : Camera α :=
  { c with fps := fps, fixedYPos := yPos }

/-- `Camera::setZoom`. -/
def setZoom (c : Camera α) (zoom : α) : Camera α :=
  { c with zoom := zoom }

/-- `Camera::setZoomEnabled`. -/
def setZoomEnabled (c : Camera α) (enable : Bool) : Camera α :=
  { c with zoomEnabled := enable }

/-- `Camera::getViewMatrix`: `glm::lookAt(position, position + front, up)`,
with the library's `lookAt` as a parameter. -/
def getViewMatrix (lookAt : Vec3 α → Vec3 α → Vec3 α → Fin 4 → Fin 4 → α) (c : Camera α) :
    Fin 4 → Fin 4 → α :=
  lookAt c.position (c.position.add c.front) c.up

/-- `Camera::processKeyboardInput`: six independent `if`s on the key code, then
the fixed-height overwrite. -/
def processKeyboardInput (c : Camera α) (direction : Int) (deltaTime : α) : Camera α :=
  let velocity := c.movementSpeed * deltaTime
  let p0 := c.position
  let p1 := if direction = GLFW_KEY_W then p0.add (c.front.smul velocity) else p0
  let p2 := if direction = GLFW_KEY_A then p1.sub (c.right.smul velocity) else p1
  let p3 := if direction = GLFW_KEY_S then p2.sub (c.front.smul velocity) else p2
  let p4 := if direction = GLFW_KEY_D then p3.add (c.right.smul velocity) else p3
  let p5 := if direction = GLFW_KEY_Q then p4.add (c.up.smul velocity) else p4
  let p6 := if direction = GLFW_KEY_E then p5.sub (c.up.smul velocity) else p5
  let p7 : Vec3 α := if c.fps then { p6 with y := c.fixedYPos } else p6
  { c with position := p7 }

/-- `Camera::processMouseMovement`. -/
def processMouseMovement (ops : FloatOps α) (c : Camera α) (xOff yOff : α) : Camera α :=
  let xOff := xOff * c.mouseSensitivity
  let yOff := yOff * c.mouseSensitivity
  let yaw := c.yaw + xOff
  let pitch := c.pitch + yOff
  let pitch := if pitch > MAX_PITCH then MAX_PITCH else pitch
  let pitch := if pitch < MIN_PITCH then MIN_PITCH else pitch
  updateCameraVectors ops { c with yaw := yaw, pitch := pitch }

/-- `Camera::processMouseScroll`. -/
def processMouseScroll (c : Camera α) (yOff : α) : Camera α :=
  if c.zoomEnabled then
    let zoom := c.zoom - yOff
    let zoom := if zoom < MIN_ZOOM then MIN_ZOOM else zoom
    let zoom := if zoom > MAX_ZOOM then MAX_ZOOM else zoom
    { c with zoom := zoom }
  else c

/-- A finite sequence of `processMouseMovement(xOff, yOff)` calls. -/
def lookSequence (ops : FloatOps α) (c : Camera α) (moves : List (α × α)) : Camera α :=
  moves.foldl (fun c m => processMouseMovement ops c m.1 m.2) c

/-- A finite sequence of `processMouseScroll(yOff)` calls. -/
def scrollSequence (c : Camera α) (offs : List α) : Camera α :=
  offs.foldl processMouseScroll c

end Camera

/-! ## glm matrices -/

/-- `glm::mat3`, indexed column then row as `m[c][r]`. -/
abbrev Mat3 (α : Type) := Fin 3 → Fin 3 → α

/-- `glm::mat4`, indexed column then row as `m[c][r]`. -/
abbrev Mat4 (α : Type) := Fin 4 → Fin 4 → α

section MatDefs

variable {α : Type} [LinearOrderedField α]

/-- `glm::mat3(m)` for a `mat4`: the upper-left 3x3 block. -/
def mat3OfMat4 (m : Mat4 α) : Mat3 α :=
  fun c r => m c.castSucc r.castSucc

/-- `glm::mat4(m)` for a `mat3`: the block completed with the identity's last
column and row. -/
def mat4OfMat3 (m : Mat3 α) : Mat4 α :=
  fun c r =>
    if hc : c.val < 3 then
      if hr : r.val < 3 then m ⟨c.val, hc⟩ ⟨r.val, hr⟩ else 0
    else
      if r.val < 3 then 0 else 1

/-- `glm::identity<glm::mat4>()`. -/
def identityMat4 : Mat4 α :=
  fun c r => if c = r then 1 else 0

end MatDefs

/-- Library functions of the frame driver beside those of `FloatOps`: the glm
matrix builders `glm::rotate`, `glm::lookAt` and `glm::perspective`. -/
structure FrameOps (α : Type) extends FloatOps α where
  rotate : Mat4 α → α → Vec3 α → Mat4 α
  lookAt : Vec3 α → Vec3 α → Vec3 α → Mat4 α
  perspective : α → α → α → α → Mat4 α

section GlmOps

variable {α : Type} [LinearOrderedField α]

/-- The rotation block `Rotate` computed inside `glm::rotate`. -/
def glmRotation (ops : FloatOps α) (angle : α) (v : Vec3 α) : Mat4 α :=
  let c := ops.cos angle
  let s := ops.sin angle
  let axis := Vec3.normalize ops v
  let temp : Vec3 α := ⟨(1 - c) * axis.x, (1 - c) * axis.y, (1 - c) * axis.z⟩
  ![![c + temp.x * axis.x, temp.x * axis.y + s * axis.z, temp.x * axis.z - s * axis.y, 0],
    ![temp.y * axis.x - s * axis.z, c + temp.y * axis.y, temp.y * axis.z + s * axis.x, 0],
    ![temp.z * axis.x + s * axis.y, temp.z * axis.y - s * axis.x, c + temp.z * axis.z, 0],
    ![0, 0, 0, 1]]

/-- The glm definitions of the matrix builders (right-handed, clip depth from
-1 to 1, the library's default configuration). -/
def glmOps (ops : FloatOps α) : FrameOps α where
  toFloatOps := ops
  rotate := fun m angle v =>
    let R := glmRotation ops angle v
    fun c r => if c.val < 3 then m 0 r * R c 0 + m 1 r * R c 1 + m 2 r * R c 2 else m 3 r
  lookAt := fun eye center up =>
    let f := Vec3.normalize ops (center.sub eye)
    let s := Vec3.normalize ops (Vec3.cross f up)
    let u := Vec3.cross s f
    ![![s.x, u.x, -f.x, 0],
      ![s.y, u.y, -f.y, 0],
      ![s.z, u.z, -f.z, 0],
      ![-Vec3.dot s eye, -Vec3.dot u eye, Vec3.dot f eye, 1]]
  perspective := fun fovy aspect zNear zFar =>
    let tanHalfFovy := ops.tan (fovy / 2)
    ![![1 / (aspect * tanHalfFovy), 0, 0, 0],
      ![0, 1 / tanHalfFovy, 0, 0],
      ![0, 0, -(zFar + zNear) / (zFar - zNear), -1],
      ![0, 0, -(2 * zFar * zNear) / (zFar - zNear), 0]]

end GlmOps

/-- A computable instance of the frame driver's library functions over the
rationals. -/
def approxFrameOps : FrameOps ℚ := glmOps approxOps

section LibmDefs

variable {α : Type} [LinearOrderedField α] [FloorRing α]

/-- `fmodf(x, y)`: `x - n * y` with `n` the quotient `x / y` truncated toward
zero. -/
def fmodf (x y : α) : α :=
  let q := x / y
  let n : Int := if 0 ≤ q then ⌊q⌋ else ⌈q⌉
  x - (n : α) * y

/-- The nearest integer, ties to the even one. -/
def roundHalfEven (x : α) : Int :=
  let f : Int := ⌊x⌋
  let r : α := x - (f : α)
  if r < 1 / 2 then f
  else if 1 / 2 < r then f + 1
  else if f % 2 = 0 then f else f + 1

/-- The character of a decimal digit. -/
def digitChar (d : Nat) : Char := Char.ofNat (48 + d % 10)

/-- The text `oss << std::fixed << std::setprecision(3) << x` produces: fixed
notation with exactly 3 decimals, rounded to the nearest thousandth. -/
def fixed3 (x : α) : String :=
  let n : Nat := (roundHalfEven (|x| * 1000)).toNat
  (if x < 0 then "-" else "") ++ toString (n / 1000) ++ "." ++
    String.mk [digitChar (n % 1000 / 100), digitChar (n % 100 / 10), digitChar (n % 10)]

end LibmDefs

/-! ## OpenGL state and the trace of issued operations -/

/-- Capabilities the program enables or disables. -/
inductive Capability where
  | GL_DEPTH_TEST
  | GL_CULL_FACE
  deriving DecidableEq, Repr

/-- Arguments of `glCullFace`. -/
inductive FaceMode where
  | GL_FRONT
  | GL_BACK
  deriving DecidableEq, Repr

/-- Texture targets the program binds. -/
inductive TextureTarget where
  | GL_TEXTURE_2D
  | GL_TEXTURE_CUBE_MAP
  deriving DecidableEq, Repr

/-- Internal formats the program passes to `glTexImage2D`. -/
inductive TextureFormat where
  | GL_RGBA16F
  | GL_DEPTH_COMPONENT32F
  deriving DecidableEq, Repr

/-- Attachment points the program passes to `glFramebufferTexture2D`. -/
inductive Attachment where
  | GL_COLOR_ATTACHMENT0
  | GL_DEPTH_ATTACHMENT
  deriving DecidableEq, Repr

/-- Parameter names the program passes to `glTexParameteri`. -/
inductive TextureParameter where
  | GL_TEXTURE_MIN_FILTER
  | GL_TEXTURE_MAG_FILTER
  | GL_TEXTURE_WRAP_S
  | GL_TEXTURE_WRAP_T
  deriving DecidableEq, Repr

/-- Parameter values the program passes to `glTexParameteri`. -/
inductive TextureParameterValue where
  | GL_NEAREST
  | GL_CLAMP_TO_EDGE
  deriving DecidableEq, Repr

/-- Cursor modes of `glfwSetInputMode(window, GLFW_CURSOR, ...)`. -/
inductive CursorMode where
  | GLFW_CURSOR_NORMAL
  | GLFW_CURSOR_DISABLED
  deriving DecidableEq, Repr

/-- The part of the OpenGL context state the program reads or writes.
`textureImage` gives, for a 2D texture name, the format and the width and height
of its level-0 image once one is specified; `colorAttachment0` and
`depthAttachment` give, for a framebuffer name, the texture attached there. -/
structure GLState where
  depthTest : Bool
  cullFace : Bool
  cullFaceMode : FaceMode
  framebuffer : Nat
  viewport : Int × Int × Int × Int
  activeTexture : Nat
  texture2D : Nat → Nat
  textureCubeMap : Nat → Nat
  vertexArray : Nat
  arrayBuffer : Nat
  elementArrayBuffer : Nat
  program : Nat
  nextVertexArray : Nat
  nextBuffer : Nat
  nextFramebuffer : Nat
  nextTexture : Nat
  textureImage : Nat → Option (TextureFormat × Int × Int)
  colorAttachment0 : Nat → Nat
  depthAttachment : Nat → Nat

/-- The context state right after context creation (OpenGL initial values). -/
def GLState.initial : GLState where
  depthTest := false
  cullFace := false
  cullFaceMode := FaceMode.GL_BACK
  framebuffer := 0
  viewport := (0, 0, 0, 0)
  activeTexture := 0
  texture2D := fun _ => 0
  textureCubeMap := fun _ => 0
  vertexArray := 0
  arrayBuffer := 0
  elementArrayBuffer := 0
  program := 0
  nextVertexArray := 1
  nextBuffer := 1
  nextFramebuffer := 1
  nextTexture := 1
  textureImage := fun _ => none
  colorAttachment0 := fun _ => 0
  depthAttachment := fun _ => 0

/-- One value written to a stream with `<<`. -/
inductive LogItem (α : Type) where
  | str (s : String)
  | float (x : α)
  | int (n : Int)
  | nat (n : Nat)
  | bool (b : Bool)

/-- The operations the program issues: OpenGL commands, shader collaborator
calls, stream output, window-system calls, and the entry and return of
`drawModel`. -/
inductive Op (α : Type) where
  | glClearColor (r g b a : α)
  | glClear (colorBit depthBit : Bool)
  | glEnable (cap : Capability)
  | glDisable (cap : Capability)
  | glCullFace (mode : FaceMode)
  | glBindFramebuffer (fbo : Nat)
  | glViewport (x y width height : Int)
  | glActiveTexture (unit : Nat)
  | glBindTexture (target : TextureTarget) (texture : Nat)
  | glGenVertexArrays (name : Nat)
  | glGenBuffers (name : Nat)
  | glBindVertexArray (vao : Nat)
  | glBindArrayBuffer (buffer : Nat)
  | glBindElementArrayBuffer (buffer : Nat)
  | glBufferDataVertices (count : Nat)
  | glBufferDataIndices (count : Nat)
  | glEnableVertexAttribArray (index : Nat)
  | glVertexAttribPointer (index size : Nat)
  | glDrawElements (count : Int)
  | glDrawArrays (first count : Nat)
  | shaderUse (id : Nat)
  | setMat4 (id : Nat) (name : String) (value : Mat4 α)
  | setFloat (id : Nat) (name : String) (value : α)
  | setBool (id : Nat) (name : String) (value : Bool)
  | setInt (id : Nat) (name : String) (value : Int)
  | drawModel (shader : Nat) (shaderType : Int)
  | drawModelReturn
  | cout (items : List (LogItem α))
  | cerr (items : List (LogItem α))
  | ImGuiNewFrame
  | ImGuiDrawWindow
  | saveScreenshot (fileName : String) (width height : Int)
  | glfwSetWindowShouldClose
  | glfwSetInputMode (mode : CursorMode)
  | glfwSwapBuffers
  | glfwPollEvents
  | glGenFramebuffers (name : Nat)
  | glGenTextures (name : Nat)
  | glTexImage2D (format : TextureFormat) (width height : Int)
  | glTexParameteri (pname : TextureParameter) (param : TextureParameterValue)
  | glFramebufferTexture2D (attachment : Attachment) (texture : Nat)
  | glDrawBuffers (bufs : List Attachment)
  | glCheckFramebufferStatus

/-- An issued operation together with the context state it was issued in. -/
structure Entry (α : Type) where
  op : Op α
  gl : GLState

/-! ## `my_mesh.h`, `my_model.h`: data -/

/-- `struct Vertex`. -/
structure Vertex (α : Type) where
  Position : Vec3 α
  Normal : Vec3 α
  d_N : α

/-- The fields of `class Mesh`. -/
structure Mesh (α : Type) where
  vertices : List (Vertex α)
  indices : List Nat
  meshName : String
  VAO : Nat
  VBO : Nat
  EBO : Nat

/-- The fields of `class Model`. -/
structure Model (α : Type) where
  meshes : List (Mesh α)
  modelName : String

/-- The members of Assimp's `aiMesh` that `processMesh` reads; `mColors0` is
colour set 0, `mFaces` the index list of each face. -/
structure aiMesh (α : Type) where
  mVertices : List (Vec3 α)
  mNormals : Option (List (Vec3 α))
  mColors0 : Option (List (α × α × α × α))
  mFaces : List (List Nat)
  mName : String

/-- Assimp's `aiNode`: the indices of its meshes and its children. -/
inductive aiNode where
  | mk (mMeshes : List Nat) (mChildren : List aiNode)

/-- The members of Assimp's `aiScene` that the loader reads. -/
structure aiScene (α : Type) where
  mFlags : Nat
  mRootNode : Option aiNode
  mMeshes : List (aiMesh α)

/-- Assimp's flag `AI_SCENE_FLAGS_INCOMPLETE`. -/
def AI_SCENE_FLAGS_INCOMPLETE : Nat := 1

/-- What `Assimp::Importer` answers for a path: the scene of `ReadFile` (or
none for a null pointer) and the text of `GetErrorString`. -/
structure Importer (α : Type) where
  ReadFile : String → Option (aiScene α)
  GetErrorString : String → String

/-- The value of `static_cast<unsigned int>(n)` for a size `n`. -/
def toUInt (n : Nat) : Nat := n % 2 ^ 32

/-- The value of an `unsigned int` converted to `int` (`GLsizei`, `int`
parameters). -/
def toInt (n : Nat) : Int :=
  if n % 2 ^ 32 < 2 ^ 31 then ((n % 2 ^ 32 : Nat) : Int) else ((n % 2 ^ 32 : Nat) : Int) - 2 ^ 32

/-- The value of an `int` converted to `unsigned int`. -/
def intToUInt (i : Int) : Nat := (i % 2 ^ 32).toNat

/-- The value of an `int` expression whose exact result is `x`: the result
itself when a 32-bit `int` holds it, none when the operation overflows
(undefined behaviour in the program). -/
def checkedInt (x : Int) : Option Int :=
  if -2 ^ 31 ≤ x ∧ x < 2 ^ 31 then some x else none

/-- Element `l[i]` of a C array or `std::vector` for an `int` index; none when
the index is outside the array (undefined behaviour in the program). -/
def index? {β : Type} (l : List β) (i : Int) : Option β :=
  if i < 0 then none else l.get? i.toNat

/-! ## `my_imgui.h`: data -/

/-- The fields of `struct FPSTracker`. -/
structure FPSTracker (α : Type) where
  minFPS : α
  maxFPS : α
  totalFPS : α
  frameCount : Int
  frameLimit : Int
  active : Bool

/-- `enum RefractionMethods`, value `OneSurface`. -/
def OneSurface : Int := 0
/-- `enum RefractionMethods`, value `TwoSurfaces`. -/
def TwoSurfaces : Int := 1

/-- `enum Skyboxes`, value `Graffiti`. -/
def Graffiti : Int := 0
/-- `enum Skyboxes`, value `NightSky`. -/
def NightSky : Int := 1
/-- `enum Skyboxes`, value `Museum`. -/
def Museum : Int := 2

/-- `enum ModelTypes`, value `TeaPot`. -/
def TeaPot : Int := 0
/-- `enum ModelTypes`, value `Donut`. -/
def Donut : Int := 1
/-- `enum ModelTypes`, value `Sphere`. -/
def Sphere : Int := 2
/-- `enum ModelTypes`, value `Monkey`. -/
def Monkey : Int := 3
/-- `enum ModelTypes`, value `Buddha`. -/
def Buddha : Int := 4

/-- The array `modelOptions`. -/
def modelOptions : List String := ["Teapot", "Donut", "Sphere", "Monkey", "Buddha"]
/-- The array `refractionOptions`. -/
def refractionOptions : List String := ["One Surface", "Two Surfaces"]
/-- The array `skyboxOptions`. -/
def skyboxOptions : List String := ["Graffiti", "Night Sky", "Museum"]

/-- What the user does in the panel during one `ImGuiDrawWindow`: a new slider
value, clicks on the check boxes, a new selection in a combo box, presses of
the two buttons. -/
structure PanelInput (α : Type) where
  sliderIOR : Option α
  clickScreenSpaceOnly : Bool
  clickSpinModel : Bool
  clickEnableReflect : Bool
  comboModel : Option Int
  comboRefraction : Option Int
  comboSkybox : Option Int
  buttonStartFPSTest : Bool
  clickZoomIn : Bool
  buttonScreenshot : Bool

/-! ## `main.cpp`: data -/

/-- `enum ShaderType`, value `OneSurfaceShader`. -/
def OneSurfaceShader : Int := 0
/-- `enum ShaderType`, value `TwoSurfacesBackFaceShader`. -/
def TwoSurfacesBackFaceShader : Int := 1
/-- `enum ShaderType`, value `TwoSurfacesFrontFaceShader`. -/
def TwoSurfacesFrontFaceShader : Int := 2

/-- Key code `GLFW_KEY_ESCAPE` of the GLFW header. -/
def GLFW_KEY_ESCAPE : Int := 256
/-- Key code `GLFW_KEY_R` of the GLFW header. -/
def GLFW_KEY_R : Int := 82
/-- Key code `GLFW_KEY_I` of the GLFW header. -/
def GLFW_KEY_I : Int := 73

/-- Modelled from the spec: `my_shader.h` is not among the sources; a shader is
the compiled GPU program of the shader collaborator, known by its handle. -/
structure Shader where
  ID : Nat

/-- The four shader objects local to `main`. -/
structure Shaders where
  skyboxShader : Shader
  refractionShader : Shader
  backfaceShader : Shader
  frontfaceShader : Shader

/-- The OpenGL context, the trace of issued operations, the window's close
flag, and the global variables of `main.cpp` and `my_imgui.h`. -/
structure World (α : Type) where
  gl : GLState
  trace : List (Entry α)
  windowShouldClose : Bool
  SCREEN_WIDTH : Nat
  SCREEN_HEIGHT : Nat
  firstMouse : Bool
  xPrev : α
  yPrev : α
  deltaTime : α
  prevFrame : α
  elapsedTime : α
  allModels : List (Model α)
  rotY : α
  graffitiSkyboxVAO : Nat
  graffitiCubemapTexture : Nat
  nightSkyboxVAO : Nat
  nightCubemapTexture : Nat
  museumSkyboxVAO : Nat
  museumCubemapTexture : Nat
  backfaceFBO : Nat
  backfaceNormalTex : Nat
  backfaceDepthTex : Nat
  camera : Camera α
  IKeyReleased : Bool
  fpsTracker : FPSTracker α
  IOR : α
  selectedModel : Int
  selectedRefractionMethod : Int
  selectedSkybox : Int
  spinModel : Bool
  enableReflect : Bool
  ImGuiUseMouse : Bool
  screenSpaceOnly : Bool
  takeScreenshot : Bool
  zoomIn : Bool

/-- A callback GLFW invokes from `glfwPollEvents`. -/
inductive WindowEvent (α : Type) where
  | framebufferSize (width height : Int)
  | cursorPos (xIn yIn : α)
  | scroll (xOff yOff : α)

/-- What the environment supplies during one iteration of the render loop: the
value of `glfwGetTime`, the keys held down, the user's actions in the panel and
the callbacks delivered by `glfwPollEvents`. -/
structure FrameInput (α : Type) where
  time : α
  keys : Int → Bool
  panel : PanelInput α
  events : List (WindowEvent α)

/-! ## OpenGL commands -/

namespace World

variable {α : Type}

/-- Record an operation that leaves the context state alone. -/
def emit (w : World α) (op : Op α) : World α :=
  { w with trace := w.trace ++ [⟨op, w.gl⟩] }

/-- Record an operation and apply its effect on the context state. -/
def glCall (w : World α) (op : Op α) (f : GLState → GLState) : World α :=
  { w with trace := w.trace ++ [⟨op, w.gl⟩], gl := f w.gl }

/-- `glClearColor`. -/
def glClearColor (w : World α) (r g b a : α) : World α :=
  w.emit (Op.glClearColor r g b a)

/-- `glClear(GL_COLOR_BUFFER_BIT | GL_DEPTH_BUFFER_BIT)` and its like. -/
def glClear (w : World α) (colorBit depthBit : Bool) : World α :=
  w.emit (Op.glClear colorBit depthBit)

/-- `glEnable`. -/
def glEnable (w : World α) (cap : Capability) : World α :=
  w.glCall (Op.glEnable cap) fun s =>
    match cap with
    | Capability.GL_DEPTH_TEST => { s with depthTest := true }
    | Capability.GL_CULL_FACE => { s with cullFace := true }

/-- `glDisable`. -/
def glDisable (w : World α) (cap : Capability) : World α :=
  w.glCall (Op.glDisable cap) fun s =>
    match cap with
    | Capability.GL_DEPTH_TEST => { s with depthTest := false }
    | Capability.GL_CULL_FACE => { s with cullFace := false }

/-- `glCullFace`. -/
def glCullFace (w : World α) (mode : FaceMode) : World α :=
  w.glCall (Op.glCullFace mode) fun s => { s with cullFaceMode := mode }

/-- `glBindFramebuffer(GL_FRAMEBUFFER, fbo)`. -/
def glBindFramebuffer (w : World α) (fbo : Nat) : World α :=
  w.glCall (Op.glBindFramebuffer fbo) fun s => { s with framebuffer := fbo }

/-- `glViewport`. -/
def glViewport (w : World α) (x y width height : Int) : World α :=
  w.glCall (Op.glViewport x y width height) fun s => { s with viewport := (x, y, width, height) }

/-- `glActiveTexture(GL_TEXTURE0 + unit)`. -/
def glActiveTexture (w : World α) (unit : Nat) : World α :=
  w.glCall (Op.glActiveTexture unit) fun s => { s with activeTexture := unit }

/-- `glBindTexture`: binds to the target of the active texture unit. -/
def glBindTexture (w : World α) (target : TextureTarget) (texture : Nat) : World α :=
  w.glCall (Op.glBindTexture target texture) fun s =>
    match target with
    | TextureTarget.GL_TEXTURE_2D =>
        { s with texture2D := Function.update s.texture2D s.activeTexture texture }
    | TextureTarget.GL_TEXTURE_CUBE_MAP =>
        { s with textureCubeMap := Function.update s.textureCubeMap s.activeTexture texture }

/-- `glGenVertexArrays(1, &name)`: a name not used before. -/
def glGenVertexArrays (w : World α) : Nat × World α :=
  (w.gl.nextVertexArray,
   w.glCall (Op.glGenVertexArrays w.gl.nextVertexArray) fun s =>
     { s with nextVertexArray := s.nextVertexArray + 1 })

/-- `glGenBuffers(1, &name)`: a name not used before. -/
def glGenBuffers (w : World α) : Nat × World α :=
  (w.gl.nextBuffer,
   w.glCall (Op.glGenBuffers w.gl.nextBuffer) fun s => { s with nextBuffer := s.nextBuffer + 1 })

/-- `glBindVertexArray`. -/
def glBindVertexArray (w : World α) (vao : Nat) : World α :=
  w.glCall (Op.glBindVertexArray vao) fun s => { s with vertexArray := vao }

/-- `glBindBuffer(GL_ARRAY_BUFFER, buffer)`. -/
def glBindArrayBuffer (w : World α) (buffer : Nat) : World α :=
  w.glCall (Op.glBindArrayBuffer buffer) fun s => { s with arrayBuffer := buffer }

/-- `glBindBuffer(GL_ELEMENT_ARRAY_BUFFER, buffer)`. -/
def glBindElementArrayBuffer (w : World α) (buffer : Nat) : World α :=
  w.glCall (Op.glBindElementArrayBuffer buffer) fun s => { s with elementArrayBuffer := buffer }

/-- `glDrawElements(GL_TRIANGLES, count, GL_UNSIGNED_INT, 0)`; `count` is a
`GLsizei`, an `int`. -/
def glDrawElements (w : World α) (count : Int) : World α :=
  w.emit (Op.glDrawElements count)

/-- `glDrawArrays(GL_TRIANGLES, first, count)`. -/
def glDrawArrays (w : World α) (first count : Nat) : World α :=
  w.emit (Op.glDrawArrays first count)

/-- `glGenFramebuffers(1, &name)`: a name not used before. -/
def glGenFramebuffers (w : World α) : Nat × World α :=
  (w.gl.nextFramebuffer,
   w.glCall (Op.glGenFramebuffers w.gl.nextFramebuffer) fun s =>
     { s with nextFramebuffer := s.nextFramebuffer + 1 })

/-- `glGenTextures(1, &name)`: a name not used before. -/
def glGenTextures (w : World α) : Nat × World α :=
  (w.gl.nextTexture,
   w.glCall (Op.glGenTextures w.gl.nextTexture) fun s => { s with nextTexture := s.nextTexture + 1 })

/-- `glTexImage2D(GL_TEXTURE_2D, 0, format, width, height, 0, ..., nullptr)`:
specifies the level-0 image of the 2D texture bound to the active unit; a
negative width or height is an error that leaves the state alone. -/
def glTexImage2D (w : World α) (format : TextureFormat) (width height : Int) : World α :=
  w.glCall (Op.glTexImage2D format width height) fun s =>
    if width < 0 ∨ height < 0 then s
    else
      { s with textureImage :=
          Function.update s.textureImage (s.texture2D s.activeTexture) (some (format, width, height)) }

/-- `glTexParameteri(GL_TEXTURE_2D, pname, param)`. -/
def glTexParameteri (w : World α) (pname : TextureParameter) (param : TextureParameterValue) :
    World α :=
  w.emit (Op.glTexParameteri pname param)

/-- `glFramebufferTexture2D(GL_FRAMEBUFFER, attachment, GL_TEXTURE_2D, texture, 0)`:
attaches the texture to the bound framebuffer. -/
def glFramebufferTexture2D (w : World α) (attachment : Attachment) (texture : Nat) : World α :=
  w.glCall (Op.glFramebufferTexture2D attachment texture) fun s =>
    match attachment with
    | Attachment.GL_COLOR_ATTACHMENT0 =>
        { s with colorAttachment0 := Function.update s.colorAttachment0 s.framebuffer texture }
    | Attachment.GL_DEPTH_ATTACHMENT =>
        { s with depthAttachment := Function.update s.depthAttachment s.framebuffer texture }

/-- `glDrawBuffers(n, bufs)`. -/
def glDrawBuffers (w : World α) (bufs : List Attachment) : World α :=
  w.emit (Op.glDrawBuffers bufs)

/-- Write one statement's items to `std::cout`. -/
def cout (w : World α) (items : List (LogItem α)) : World α :=
  w.emit (Op.cout items)

/-- Write one statement's items to `std::cerr`. -/
def cerr (w : World α) (items : List (LogItem α)) : World α :=
  w.emit (Op.cerr items)

end World

/-! ## Shader collaborator -/

namespace Shader

variable {α : Type}

/-- Modelled from the spec: `Shader::use` of the absent `my_shader.h` makes the
program current. -/
def use (shader : Shader) (w : World α) : World α :=
  w.glCall (Op.shaderUse shader.ID) fun s => { s with program := shader.ID }

/-- Modelled from the spec: `Shader::setMat4` of the absent `my_shader.h`, a
uniform-set operation. -/
def setMat4 (shader : Shader) (name : String) (value : Mat4 α) (w : World α) : World α :=
  w.emit (Op.setMat4 shader.ID name value)

/-- Modelled from the spec: `Shader::setFloat` of the absent `my_shader.h`, a
uniform-set operation. -/
def setFloat (shader : Shader) (name : String) (value : α) (w : World α) : World α :=
  w.emit (Op.setFloat shader.ID name value)

/-- Modelled from the spec: `Shader::setBool` of the absent `my_shader.h`, a
uniform-set operation. -/
def setBool (shader : Shader) (name : String) (value : Bool) (w : World α) : World α :=
  w.emit (Op.setBool shader.ID name value)

/-- Modelled from the spec: `Shader::setInt` of the absent `my_shader.h`, a
uniform-set operation. -/
def setInt (shader : Shader) (name : String) (value : Int) (w : World α) : World α :=
  w.emit (Op.setInt shader.ID name value)

end Shader

/-! ## `my_mesh.h` -/

namespace Mesh

variable {α : Type}

/-- `Mesh::setupMesh`, returning the three generated names. -/
def setupMesh (vertices : List (Vertex α)) (indices : List Nat) (w : World α) :
    (Nat × Nat × Nat) × World α :=
  let (vao, w) := w.glGenVertexArrays
  let (vbo, w) := w.glGenBuffers
  let (ebo, w) := w.glGenBuffers
  let w := w.glBindVertexArray vao
  let w := w.glBindArrayBuffer vbo
  let w := w.emit (Op.glBufferDataVertices vertices.length)
  let w := w.glBindElementArrayBuffer ebo
  let w := w.emit (Op.glBufferDataIndices indices.length)
  let w := w.emit (Op.glEnableVertexAttribArray 0)
  let w := w.emit (Op.glVertexAttribPointer 0 3)
  let w := w.emit (Op.glEnableVertexAttribArray 1)
  let w := w.emit (Op.glVertexAttribPointer 1 3)
  let w := w.emit (Op.glEnableVertexAttribArray 2)
  let w := w.emit (Op.glVertexAttribPointer 2 1)
  let w := w.glBindVertexArray 0
  ((vao, vbo, ebo), w)

/-- `Mesh::Mesh`. -/
def new (vertices : List (Vertex α)) (indices : List Nat) (w : World α) : Mesh α × World α :=
  let (names, w) := setupMesh vertices indices w
  ({ vertices := vertices, indices := indices, meshName := "",
     VAO := names.1, VBO := names.2.1, EBO := names.2.2 }, w)

/-- `Mesh::draw`; the index count is `static_cast<unsigned int>(indices.size())`,
converted to the `GLsizei` (`int`) parameter of `glDrawElements`. -/
def draw (mesh : Mesh α) (_shader : Shader) (w : World α) : World α :=
  let w := w.glBindVertexArray mesh.VAO
  let w := w.glDrawElements (toInt (toUInt mesh.indices.length))
  let w := w.glBindVertexArray 0
  w.glActiveTexture 0

end Mesh

/-! ## `my_model.h` -/

namespace Model

variable {α : Type} [LinearOrderedField α]

/-- `Model::draw`: the loop runs `i` from 0 while
`i < static_cast<unsigned int>(meshes.size())`, drawing `meshes[i]`. -/
def draw (model : Model α) (shader : Shader) (w : World α) : World α :=
  (model.meshes.take (toUInt model.meshes.length)).foldl (fun w mesh => mesh.draw shader w) w

/-- `Model::processMesh`.  The arrays `mNormals` and `mColors[0]` of Assimp
have `mNumVertices` entries when present; a vertex whose normal is not
assigned keeps the zero vector here. -/
def processMesh (mesh : aiMesh α) (w : World α) : Mesh α × World α :=
  let vertices : List (Vertex α) :=
    (List.range mesh.mVertices.length).map fun i =>
      { Position := mesh.mVertices.getD i ⟨0, 0, 0⟩
        Normal :=
          match mesh.mNormals with
          | some normals => normals.getD i ⟨0, 0, 0⟩
          | none => ⟨0, 0, 0⟩
        d_N :=
          match mesh.mColors0 with
          | some colors => (colors.getD i (0, 0, 0, 0)).1
          | none => 0 }
  let indices : List Nat := mesh.mFaces.flatten
  let (tempMesh, w) := Mesh.new vertices indices w
  let tempMesh := if mesh.mName ≠ "" then { tempMesh with meshName := mesh.mName } else tempMesh
  (tempMesh, w)

/-- The first loop of `Model::processNode`: one `processMesh` and `push_back`
for each mesh index of the node; none when an index is outside
`scene->mMeshes`. -/
def processNodeMeshes (scene : aiScene α) :
    List Nat → List (Mesh α) × World α → Option (List (Mesh α) × World α)
  | [], st => some st
  | i :: rest, st =>
    match scene.mMeshes.get? i with
    | none => none
    | some mesh =>
      let (m, w) := processMesh mesh st.2
      processNodeMeshes scene rest (st.1 ++ [m], w)

mutual
/-- `Model::processNode`: the node's meshes, then its children in order. -/
def processNode (scene : aiScene α) :
    aiNode → List (Mesh α) × World α → Option (List (Mesh α) × World α)
  | aiNode.mk mMeshes mChildren, st =>
    match processNodeMeshes scene mMeshes st with
    | none => none
    | some st => processChildren scene mChildren st
/-- The second loop of `Model::processNode`. -/
def processChildren (scene : aiScene α) :
    List aiNode → List (Mesh α) × World α → Option (List (Mesh α) × World α)
  | [], st => some st
  | child :: rest, st =>
    match processNode scene child st with
    | none => none
    | some st => processChildren scene rest st
end

/-- `Model::loadModel`, on the mesh list of the model under construction. -/
def loadModel (imp : Importer α) (path : String) (st : List (Mesh α) × World α) :
    Option (List (Mesh α) × World α) :=
  match imp.ReadFile path with
  | none =>
    some (st.1, st.2.cout [LogItem.str "ERROR::ASSIMP:: ", LogItem.str (imp.GetErrorString path),
      LogItem.str "\n"])
  | some scene =>
    if scene.mFlags &&& AI_SCENE_FLAGS_INCOMPLETE ≠ 0 then
      some (st.1, st.2.cout [LogItem.str "ERROR::ASSIMP:: ",
        LogItem.str (imp.GetErrorString path), LogItem.str "\n"])
    else
      match scene.mRootNode with
      | none =>
        some (st.1, st.2.cout [LogItem.str "ERROR::ASSIMP:: ",
          LogItem.str (imp.GetErrorString path), LogItem.str "\n"])
      | some root => processNode scene root st

/-- `Model::printModelDetails`. -/
def printModelDetails (model : Model α) (w : World α) : World α :=
  let totalVertices : Nat :=
    model.meshes.foldl (fun acc mesh => toUInt (acc + toUInt mesh.vertices.length)) 0
  let totalTriangles : Nat :=
    model.meshes.foldl (fun acc mesh => toUInt (acc + toUInt mesh.indices.length / 3)) 0
  let w := w.cout [LogItem.str "****************************\n"]
  let w := w.cout [LogItem.str "Successfully Loaded Model: ", LogItem.str model.modelName,
    LogItem.str "\n"]
  let w := w.cout [LogItem.str "Model contains ", LogItem.nat model.meshes.length,
    LogItem.str " mesh(es).\n"]
  let w := w.cout [LogItem.str "Total vertices: ", LogItem.nat totalVertices, LogItem.str "\n"]
  let w := w.cout [LogItem.str "Total triangles: ", LogItem.nat totalTriangles, LogItem.str "\n"]
  w.cout [LogItem.str "****************************\n\n"]

/-- `Model::Model`: the mesh list starts empty, then `loadModel` and
`printModelDetails`. -/
def new (imp : Importer α) (objPath modelName : String) (w : World α) :
    Option (Model α × World α) :=
  match loadModel imp objPath ([], w) with
  | none => none
  | some (meshes, w) =>
    let model : Model α := { meshes := meshes, modelName := modelName }
    some (model, printModelDetails model w)

end Model

/-! ## `my_imgui.h` -/

/-- `std::numeric_limits<float>::max()`. -/
def FLT_MAX {α : Type} [LinearOrderedField α] : α := 340282346638528859811704183484516925440

namespace FPSTracker

variable {α : Type} [LinearOrderedField α]

/-- The default member initialisers of `FPSTracker`. -/
def initial : FPSTracker α :=
  { minFPS := FLT_MAX, maxFPS := 0, totalFPS := 0, frameCount := 0, frameLimit := 1000,
    active := false }

/-- `FPSTracker::start`. -/
def start (_t : FPSTracker α) (frames : Int) : FPSTracker α :=
  { minFPS := FLT_MAX, maxFPS := 0, totalFPS := 0, frameCount := 0, frameLimit := frames,
    active := true }

/-- `FPSTracker::update`: the new tracker and the statements written to
`std::cout`. -/
def update (t : FPSTracker α) (deltaTime : α) : FPSTracker α × List (List (LogItem α)) :=
  if t.active = false then (t, [])
  else
    let fps := 1 / deltaTime
    let minFPS := if fps < t.minFPS then fps else t.minFPS
    let maxFPS := if t.maxFPS < fps then fps else t.maxFPS
    let totalFPS := t.totalFPS + fps
    let frameCount := t.frameCount + 1
    let t1 : FPSTracker α :=
      { t with minFPS := minFPS, maxFPS := maxFPS, totalFPS := totalFPS, frameCount := frameCount }
    if frameCount ≥ t.frameLimit then
      let avg := totalFPS / (frameCount : α)
      ({ t1 with active := false },
       [[LogItem.str "FPS Test Results:\n"],
        [LogItem.str "> Frames: ", LogItem.int frameCount, LogItem.str "\n"],
        [LogItem.str "> Min FPS: ", LogItem.float minFPS, LogItem.str "\n"],
        [LogItem.str "> Max FPS: ", LogItem.float maxFPS, LogItem.str "\n"],
        [LogItem.str "> Avg FPS: ", LogItem.float avg, LogItem.str "\n"],
        [LogItem.str "****************************\n\n"]])
    else (t1, [])

/-- A finite sequence of `update(deltaTime)` calls. -/
def updates (t : FPSTracker α) (dts : List α) : FPSTracker α :=
  dts.foldl (fun t dt => (t.update dt).1) t

/-- `FPSTracker::averageFPS`. -/
def averageFPS (t : FPSTracker α) : α :=
  if t.frameCount > 0 then t.totalFPS / (t.frameCount : α) else 0

end FPSTracker

section ImGuiDefs

variable {α : Type} [LinearOrderedField α]

/-- `saveScreenshot`: the read-back of the frame, its vertical flip and the PNG
write, recorded as one operation with the file name and the dimensions. -/
def saveScreenshot (filename : String) (width height : Int) (w : World α) : World α :=
  w.emit (Op.saveScreenshot filename width height)

/-- `std::swap(pixels[a], pixels[b])` on a `std::vector<unsigned char>` with
`int` indices; none when an index, converted to `size_t`, is outside the
vector. -/
def swapPixels (pixels : List Nat) (a b : Int) : Option (List Nat) :=
  if 0 ≤ a ∧ a < pixels.length ∧ 0 ≤ b ∧ b < pixels.length then
    some ((pixels.set a.toNat (pixels.getD b.toNat 0)).set b.toNat (pixels.getD a.toNat 0))
  else none

/-- The body of the inner flip loop of `saveScreenshot`:
`std::swap(pixels[j * width * 3 + i], pixels[(height - 1 - j) * width * 3 + i])`,
every product, sum and difference an `int` operation. -/
def flipCell (width height : Int) (j i : Nat) (pixels : List Nat) : Option (List Nat) := do
  let jw ← checkedInt ((j : Int) * width)
  let jw3 ← checkedInt (jw * 3)
  let a ← checkedInt (jw3 + (i : Int))
  let r1 ← checkedInt (height - 1)
  let r ← checkedInt (r1 - (j : Int))
  let rw ← checkedInt (r * width)
  let rw3 ← checkedInt (rw * 3)
  let b ← checkedInt (rw3 + (i : Int))
  swapPixels pixels a b

/-- The inner flip loop `for (int i = 0; i < width * 3; ++i)` for row `j`: the
counter runs upwards from 0 in steps of 1, so the loop is a fold over the
values it takes. -/
def flipRow (width height : Int) (j : Nat) (pixels : List Nat) : Option (List Nat) := do
  let bound ← checkedInt (width * 3)
  (List.range bound.toNat).foldlM (fun pixels i => flipCell width height j i pixels) pixels

/-- The flip loop of `saveScreenshot` on the pixel vector,
`for (int j = 0; j < height / 2; ++j)` around the inner loop; `height / 2`
rounds towards zero. -/
def flipRows (width height : Int) (pixels : List Nat) : Option (List Nat) :=
  (List.range (Int.tdiv height 2).toNat).foldlM
    (fun pixels j => flipRow width height j pixels) pixels

/-- `ImGuiNewFrame`: the three new-frame calls into the ImGui library, recorded
as one operation. -/
def ImGuiNewFrame (w : World α) : World α :=
  w.emit Op.ImGuiNewFrame

/-- The statements written to `std::cout` when the "Start FPS Test" button of
`ImGuiDrawWindow` is pressed. -/
def logFPSTestStart (model refraction skybox : String) (w : World α) : World α :=
  let w := w.cout [LogItem.str "****************************\n"]
  let w := w.cout [LogItem.str "Starting FPS Test:\n"]
  let w := w.cout [LogItem.str "> Active Model: ", LogItem.str model, LogItem.str "\n"]
  let w := w.cout [LogItem.str "> Active Refraction Method: ", LogItem.str refraction,
    LogItem.str "\n"]
  let w := w.cout [LogItem.str "> Active Skybox: ", LogItem.str skybox, LogItem.str "\n"]
  let w := w.cout [LogItem.str "> Reflection Active: ", LogItem.bool w.enableReflect,
    LogItem.str "\n"]
  let w := w.cout [LogItem.str "> IOR: ", LogItem.float w.IOR, LogItem.str "\n"]
  let w := w.cout [LogItem.str "> Using dV and dN: ", LogItem.bool (!w.screenSpaceOnly),
    LogItem.str "\n"]
  w.cout [LogItem.str "****************************\n"]

/-- `ImGuiDrawWindow`: the widgets in source order, each applying what the user
did to it; the calls into the ImGui library that lay out and render the panel
are recorded as the one operation `Op.ImGuiDrawWindow`.  None when a selection
indexes outside its option array while the FPS test is started. -/
def ImGuiDrawWindow (panel : PanelInput α) (w : World α) : Option (World α) :=
  let w := w.emit Op.ImGuiDrawWindow
  let w := match panel.sliderIOR with
    | some v => { w with IOR := v }
    | none => w
  let w := if panel.clickScreenSpaceOnly then { w with screenSpaceOnly := !w.screenSpaceOnly } else w
  let w := if panel.clickSpinModel then { w with spinModel := !w.spinModel } else w
  let w := if panel.clickEnableReflect then { w with enableReflect := !w.enableReflect } else w
  let w := match panel.comboModel with
    | some v => { w with selectedModel := v }
    | none => w
  let w := match panel.comboRefraction with
    | some v => { w with selectedRefractionMethod := v }
    | none => w
  let w := match panel.comboSkybox with
    | some v => { w with selectedSkybox := v }
    | none => w
  let started : Option (World α) :=
    if panel.buttonStartFPSTest then
      match index? modelOptions w.selectedModel,
            index? refractionOptions w.selectedRefractionMethod,
            index? skyboxOptions w.selectedSkybox with
      | some model, some refraction, some skybox =>
        let w := logFPSTestStart model refraction skybox w
        some { w with fpsTracker := w.fpsTracker.start 1000 }
      | _, _, _ => none
    else some w
  match started with
  | none => none
  | some w =>
    let w := if panel.clickZoomIn then { w with zoomIn := !w.zoomIn } else w
    let w := if panel.buttonScreenshot then { w with takeScreenshot := true } else w
    some w

end ImGuiDefs

/-! ## `main.cpp` -/

section MainDefs

variable {α : Type} [LinearOrderedField α] [FloorRing α]

/-- The constant `cameraSpeed`. -/
def cameraSpeed : α := 3
/-- The constant `mouseSensitivity` (0.1). -/
def mouseSensitivity : α := 1 / 10
/-- The constant `cameraZoom`. -/
def cameraZoom : α := 50
/-- The constant `xPosInit`. -/
def xPosInit : α := 0
/-- The constant `yPosInit`. -/
def yPosInit : α := 0
/-- The constant `zPosInit`. -/
def zPosInit : α := 5

/-- The global `camera`, `Camera camera(glm::vec3(xPosInit, yPosInit, zPosInit))`
with the constructor's default arguments. -/
def mainCamera (ops : FloatOps α) : Camera α :=
  Camera.new ops ⟨xPosInit, yPosInit, zPosInit⟩ ⟨0, 1, 0⟩ YAW PITCH false 0 true

/-- The program state when `main` starts: the initialisers of the global
variables, a fresh OpenGL context and an empty trace. -/
def World.initial (ops : FloatOps α) : World α where
  gl := GLState.initial
  trace := []
  windowShouldClose := false
  SCREEN_WIDTH := 1920
  SCREEN_HEIGHT := 1080
  firstMouse := true
  xPrev := 1920 / 2
  yPrev := 1080 / 2
  deltaTime := 0
  prevFrame := 0
  elapsedTime := 0
  allModels := []
  rotY := 0
  graffitiSkyboxVAO := 0
  graffitiCubemapTexture := 0
  nightSkyboxVAO := 0
  nightCubemapTexture := 0
  museumSkyboxVAO := 0
  museumCubemapTexture := 0
  backfaceFBO := 0
  backfaceNormalTex := 0
  backfaceDepthTex := 0
  camera := mainCamera ops
  IKeyReleased := true
  fpsTracker := FPSTracker.initial
  IOR := 3 / 2
  selectedModel := TeaPot
  selectedRefractionMethod := OneSurface
  selectedSkybox := Graffiti
  spinModel := false
  enableReflect := true
  ImGuiUseMouse := true
  screenSpaceOnly := false
  takeScreenshot := false
  zoomIn := false

/-- `loadModels`. -/
def loadModels (imp : Importer α) (w : World α) : Option (World α) :=
  let w := { w with allModels := [] }
  match Model.new imp "models/teapot.fbx" "Teapot" w with
  | none => none
  | some (teapotModel, w) =>
  let w := { w with allModels := w.allModels ++ [teapotModel] }
  match Model.new imp "models/donut.fbx" "Donut" w with
  | none => none
  | some (donutModel, w) =>
  let w := { w with allModels := w.allModels ++ [donutModel] }
  match Model.new imp "models/sphere.fbx" "Sphere" w with
  | none => none
  | some (sphereModel, w) =>
  let w := { w with allModels := w.allModels ++ [sphereModel] }
  match Model.new imp "models/suzanne_monkey.fbx" "Monkey" w with
  | none => none
  | some (monkeyModel, w) =>
  let w := { w with allModels := w.allModels ++ [monkeyModel] }
  match Model.new imp "models/buddha.fbx" "Buddha" w with
  | none => none
  | some (buddhaModel, w) =>
  some { w with allModels := w.allModels ++ [buddhaModel] }

/-- `setupCamera`. -/
def setupCamera (w : World α) : World α :=
  let camera := w.camera.setMouseSensitivity mouseSensitivity
  let camera := camera.setCameraMovementSpeed cameraSpeed
  let camera := camera.setZoom cameraZoom
  let camera := camera.setFPSCamera false yPosInit
  let camera := camera.setZoomEnabled false
  { w with camera := camera }

/-- The block of `main` that creates the backface framebuffer: the framebuffer
object, the RGBA16F normal texture and the 32-bit depth texture, both of
`SCREEN_WIDTH` by `SCREEN_HEIGHT`, their attachment, the draw-buffer list, the
completeness check and the final unbind.  `complete` tells whether
`glCheckFramebufferStatus` answers `GL_FRAMEBUFFER_COMPLETE`. -/
def setupBackfaceFramebuffer (complete : Bool) (w : World α) : World α :=
  let (fbo, w) := w.glGenFramebuffers
  let w := { w with backfaceFBO := fbo }
  let w := w.glBindFramebuffer w.backfaceFBO
  let (tex, w) := w.glGenTextures
  let w := { w with backfaceNormalTex := tex }
  let w := w.glBindTexture TextureTarget.GL_TEXTURE_2D w.backfaceNormalTex
  let w := w.glTexImage2D TextureFormat.GL_RGBA16F (toInt w.SCREEN_WIDTH) (toInt w.SCREEN_HEIGHT)
  let w := w.glTexParameteri TextureParameter.GL_TEXTURE_MIN_FILTER TextureParameterValue.GL_NEAREST
  let w := w.glTexParameteri TextureParameter.GL_TEXTURE_MAG_FILTER TextureParameterValue.GL_NEAREST
  let w := w.glTexParameteri TextureParameter.GL_TEXTURE_WRAP_S
    TextureParameterValue.GL_CLAMP_TO_EDGE
  let w := w.glTexParameteri TextureParameter.GL_TEXTURE_WRAP_T
    TextureParameterValue.GL_CLAMP_TO_EDGE
  let w := w.glFramebufferTexture2D Attachment.GL_COLOR_ATTACHMENT0 w.backfaceNormalTex
  let (tex, w) := w.glGenTextures
  let w := { w with backfaceDepthTex := tex }
  let w := w.glBindTexture TextureTarget.GL_TEXTURE_2D w.backfaceDepthTex
  let w := w.glTexImage2D TextureFormat.GL_DEPTH_COMPONENT32F (toInt w.SCREEN_WIDTH)
    (toInt w.SCREEN_HEIGHT)
  let w := w.glTexParameteri TextureParameter.GL_TEXTURE_MIN_FILTER TextureParameterValue.GL_NEAREST
  let w := w.glTexParameteri TextureParameter.GL_TEXTURE_MAG_FILTER TextureParameterValue.GL_NEAREST
  let w := w.glTexParameteri TextureParameter.GL_TEXTURE_WRAP_S
    TextureParameterValue.GL_CLAMP_TO_EDGE
  let w := w.glTexParameteri TextureParameter.GL_TEXTURE_WRAP_T
    TextureParameterValue.GL_CLAMP_TO_EDGE
  let w := w.glFramebufferTexture2D Attachment.GL_DEPTH_ATTACHMENT w.backfaceDepthTex
  let w := w.glDrawBuffers [Attachment.GL_COLOR_ATTACHMENT0]
  let w := w.emit Op.glCheckFramebufferStatus
  let w := if complete = false then
      w.cerr [LogItem.str "ERROR::FRAMEBUFFER:: Backface FBO is not complete!", LogItem.str "\n"]
    else w
  w.glBindFramebuffer 0

/-- `drawSkyBox`. -/
def drawSkyBox (skyboxShader : Shader) (projection view : Mat4 α) (w : World α) : World α :=
  let w := w.glDisable Capability.GL_DEPTH_TEST
  let w := skyboxShader.use w
  let viewNoTrans : Mat4 α := mat4OfMat3 (mat3OfMat4 view)
  let w := skyboxShader.setMat4 "view" viewNoTrans w
  let w := skyboxShader.setMat4 "projection" projection w
  let w := w.glActiveTexture 0
  let w :=
    if w.selectedSkybox = Graffiti then
      let w := w.glBindTexture TextureTarget.GL_TEXTURE_CUBE_MAP w.graffitiCubemapTexture
      w.glBindVertexArray w.graffitiSkyboxVAO
    else if w.selectedSkybox = NightSky then
      let w := w.glBindTexture TextureTarget.GL_TEXTURE_CUBE_MAP w.nightCubemapTexture
      w.glBindVertexArray w.nightSkyboxVAO
    else if w.selectedSkybox = Museum then
      let w := w.glBindTexture TextureTarget.GL_TEXTURE_CUBE_MAP w.museumCubemapTexture
      w.glBindVertexArray w.museumSkyboxVAO
    else w
  let w := skyboxShader.setInt "skybox" 0 w
  let w := w.glDrawArrays 0 36
  let w := w.glBindVertexArray 0
  w.glEnable Capability.GL_DEPTH_TEST

/-- `drawModel`; its entry and each of its two returns are recorded in the
trace.  None when `selectedModel` indexes outside `allModels`. -/
def drawModel (ops : FrameOps α) (shader : Shader) (projection view : Mat4 α)
    (shaderType : Int) (w : World α) : Option (World α) :=
  let w := w.emit (Op.drawModel shader.ID shaderType)
  let w := shader.use w
  let model : Mat4 α := identityMat4
  let model := ops.rotate model (radians ops.toFloatOps w.rotY) ⟨0, 1, 0⟩
  let w := shader.setMat4 "model" model w
  let w := shader.setMat4 "view" view w
  let w := shader.setMat4 "projection" projection w
  let uniforms : Option (World α) :=
    if shaderType = OneSurfaceShader then
      let w := shader.setFloat "modelIOR" w.IOR w
      let w := shader.setBool "reflectEnable" w.enableReflect w
      some (shader.setInt "skybox" 0 w)
    else if shaderType = TwoSurfacesBackFaceShader then
      some w
    else if shaderType = TwoSurfacesFrontFaceShader then
      let w := shader.setFloat "modelIOR" w.IOR w
      let w := shader.setBool "reflectEnable" w.enableReflect w
      let w := shader.setBool "viewSpaceOnly" w.screenSpaceOnly w
      let w := shader.setInt "skybox" 0 w
      let w := shader.setInt "backfaceNormalTex" 1 w
      some (shader.setInt "backfaceDepthTex" 2 w)
    else none
  match uniforms with
  | none =>
    let w := w.cerr [LogItem.str "Invalid shader type provided to drawModel(). Returning.\n"]
    some (w.emit Op.drawModelReturn)
  | some w =>
    match index? w.allModels w.selectedModel with
    | none => none
    | some m =>
      let w := m.draw shader w
      some (w.emit Op.drawModelReturn)

/-- The `switch (selectedRefractionMethod)` of the render loop. -/
def refractionDispatch (ops : FrameOps α) (sh : Shaders) (projection view : Mat4 α)
    (w : World α) : Option (World α) :=
  if w.selectedRefractionMethod = OneSurface then
    drawModel ops sh.refractionShader projection view OneSurfaceShader w
  else if w.selectedRefractionMethod = TwoSurfaces then
    let w := w.glBindFramebuffer w.backfaceFBO
    let w := w.glViewport 0 0 (toInt w.SCREEN_WIDTH) (toInt w.SCREEN_HEIGHT)
    let w := w.glClear true true
    let w := w.glEnable Capability.GL_CULL_FACE
    let w := w.glCullFace FaceMode.GL_FRONT
    match drawModel ops sh.backfaceShader projection view TwoSurfacesBackFaceShader w with
    | none => none
    | some w =>
      let w := w.glCullFace FaceMode.GL_BACK
      let w := w.glBindFramebuffer 0
      let w := w.glActiveTexture 1
      let w := w.glBindTexture TextureTarget.GL_TEXTURE_2D w.backfaceNormalTex
      let w := w.glActiveTexture 2
      let w := w.glBindTexture TextureTarget.GL_TEXTURE_2D w.backfaceDepthTex
      drawModel ops sh.frontfaceShader projection view TwoSurfacesFrontFaceShader w
  else
    drawModel ops sh.refractionShader projection view OneSurfaceShader w

/-- The screenshot file name built in the render loop; none when a selection
indexes outside its option array. -/
def screenshotFileName (w : World α) : Option String :=
  let refractType : String :=
    if w.selectedRefractionMethod = TwoSurfaces then
      if w.screenSpaceOnly then "_2_surfaces_dv_only" else "_2_surfaces_dn_dv"
    else "_1_surface"
  let IOR_3dp : String := fixed3 w.IOR
  match index? modelOptions w.selectedModel, index? skyboxOptions w.selectedSkybox with
  | some model, some skybox =>
    some (model ++ "_" ++ skybox ++ "_" ++ "IOR_" ++ IOR_3dp ++ refractType ++ ".png")
  | _, _ => none

/-- The `if (takeScreenshot)` block of the render loop. -/
def screenshotStep (w : World α) : Option (World α) :=
  if w.takeScreenshot then
    match screenshotFileName w with
    | none => none
    | some fileName =>
      let w := saveScreenshot fileName (toInt w.SCREEN_WIDTH) (toInt w.SCREEN_HEIGHT) w
      some { w with takeScreenshot := false }
  else some w

/-- `processUserInput`; `keys k` tells whether `glfwGetKey(window, k)` is
`GLFW_PRESS` (it is `GLFW_RELEASE` otherwise). -/
def processUserInput (keys : Int → Bool) (w : World α) : World α :=
  let w := if keys GLFW_KEY_ESCAPE then
      { w.emit Op.glfwSetWindowShouldClose with windowShouldClose := true }
    else w
  let w := if keys GLFW_KEY_W then
      { w with camera := w.camera.processKeyboardInput GLFW_KEY_W w.deltaTime } else w
  let w := if keys GLFW_KEY_A then
      { w with camera := w.camera.processKeyboardInput GLFW_KEY_A w.deltaTime } else w
  let w := if keys GLFW_KEY_S then
      { w with camera := w.camera.processKeyboardInput GLFW_KEY_S w.deltaTime } else w
  let w := if keys GLFW_KEY_D then
      { w with camera := w.camera.processKeyboardInput GLFW_KEY_D w.deltaTime } else w
  let w := if keys GLFW_KEY_Q then
      { w with camera := w.camera.processKeyboardInput GLFW_KEY_Q w.deltaTime } else w
  let w := if keys GLFW_KEY_E then
      { w with camera := w.camera.processKeyboardInput GLFW_KEY_E w.deltaTime } else w
  let w := if keys GLFW_KEY_R then
      let camera := { w.camera with position := ⟨xPosInit, yPosInit, zPosInit⟩ }
      let camera := camera.setMouseSensitivity mouseSensitivity
      let camera := camera.setCameraMovementSpeed cameraSpeed
      let camera := camera.setZoom cameraZoom
      { w with rotY := 0, camera := camera }
    else w
  let w := if keys GLFW_KEY_I && w.IKeyReleased then
      let w := { w with IKeyReleased := false }
      if w.ImGuiUseMouse = false then
        { w.emit (Op.glfwSetInputMode CursorMode.GLFW_CURSOR_NORMAL) with ImGuiUseMouse := true }
      else
        { w.emit (Op.glfwSetInputMode CursorMode.GLFW_CURSOR_DISABLED) with ImGuiUseMouse := false }
    else w
  if keys GLFW_KEY_I = false then { w with IKeyReleased := true } else w

/-- `frameBufferSizeCallback`. -/
def frameBufferSizeCallback (width height : Int) (w : World α) : World α :=
  if width = 0 ∨ height = 0 then w
  else
    let w := w.glViewport 0 0 width height
    { w with SCREEN_WIDTH := intToUInt width, SCREEN_HEIGHT := intToUInt height }

/-- A finite sequence of `frameBufferSizeCallback(width, height)` calls. -/
def resizeSequence (sizes : List (Int × Int)) (w : World α) : World α :=
  sizes.foldl (fun w s => frameBufferSizeCallback s.1 s.2 w) w

/-- `mouseCallback`. -/
def mouseCallback (ops : FrameOps α) (xIn yIn : α) (w : World α) : World α :=
  if w.ImGuiUseMouse then { w with xPrev := xIn, yPrev := yIn }
  else
    let x := xIn
    let y := yIn
    let w := if w.firstMouse then { w with xPrev := x, yPrev := y, firstMouse := false } else w
    let xOff := x - w.xPrev
    let yOff := w.yPrev - y
    let w := { w with xPrev := x, yPrev := y }
    { w with camera := w.camera.processMouseMovement ops.toFloatOps xOff yOff }

/-- `scrollCallback`. -/
def scrollCallback (_xOff yOff : α) (w : World α) : World α :=
  { w with camera := w.camera.processMouseScroll yOff }

/-- `glfwPollEvents`: the pending callbacks, in order. -/
def glfwPollEvents (ops : FrameOps α) (events : List (WindowEvent α)) (w : World α) : World α :=
  events.foldl
    (fun w e =>
      match e with
      | WindowEvent.framebufferSize width height => frameBufferSizeCallback width height w
      | WindowEvent.cursorPos xIn yIn => mouseCallback ops xIn yIn w
      | WindowEvent.scroll xOff yOff => scrollCallback xOff yOff w)
    (w.emit Op.glfwPollEvents)

/-- The body of the `while (!glfwWindowShouldClose(window))` loop of `main`. -/
def renderLoopIteration (ops : FrameOps α) (sh : Shaders) (inp : FrameInput α) (w : World α) :
    Option (World α) :=
  let w := w.glClearColor (1 / 10) (1 / 10) (1 / 10) 1
  let w := w.glClear true true
  let currentFrame := inp.time
  let w := { w with deltaTime := currentFrame - w.prevFrame }
  let w := { w with elapsedTime := w.elapsedTime + w.deltaTime }
  let w := { w with prevFrame := currentFrame }
  let w := if w.spinModel then
      let w := { w with rotY := w.rotY + 20 * w.deltaTime }
      { w with rotY := fmodf w.rotY 360 }
    else w
  let w := processUserInput inp.keys w
  let w := if w.fpsTracker.active = false then ImGuiNewFrame w else w
  let w := if w.zoomIn then { w with camera := { w.camera with position := ⟨0, 0, 4⟩ } }
    else { w with camera := { w.camera with position := ⟨0, 0, 5⟩ } }
  let view : Mat4 α :=
    ops.lookAt w.camera.position (w.camera.position.add w.camera.front) w.camera.up
  let projection : Mat4 α :=
    ops.perspective (radians ops.toFloatOps w.camera.zoom)
      ((w.SCREEN_WIDTH : α) / (w.SCREEN_HEIGHT : α)) (1 / 10) 1000
  let w := if w.fpsTracker.active then
      let r := w.fpsTracker.update w.deltaTime
      r.2.foldl (fun w items => w.cout items) { w with fpsTracker := r.1 }
    else w
  let w := drawSkyBox sh.skyboxShader projection view w
  match refractionDispatch ops sh projection view w with
  | none => none
  | some w =>
    match screenshotStep w with
    | none => none
    | some w =>
      let drawn : Option (World α) :=
        if w.fpsTracker.active = false then ImGuiDrawWindow inp.panel w else some w
      match drawn with
      | none => none
      | some w =>
        let w := w.emit Op.glfwSwapBuffers
        some (glfwPollEvents ops inp.events w)

/-- The render loop over the inputs of successive iterations: an iteration
runs while the window's close flag is not set. -/
def renderLoop (ops : FrameOps α) (sh : Shaders) :
    List (FrameInput α) → World α → Option (World α)
  | [], w => some w
  | inp :: rest, w =>
    if w.windowShouldClose then some w
    else
      match renderLoopIteration ops sh inp w with
      | none => none
      | some w => renderLoop ops sh rest w

/-- The body of the render loop up to the `camera.getViewMatrix()` call: the
state in which the view matrix is built. -/
def iterationUntilView (inp : FrameInput α) (w : World α) : World α :=
  let w := w.glClearColor (1 / 10) (1 / 10) (1 / 10) 1
  let w := w.glClear true true
  let currentFrame := inp.time
  let w := { w with deltaTime := currentFrame - w.prevFrame }
  let w := { w with elapsedTime := w.elapsedTime + w.deltaTime }
  let w := { w with prevFrame := currentFrame }
  let w := if w.spinModel then
      let w := { w with rotY := w.rotY + 20 * w.deltaTime }
      { w with rotY := fmodf w.rotY 360 }
    else w
  let w := processUserInput inp.keys w
  let w := if w.fpsTracker.active = false then ImGuiNewFrame w else w
  if w.zoomIn then { w with camera := { w.camera with position := ⟨0, 0, 4⟩ } }
  else { w with camera := { w.camera with position := ⟨0, 0, 5⟩ } }

/-- The body of the render loop from the `camera.getViewMatrix()` call on. -/
def iterationFromView (ops : FrameOps α) (sh : Shaders) (inp : FrameInput α) (w : World α) :
    Option (World α) :=
  let view : Mat4 α :=
    ops.lookAt w.camera.position (w.camera.position.add w.camera.front) w.camera.up
  let projection : Mat4 α :=
    ops.perspective (radians ops.toFloatOps w.camera.zoom)
      ((w.SCREEN_WIDTH : α) / (w.SCREEN_HEIGHT : α)) (1 / 10) 1000
  let w := if w.fpsTracker.active then
      let r := w.fpsTracker.update w.deltaTime
      r.2.foldl (fun w items => w.cout items) { w with fpsTracker := r.1 }
    else w
  let w := drawSkyBox sh.skyboxShader projection view w
  match refractionDispatch ops sh projection view w with
  | none => none
  | some w =>
    match screenshotStep w with
    | none => none
    | some w =>
      let drawn : Option (World α) :=
        if w.fpsTracker.active = false then ImGuiDrawWindow inp.panel w else some w
      match drawn with
      | none => none
      | some w =>
        let w := w.emit Op.glfwSwapBuffers
        some (glfwPollEvents ops inp.events w)

/-- The camera positions at the `camera.getViewMatrix()` calls of the
successive iterations of the render loop. -/
def viewPositions (ops : FrameOps α) (sh : Shaders) :
    List (FrameInput α) → World α → List (Vec3 α)
  | [], _ => []
  | inp :: rest, w =>
    if w.windowShouldClose then []
    else
      (iterationUntilView inp w).camera.position ::
        match renderLoopIteration ops sh inp w with
        | none => []
        | some w => viewPositions ops sh rest w

/-- Two iteration inputs that differ at most in the state of the movement keys
W, A, S, D, Q, E and R. -/
def SameButMovementKeys (inp inp2 : FrameInput α) : Prop :=
  inp.time = inp2.time ∧ inp.panel = inp2.panel ∧ inp.events = inp2.events ∧
  ∀ key : Int,
    key ∉ [GLFW_KEY_W, GLFW_KEY_A, GLFW_KEY_S, GLFW_KEY_D, GLFW_KEY_Q, GLFW_KEY_E,
      GLFW_KEY_R] →
    inp.keys key = inp2.keys key

/-- The operations issued during one iteration started in state `w`. -/
def iterationTrace (ops : FrameOps α) (sh : Shaders) (inp : FrameInput α) (w : World α) :
    Option (List (Entry α)) :=
  (renderLoopIteration ops sh inp { w with trace := [] }).map World.trace

end MainDefs

/-! ## Observations on scenes and traces -/

mutual
/-- Every node of the tree references zero meshes. -/
def aiNode.noMeshes : aiNode → Bool
  | aiNode.mk mMeshes mChildren => mMeshes.isEmpty && aiNode.noMeshesList mChildren
/-- Every node of every tree of the list references zero meshes. -/
def aiNode.noMeshesList : List aiNode → Bool
  | [] => true
  | child :: rest => aiNode.noMeshes child && aiNode.noMeshesList rest
end

section Observations

variable {α : Type}

/-- The indexed-draw calls of a trace, in order: for each `glDrawElements`, the
vertex array bound when it was issued and its index count. -/
def indexedDraws (tr : List (Entry α)) : List (Nat × Int) :=
  tr.filterMap fun e =>
    match e.op with
    | Op.glDrawElements count => some (e.gl.vertexArray, count)
    | _ => none

/-- One `drawModel` submission: the shader and shader type it was called with,
and the context states of its entry and of every operation issued up to and
including its return. -/
structure DrawModelCall where
  shader : Nat
  shaderType : Int
  states : List GLState

/-- The entries of a trace up to and including the first return of
`drawModel`. -/
def untilReturn : List (Entry α) → List (Entry α)
  | [] => []
  | e :: rest =>
    match e.op with
    | Op.drawModelReturn => [e]
    | _ => e :: untilReturn rest

/-- The `drawModel` submissions of a trace, in order. -/
def drawModelCalls : List (Entry α) → List DrawModelCall
  | [] => []
  | e :: rest =>
    match e.op with
    | Op.drawModel shader shaderType =>
      { shader := shader, shaderType := shaderType,
        states := e.gl :: (untilReturn rest).map Entry.gl } :: drawModelCalls rest
    | _ => drawModelCalls rest

/-- Whether an operation is neither the entry nor the return of `drawModel`. -/
def quietOp : Op α → Bool
  | Op.drawModel _ _ => false
  | Op.drawModelReturn => false
  | _ => true

/-- State `w2` has the model list and the three selections of `w`. -/
def SameSel (w w2 : World α) : Prop :=
  w2.allModels = w.allModels ∧ w2.selectedModel = w.selectedModel ∧
  w2.selectedRefractionMethod = w.selectedRefractionMethod ∧
  w2.selectedSkybox = w.selectedSkybox

/-- State `w2` is reached from `w` by issuing operations other than the entry
and return of `drawModel`. -/
def Quiet (w w2 : World α) : Prop :=
  ∃ l : List (Entry α), w2.trace = w.trace ++ l ∧ ∀ e ∈ l, quietOp e.op = true

/-- State `w2` is reached from `w` by issuing operations other than the entry
and return of `drawModel`, keeping the model list and the three selections. -/
structure Frame (w w2 : World α) : Prop where
  trace : Quiet w w2
  sel : SameSel w w2

/-- State `w2` is reached from `w` by issuing operations other than the entry
and return of `drawModel`, each issued under the face-culling settings of `w`,
which `w2` keeps, as it keeps the model list and the three selections. -/
structure Step (w w2 : World α) : Prop where
  trace : ∃ l : List (Entry α), w2.trace = w.trace ++ l ∧
    ∀ e ∈ l, quietOp e.op = true ∧ e.gl.cullFace = w.gl.cullFace ∧
      e.gl.cullFaceMode = w.gl.cullFaceMode
  cullFace : w2.gl.cullFace = w.gl.cullFace
  cullFaceMode : w2.gl.cullFaceMode = w.gl.cullFaceMode
  sel : SameSel w w2

/-- State `w2` is reached from `w` by one complete `drawModel` submission: its
entry, operations issued under the face-culling settings of `w`, its return;
`w2` keeps those settings, the model list and the three selections. -/
structure Submits (shader : Nat) (shaderType : Int) (w w2 : World α) : Prop where
  trace : ∃ (body : List (Entry α)) (g : GLState),
    w2.trace = w.trace ++ ⟨Op.drawModel shader shaderType, w.gl⟩ ::
      (body ++ [⟨Op.drawModelReturn, g⟩]) ∧
    (∀ e ∈ body, quietOp e.op = true ∧ e.gl.cullFace = w.gl.cullFace ∧
      e.gl.cullFaceMode = w.gl.cullFaceMode) ∧
    g.cullFace = w.gl.cullFace ∧ g.cullFaceMode = w.gl.cullFaceMode
  cullFace : w2.gl.cullFace = w.gl.cullFace
  cullFaceMode : w2.gl.cullFaceMode = w.gl.cullFaceMode
  sel : SameSel w w2

/-- Every selection the iteration uses as an array index lies inside its
array: `selectedModel` inside `allModels` and `modelOptions`, `selectedSkybox`
inside `skyboxOptions`, and, when the panel's FPS-test button is pressed, the
three selections as the panel's combo boxes leave them inside their option
arrays. -/
def SelectionsInRange (inp : FrameInput α) (w : World α) : Prop :=
  (index? w.allModels w.selectedModel).isSome = true ∧
  (index? modelOptions w.selectedModel).isSome = true ∧
  (index? skyboxOptions w.selectedSkybox).isSome = true ∧
  (inp.panel.buttonStartFPSTest = true →
    (index? modelOptions (inp.panel.comboModel.getD w.selectedModel)).isSome = true ∧
    (index? refractionOptions
      (inp.panel.comboRefraction.getD w.selectedRefractionMethod)).isSome = true ∧
    (index? skyboxOptions (inp.panel.comboSkybox.getD w.selectedSkybox)).isSome = true)

end Observations

/-! ## Classes of operations and frames of the rendering code -/

/-- The `ImGuiNewFrame` and `ImGuiDrawWindow` calls, as they appear in a trace. -/
inductive ImGuiCall where
  | newFrame
  | drawWindow
  deriving DecidableEq, Repr

/-- The classes of operations: OpenGL command, shader collaborator call, entry
or return of `drawModel`, stream output, ImGui call, window-system call, file
output. -/
inductive OpClass where
  | gl
  | shader
  | marker
  | log
  | imgui
  | window
  | file
  deriving DecidableEq, Repr

/-- A context state with the current program, the vertex-array binding and the
active texture unit blanked: the part that drawing a model leaves alone. -/
def GLState.fixedPart (g : GLState) : GLState :=
  { g with program := 0, vertexArray := 0, activeTexture := 0 }

/-- The texture images and framebuffer attachments of a context state. -/
def GLState.store (g : GLState) :
    (Nat → Option (TextureFormat × Int × Int)) × (Nat → Nat) × (Nat → Nat) :=
  (g.textureImage, g.colorAttachment0, g.depthAttachment)

section Flows

variable {α : Type}

/-- The class of an operation. -/
def Op.cls : Op α → OpClass
  | Op.shaderUse _ => OpClass.shader
  | Op.setMat4 _ _ _ => OpClass.shader
  | Op.setFloat _ _ _ => OpClass.shader
  | Op.setBool _ _ _ => OpClass.shader
  | Op.setInt _ _ _ => OpClass.shader
  | Op.drawModel _ _ => OpClass.marker
  | Op.drawModelReturn => OpClass.marker
  | Op.cout _ => OpClass.log
  | Op.cerr _ => OpClass.log
  | Op.ImGuiNewFrame => OpClass.imgui
  | Op.ImGuiDrawWindow => OpClass.imgui
  | Op.saveScreenshot _ _ _ => OpClass.file
  | Op.glfwSetWindowShouldClose => OpClass.window
  | Op.glfwSetInputMode _ => OpClass.window
  | Op.glfwSwapBuffers => OpClass.window
  | Op.glfwPollEvents => OpClass.window
  | _ => OpClass.gl

/-- The `ImGuiNewFrame` and `ImGuiDrawWindow` calls of a trace, in order. -/
def imguiCalls (tr : List (Entry α)) : List ImGuiCall :=
  tr.filterMap fun e =>
    match e.op with
    | Op.ImGuiNewFrame => some ImGuiCall.newFrame
    | Op.ImGuiDrawWindow => some ImGuiCall.drawWindow
    | _ => none

/-- The integer uniforms set in a trace, in order: program, name, value. -/
def intUniforms (tr : List (Entry α)) : List (Nat × String × Int) :=
  tr.filterMap fun e =>
    match e.op with
    | Op.setInt id name value => some (id, name, value)
    | _ => none

/-- The matrices passed as the uniform `name` of program `id`, in order. -/
def mat4Uniforms (id : Nat) (name : String) (tr : List (Entry α)) : List (Mat4 α) :=
  tr.filterMap fun e =>
    match e.op with
    | Op.setMat4 i n v => if i = id ∧ n = name then some v else none
    | _ => none

/-- The `drawModel` submissions of a trace, in order, each as its entries from
the entry of `drawModel` up to and including its return. -/
def submissions : List (Entry α) → List (List (Entry α))
  | [] => []
  | e :: rest =>
    match e.op with
    | Op.drawModel _ _ => (e :: untilReturn rest) :: submissions rest
    | _ => submissions rest

/-- State `w2` with the context state and the trace taken from `src`. -/
def World.withContextOf (src w2 : World α) : World α :=
  { w2 with gl := src.gl, trace := src.trace }

/-- State `w2` with the context, the trace and the global variables written by
the input handling, the callbacks and the screenshot block taken from `src`. -/
def World.withInputsOf (src w2 : World α) : World α :=
  { w2 with
    gl := src.gl, trace := src.trace, windowShouldClose := src.windowShouldClose,
    SCREEN_WIDTH := src.SCREEN_WIDTH, SCREEN_HEIGHT := src.SCREEN_HEIGHT,
    firstMouse := src.firstMouse, xPrev := src.xPrev, yPrev := src.yPrev,
    rotY := src.rotY, camera := src.camera, IKeyReleased := src.IKeyReleased,
    ImGuiUseMouse := src.ImGuiUseMouse, takeScreenshot := src.takeScreenshot }

/-- State `w2` with the trace and the global variables written by the panel
taken from `src`. -/
def World.withPanelOf (src w2 : World α) : World α :=
  { w2 with
    trace := src.trace, fpsTracker := src.fpsTracker, IOR := src.IOR,
    selectedModel := src.selectedModel,
    selectedRefractionMethod := src.selectedRefractionMethod,
    selectedSkybox := src.selectedSkybox, spinModel := src.spinModel,
    enableReflect := src.enableReflect, screenSpaceOnly := src.screenSpaceOnly,
    takeScreenshot := src.takeScreenshot, zoomIn := src.zoomIn }

/-- State `w2` with the trace, the model rotation and the camera taken from
`src`. -/
def World.withViewOf (src w2 : World α) : World α :=
  { w2 with trace := src.trace, rotY := src.rotY, camera := src.camera }

/-- States `w` and `w2` have the same context state and agree on every global
variable other than `camera` and `rotY`; their traces may differ. -/
def SameButView (w w2 : World α) : Prop := World.withViewOf w w2 = w

/-- Two results that are both none, or both states that agree outside the
view. -/
def SameButViewResult : Option (World α) → Option (World α) → Prop
  | none, none => True
  | some w, some w2 => SameButView w w2
  | _, _ => False

/-- State `w2` is reached from `w` by issuing operations whose classes all
satisfy `S`. -/
def Emits (S : OpClass → Bool) (w w2 : World α) : Prop :=
  ∃ l : List (Entry α), w2.trace = w.trace ++ l ∧ ∀ e ∈ l, S e.op.cls = true

/-- State `w2` is reached from `w` by rendering: operations whose classes
satisfy `S`, each issued in a context state that differs from that of `w` at
most in the current program, the vertex-array binding and the active texture
unit, as the context state of `w2` does; every global variable keeps its
value. -/
structure Render (S : OpClass → Bool) (w w2 : World α) : Prop where
  trace : ∃ l : List (Entry α), w2.trace = w.trace ++ l ∧
    ∀ e ∈ l, S e.op.cls = true ∧ e.gl.fixedPart = w.gl.fixedPart
  gl : w2.gl.fixedPart = w.gl.fixedPart
  globals : World.withContextOf w w2 = w

/-- State `w2` is reached from `w` by issuing operations whose classes satisfy
`S`, keeping the texture images and framebuffer attachments and every global
variable outside those written by the input handling, the callbacks and the
screenshot block. -/
structure Flow (S : OpClass → Bool) (w w2 : World α) : Prop where
  trace : Emits S w w2
  store : w2.gl.store = w.gl.store
  settings : World.withInputsOf w w2 = w

/-- One complete `drawModel` submission leading from `w` to `w2`: its entry,
the operations of `body`, all shader calls or OpenGL commands, and its return,
issued in context state `g`; every context state differs from that of `w` at
most in the current program, the vertex-array binding and the active texture
unit, and every global variable keeps its value. -/
structure Submission (shader : Nat) (shaderType : Int) (w w2 : World α)
    (body : List (Entry α)) (g : GLState) : Prop where
  trace : w2.trace =
    w.trace ++ ⟨Op.drawModel shader shaderType, w.gl⟩ :: (body ++ [⟨Op.drawModelReturn, g⟩])
  body : ∀ e ∈ body,
    (e.op.cls = OpClass.shader ∨ e.op.cls = OpClass.gl) ∧ e.gl.fixedPart = w.gl.fixedPart
  ret : g.fixedPart = w.gl.fixedPart
  gl : w2.gl = g
  globals : World.withContextOf w w2 = w

/-- State `w2` is reached from `w` by stream output only, with the context
state and every global variable outside those written by the panel kept. -/
structure Panel (w w2 : World α) : Prop where
  trace : Emits (fun c => decide (c = OpClass.log)) w w2
  rest : World.withPanelOf w w2 = w

end Flows

/-! ## Sample inputs -/

/-- Four shader objects with distinct program handles. -/
def sampleShaders : Shaders :=
  { skyboxShader := ⟨1⟩, refractionShader := ⟨2⟩, backfaceShader := ⟨3⟩, frontfaceShader := ⟨4⟩ }

/-- An iteration in which no key is down, the panel is left alone and no
callback is pending, 1/60 s after the start. -/
def idleInput : FrameInput ℚ :=
  { time := 1 / 60
    keys := fun _ => false
    panel :=
      { sliderIOR := none, clickScreenSpaceOnly := false, clickSpinModel := false,
        clickEnableReflect := false, comboModel := none, comboRefraction := none,
        comboSkybox := none, buttonStartFPSTest := false, clickZoomIn := false,
        buttonScreenshot := false }
    events := [] }

/-- The initial state with one one-mesh model loaded and the two-surface
method selected. -/
def twoSurfaceWorld : World ℚ :=
  { World.initial approxOps with
    allModels := [{ meshes := [{ vertices := [], indices := [0, 1, 2], meshName := "",
                                 VAO := 1, VBO := 1, EBO := 2 }],
                    modelName := "Teapot" }]
    selectedRefractionMethod := TwoSurfaces }

/-- The two-surface sample state after the backface framebuffer has been
created. -/
def readyWorld : World ℚ := setupBackfaceFramebuffer true twoSurfaceWorld

/-- The sample state with a refraction method outside the enumeration. -/
def strayMethodWorld : World ℚ := { twoSurfaceWorld with selectedRefractionMethod := 7 }

/-- The sample state in which the FPS test has sampled 999 of its 1000 frames. -/
def lastSampleWorld : World ℚ :=
  { twoSurfaceWorld with
    fpsTracker := { minFPS := 60, maxFPS := 60, totalFPS := 59940, frameCount := 999,
                    frameLimit := 1000, active := true } }

/-- The initial state with texture unit 3 active and vertex array 7 bound. -/
def boundWorld : World ℚ :=
  { World.initial approxOps with
    gl := { GLState.initial with activeTexture := 3, vertexArray := 7 } }

/-- The idle iteration input with the W key held down. -/
def forwardInput : FrameInput ℚ :=
  { idleInput with keys := fun k => decide (k = GLFW_KEY_W) }

/-! ## Theorems: camera -/

section CameraTheorems

variable {α : Type} [LinearOrderedField α]

theorem processMouseMovement_pitch (ops : FloatOps α) (c : Camera α) (xOff yOff : α) :
    (MIN_PITCH : α) ≤ (Camera.processMouseMovement ops c xOff yOff).pitch ∧
    (Camera.processMouseMovement ops c xOff yOff).pitch ≤ MAX_PITCH := by
  simp only [Camera.processMouseMovement, Camera.updateCameraVectors, MIN_PITCH, MAX_PITCH]
  split_ifs <;> constructor <;> linarith

theorem take_succ_snoc {β : Type} (l : List β) (k : Nat) (hk : k < l.length) :
    l.take (k + 1) = l.take k ++ [l.get ⟨k, hk⟩] := by
  induction l generalizing k with
  | nil => simp at hk
  | cons a t ih =>
    cases k with
    | zero => simp
    | succ n =>
      have hn : n < t.length := by simpa using hk
      have h := ih n hn
      simp only [List.take_succ_cons, List.cons_append, List.get_cons_succ]
      rw [h]

/-- C1: for every camera state and every sequence of `processMouseMovement`
calls, the pitch after each call (after the first `k` calls, for every
`0 < k ≤ length`) lies in [-89, 89]. -/
theorem pitch_clamped_after_each_call (ops : FloatOps α) (c : Camera α)
    (moves : List (α × α)) (k : Nat) (hk : 0 < k) (hkl : k ≤ moves.length) :
    (-89 : α) ≤ (Camera.lookSequence ops c (moves.take k)).pitch ∧
    (Camera.lookSequence ops c (moves.take k)).pitch ≤ 89 := by
  obtain ⟨n, rfl⟩ : ∃ n, k = n + 1 := ⟨k - 1, by omega⟩
  have hn : n < moves.length := by omega
  rw [take_succ_snoc moves n hn]
  simp only [Camera.lookSequence, List.foldl_append, List.foldl_cons, List.foldl_nil]
  have h := processMouseMovement_pitch ops
    (List.foldl (fun c m => Camera.processMouseMovement ops c m.1 m.2) c (moves.take n))
    (moves.get ⟨n, hn⟩).1 (moves.get ⟨n, hn⟩).2
  simpa [MIN_PITCH, MAX_PITCH] using h

theorem pitch_clamped_after_each_call_witness :
    0 < 2 ∧ 2 ≤ ([(1000, 5000), (3, -70000)] : List (ℚ × ℚ)).length ∧
    (-89 : ℚ) ≤ (Camera.lookSequence approxOps (mainCamera approxOps)
        (([(1000, 5000), (3, -70000)] : List (ℚ × ℚ)).take 2)).pitch ∧
    (Camera.lookSequence approxOps (mainCamera approxOps)
        (([(1000, 5000), (3, -70000)] : List (ℚ × ℚ)).take 2)).pitch ≤ 89 :=
  ⟨by decide, by simp,
    pitch_clamped_after_each_call approxOps _ [(1000, 5000), (3, -70000)] 2 (by decide) (by simp)⟩

theorem processMouseScroll_enabled (c : Camera α) (hz : c.zoomEnabled = true) (yOff : α) :
    (c.processMouseScroll yOff).zoom = min (max (c.zoom - yOff) 1) 60 ∧
    (c.processMouseScroll yOff).zoomEnabled = true := by
  simp only [Camera.processMouseScroll, hz, if_true, MIN_ZOOM, MAX_ZOOM]
  refine ⟨?_, trivial⟩
  by_cases h1 : c.zoom - yOff < 1
  · have h2 : ¬ ((1 : α) > 60) := by norm_num
    rw [if_pos h1, if_neg h2, max_eq_right h1.le, min_eq_left (by norm_num)]
  · rw [if_neg h1]
    have h1' : (1 : α) ≤ c.zoom - yOff := not_lt.mp h1
    rw [max_eq_left h1']
    by_cases h2 : c.zoom - yOff > 60
    · rw [if_pos h2, min_eq_right h2.le]
    · rw [if_neg h2, min_eq_left (not_lt.mp h2)]

theorem scrollSequence_zoomEnabled (c : Camera α) (hz : c.zoomEnabled = true) (offs : List α) :
    (Camera.scrollSequence c offs).zoomEnabled = true := by
  induction offs generalizing c with
  | nil => simpa [Camera.scrollSequence] using hz
  | cons y t ih =>
    simp only [Camera.scrollSequence, List.foldl_cons]
    exact ih (c.processMouseScroll y) (processMouseScroll_enabled c hz y).2

/-- C2: with zoom enabled, one `processMouseScroll(yOff)` sets the zoom to
`clamp(zoom - yOff, 1, 60)`, and after each call of a sequence (after the first
`k` calls, for every `0 < k ≤ length`) the zoom lies in [1, 60]. -/
theorem zoom_clamped_when_enabled (c : Camera α) (hz : c.zoomEnabled = true) :
    (∀ yOff : α, (c.processMouseScroll yOff).zoom = min (max (c.zoom - yOff) 1) 60) ∧
    (∀ (offs : List α) (k : Nat), 0 < k → k ≤ offs.length →
      (1 : α) ≤ (Camera.scrollSequence c (offs.take k)).zoom ∧
      (Camera.scrollSequence c (offs.take k)).zoom ≤ 60) := by
  refine ⟨fun yOff => (processMouseScroll_enabled c hz yOff).1, ?_⟩
  intro offs k hk hkl
  obtain ⟨n, rfl⟩ : ∃ n, k = n + 1 := ⟨k - 1, by omega⟩
  have hn : n < offs.length := by omega
  rw [take_succ_snoc offs n hn]
  have he := scrollSequence_zoomEnabled c hz (offs.take n)
  simp only [Camera.scrollSequence] at he
  simp only [Camera.scrollSequence, List.foldl_append, List.foldl_cons, List.foldl_nil]
  rw [(processMouseScroll_enabled _ he _).1]
  exact ⟨le_min (le_max_right _ _) (by norm_num), min_le_right _ _⟩

theorem zoom_clamped_when_enabled_witness :
    (mainCamera approxOps).zoomEnabled = true ∧
    (∀ yOff : ℚ, ((mainCamera approxOps).processMouseScroll yOff).zoom =
      min (max ((mainCamera approxOps).zoom - yOff) 1) 60) ∧
    (∀ (offs : List ℚ) (k : Nat), 0 < k → k ≤ offs.length →
      (1 : ℚ) ≤ (Camera.scrollSequence (mainCamera approxOps) (offs.take k)).zoom ∧
      (Camera.scrollSequence (mainCamera approxOps) (offs.take k)).zoom ≤ 60) :=
  ⟨rfl, zoom_clamped_when_enabled (mainCamera approxOps) rfl⟩

/-- C3: with zoom disabled, a sequence of `processMouseScroll` calls leaves the
camera, its zoom included, exactly as it was, whatever the starting zoom. -/
theorem scroll_noop_when_disabled (c : Camera α) (hz : c.zoomEnabled = false)
    (offs : List α) : Camera.scrollSequence c offs = c := by
  induction offs with
  | nil => rfl
  | cons y t ih =>
    have h1 : c.processMouseScroll y = c := by
      simp [Camera.processMouseScroll, hz]
    simpa [Camera.scrollSequence, h1] using ih

theorem scroll_noop_when_disabled_witness :
    ((setupCamera (World.initial approxOps)).camera.setZoom 500).zoomEnabled = false ∧
    Camera.scrollSequence ((setupCamera (World.initial approxOps)).camera.setZoom 500)
      [3, -7, 1000] = (setupCamera (World.initial approxOps)).camera.setZoom 500 :=
  ⟨rfl, scroll_noop_when_disabled _ rfl [3, -7, 1000]⟩

/-- C4: for a camera in fixed-height mode, after `processKeyboardInput` with
any key code and any `deltaTime` the position's y equals `fixedYPos`, and x and
z are those of the translation along front, right or up by
`movementSpeed * deltaTime` selected by the key (unchanged for any other key
code). -/
theorem fixed_height_after_keyboard (c : Camera α) (hf : c.fps = true) (direction : Int)
    (deltaTime : α) :
    (c.processKeyboardInput direction deltaTime).position.y = c.fixedYPos ∧
    (direction = GLFW_KEY_W →
      (c.processKeyboardInput direction deltaTime).position.x =
        c.position.x + c.front.x * (c.movementSpeed * deltaTime) ∧
      (c.processKeyboardInput direction deltaTime).position.z =
        c.position.z + c.front.z * (c.movementSpeed * deltaTime)) ∧
    (direction = GLFW_KEY_A →
      (c.processKeyboardInput direction deltaTime).position.x =
        c.position.x - c.right.x * (c.movementSpeed * deltaTime) ∧
      (c.processKeyboardInput direction deltaTime).position.z =
        c.position.z - c.right.z * (c.movementSpeed * deltaTime)) ∧
    (direction = GLFW_KEY_S →
      (c.processKeyboardInput direction deltaTime).position.x =
        c.position.x - c.front.x * (c.movementSpeed * deltaTime) ∧
      (c.processKeyboardInput direction deltaTime).position.z =
        c.position.z - c.front.z * (c.movementSpeed * deltaTime)) ∧
    (direction = GLFW_KEY_D →
      (c.processKeyboardInput direction deltaTime).position.x =
        c.position.x + c.right.x * (c.movementSpeed * deltaTime) ∧
      (c.processKeyboardInput direction deltaTime).position.z =
        c.position.z + c.right.z * (c.movementSpeed * deltaTime)) ∧
    (direction = GLFW_KEY_Q →
      (c.processKeyboardInput direction deltaTime).position.x =
        c.position.x + c.up.x * (c.movementSpeed * deltaTime) ∧
      (c.processKeyboardInput direction deltaTime).position.z =
        c.position.z + c.up.z * (c.movementSpeed * deltaTime)) ∧
    (direction = GLFW_KEY_E →
      (c.processKeyboardInput direction deltaTime).position.x =
        c.position.x - c.up.x * (c.movementSpeed * deltaTime) ∧
      (c.processKeyboardInput direction deltaTime).position.z =
        c.position.z - c.up.z * (c.movementSpeed * deltaTime)) ∧
    (direction ≠ GLFW_KEY_W → direction ≠ GLFW_KEY_A → direction ≠ GLFW_KEY_S →
      direction ≠ GLFW_KEY_D → direction ≠ GLFW_KEY_Q → direction ≠ GLFW_KEY_E →
      (c.processKeyboardInput direction deltaTime).position.x = c.position.x ∧
      (c.processKeyboardInput direction deltaTime).position.z = c.position.z) := by
  refine ⟨by simp [Camera.processKeyboardInput, hf], ?_, ?_, ?_, ?_, ?_, ?_, ?_⟩
  · rintro rfl
    simp [Camera.processKeyboardInput, hf, GLFW_KEY_W, GLFW_KEY_A, GLFW_KEY_S, GLFW_KEY_D,
      GLFW_KEY_Q, GLFW_KEY_E, Vec3.add, Vec3.sub, Vec3.smul]
  · rintro rfl
    simp [Camera.processKeyboardInput, hf, GLFW_KEY_W, GLFW_KEY_A, GLFW_KEY_S, GLFW_KEY_D,
      GLFW_KEY_Q, GLFW_KEY_E, Vec3.add, Vec3.sub, Vec3.smul]
  · rintro rfl
    simp [Camera.processKeyboardInput, hf, GLFW_KEY_W, GLFW_KEY_A, GLFW_KEY_S, GLFW_KEY_D,
      GLFW_KEY_Q, GLFW_KEY_E, Vec3.add, Vec3.sub, Vec3.smul]
  · rintro rfl
    simp [Camera.processKeyboardInput, hf, GLFW_KEY_W, GLFW_KEY_A, GLFW_KEY_S, GLFW_KEY_D,
      GLFW_KEY_Q, GLFW_KEY_E, Vec3.add, Vec3.sub, Vec3.smul]
  · rintro rfl
    simp [Camera.processKeyboardInput, hf, GLFW_KEY_W, GLFW_KEY_A, GLFW_KEY_S, GLFW_KEY_D,
      GLFW_KEY_Q, GLFW_KEY_E, Vec3.add, Vec3.sub, Vec3.smul]
  · rintro rfl
    simp [Camera.processKeyboardInput, hf, GLFW_KEY_W, GLFW_KEY_A, GLFW_KEY_S, GLFW_KEY_D,
      GLFW_KEY_Q, GLFW_KEY_E, Vec3.add, Vec3.sub, Vec3.smul]
  · intro hW hA hS hD hQ hE
    simp [Camera.processKeyboardInput, hf, hW, hA, hS, hD, hQ, hE]

theorem fixed_height_after_keyboard_witness :
    ((mainCamera approxOps).setFPSCamera true 2).fps = true ∧
    (((mainCamera approxOps).setFPSCamera true 2).processKeyboardInput GLFW_KEY_Q
      (1 / 60)).position.y = 2 :=
  ⟨rfl, (fixed_height_after_keyboard ((mainCamera approxOps).setFPSCamera true 2) rfl
    GLFW_KEY_Q (1 / 60)).1⟩

end CameraTheorems

/-! ## Theorems: geometry store -/

section TraceLemmas

variable {α : Type}

theorem indexedDraws_append (a b : List (Entry α)) :
    indexedDraws (a ++ b) = indexedDraws a ++ indexedDraws b := by
  simp [indexedDraws, List.filterMap_append]

theorem toUInt_of_lt (n : Nat) (h : n < 2 ^ 32) : toUInt n = n := by
  simp only [toUInt]
  exact Nat.mod_eq_of_lt h

theorem toInt_of_lt (n : Nat) (h : n < 2 ^ 31) : toInt n = (n : Int) := by
  have h1 : n % 2 ^ 32 = n := Nat.mod_eq_of_lt (by omega)
  simp only [toInt, h1, if_pos h]

theorem Mesh_draw_indexedDraws (mesh : Mesh α) (shader : Shader) (w : World α) :
    indexedDraws (mesh.draw shader w).trace =
      indexedDraws w.trace ++ [(mesh.VAO, toInt (toUInt mesh.indices.length))] := by
  simp [Mesh.draw, World.glBindVertexArray, World.glDrawElements, World.glActiveTexture,
    World.glCall, World.emit, indexedDraws, List.filterMap_append]

theorem foldl_draw_indexedDraws (meshes : List (Mesh α)) (shader : Shader) (w : World α) :
    indexedDraws (meshes.foldl (fun w mesh => mesh.draw shader w) w).trace =
      indexedDraws w.trace ++ meshes.map fun m => (m.VAO, toInt (toUInt m.indices.length)) := by
  induction meshes generalizing w with
  | nil => simp
  | cons m t ih =>
    simp only [List.foldl_cons, List.map_cons]
    rw [ih, Mesh_draw_indexedDraws]
    simp

theorem draw_of_no_meshes (model : Model α) (h : model.meshes = []) (shader : Shader)
    (w : World α) : model.draw shader w = w := by
  simp [Model.draw, h]

end TraceLemmas

section ModelTheorems

variable {α : Type} [LinearOrderedField α]

mutual
theorem processNode_noMeshes (scene : aiScene α) :
    ∀ (node : aiNode) (st : List (Mesh α) × World α), node.noMeshes = true →
      Model.processNode scene node st = some st
  | aiNode.mk mMeshes mChildren, st, h => by
    simp only [aiNode.noMeshes, Bool.and_eq_true, List.isEmpty_iff] at h
    obtain ⟨h1, h2⟩ := h
    subst h1
    simp only [Model.processNode, Model.processNodeMeshes]
    exact processChildren_noMeshes scene mChildren st h2
theorem processChildren_noMeshes (scene : aiScene α) :
    ∀ (children : List aiNode) (st : List (Mesh α) × World α),
      aiNode.noMeshesList children = true → Model.processChildren scene children st = some st
  | [], st, _ => by
    simp only [Model.processChildren]
  | child :: rest, st, h => by
    simp only [aiNode.noMeshesList, Bool.and_eq_true] at h
    simp only [Model.processChildren]
    rw [processNode_noMeshes scene child st h.1]
    exact processChildren_noMeshes scene rest st h.2
end

/-- C8: for a scene whose node tree references zero meshes in every node,
`processNode` returns with the mesh list it was given (so the constructor,
which starts from the empty list, yields a model with no mesh, whether or not
the scene is flagged incomplete), and `draw` on that model returns the state it
was given: no operation is issued, so no indexed draw, and the context state is
unchanged. -/
theorem zero_mesh_scene_gives_empty_model (imp : Importer α) (path name : String)
    (scene : aiScene α) (root : aiNode) (w : World α)
    (hread : imp.ReadFile path = some scene)
    (hroot : scene.mRootNode = some root) (hzero : root.noMeshes = true) :
    (∀ (meshes : List (Mesh α)) (w0 : World α),
      Model.processNode scene root (meshes, w0) = some (meshes, w0)) ∧
    ∃ (model : Model α) (w1 : World α),
      Model.new imp path name w = some (model, w1) ∧ model.meshes = [] ∧
      ∀ (shader : Shader) (w2 : World α),
        model.draw shader w2 = w2 ∧
        indexedDraws (model.draw shader w2).trace = indexedDraws w2.trace ∧
        (model.draw shader w2).gl = w2.gl := by
  refine ⟨fun meshes w0 => processNode_noMeshes scene root (meshes, w0) hzero, ?_⟩
  have hdraw : ∀ (shader : Shader) (w2 : World α),
      ({ meshes := [], modelName := name } : Model α).draw shader w2 = w2 ∧
      indexedDraws (({ meshes := [], modelName := name } : Model α).draw shader w2).trace =
        indexedDraws w2.trace ∧
      (({ meshes := [], modelName := name } : Model α).draw shader w2).gl = w2.gl := by
    intro shader w2
    have h := draw_of_no_meshes { meshes := [], modelName := name } rfl shader w2
    rw [h]
    exact ⟨rfl, rfl, rfl⟩
  by_cases hflags : scene.mFlags &&& AI_SCENE_FLAGS_INCOMPLETE ≠ 0
  · refine ⟨{ meshes := [], modelName := name },
      Model.printModelDetails { meshes := [], modelName := name }
        (w.cout [LogItem.str "ERROR::ASSIMP:: ", LogItem.str (imp.GetErrorString path),
          LogItem.str "\n"]), ?_, rfl, hdraw⟩
    simp only [Model.new, Model.loadModel, hread, if_pos hflags]
  · refine ⟨{ meshes := [], modelName := name },
      Model.printModelDetails { meshes := [], modelName := name } w, ?_, rfl, hdraw⟩
    simp only [Model.new, Model.loadModel, hread, hroot, if_neg hflags]
    rw [processNode_noMeshes scene root _ hzero]

theorem zero_mesh_scene_gives_empty_model_witness :
    ∃ (model : Model ℚ) (w1 : World ℚ),
      Model.new
        ⟨fun _ => some ⟨0, some (aiNode.mk [] [aiNode.mk [] [], aiNode.mk [] [aiNode.mk [] []]]),
          []⟩, fun _ => ""⟩
        "models/teapot.fbx" "Teapot" (World.initial approxOps) = some (model, w1) ∧
      model.meshes = [] :=
  have h := (zero_mesh_scene_gives_empty_model
    (⟨fun _ => some ⟨0, some (aiNode.mk [] [aiNode.mk [] [], aiNode.mk [] [aiNode.mk [] []]]),
      []⟩, fun _ => ""⟩ : Importer ℚ)
    "models/teapot.fbx" "Teapot"
    ⟨0, some (aiNode.mk [] [aiNode.mk [] [], aiNode.mk [] [aiNode.mk [] []]]), []⟩
    (aiNode.mk [] [aiNode.mk [] [], aiNode.mk [] [aiNode.mk [] []]])
    (World.initial approxOps) rfl rfl (by decide)).2
  match h with
  | ⟨model, w1, h1, h2, _⟩ => ⟨model, w1, h1, h2⟩

/-- C9: when the importer returns no scene, a scene flagged incomplete or a
scene without a root node, `loadModel` returns with the mesh list empty, having
touched no context state, the constructor yields a model with zero meshes and
drawing it issues no operation; otherwise `loadModel` is `processNode` on the
root node. -/
theorem loadModel_failure_gives_empty_model (imp : Importer α) (path name : String)
    (w : World α) :
    ((imp.ReadFile path = none ∨
        ∃ scene, imp.ReadFile path = some scene ∧
          (scene.mFlags &&& AI_SCENE_FLAGS_INCOMPLETE ≠ 0 ∨ scene.mRootNode = none)) →
      (∃ w1 : World α, Model.loadModel imp path ([], w) = some ([], w1) ∧ w1.gl = w.gl) ∧
      ∃ (model : Model α) (w2 : World α),
        Model.new imp path name w = some (model, w2) ∧ model.meshes = [] ∧
        ∀ (shader : Shader) (w3 : World α),
          model.draw shader w3 = w3 ∧
          indexedDraws (model.draw shader w3).trace = indexedDraws w3.trace) ∧
    (∀ (scene : aiScene α) (root : aiNode) (st : List (Mesh α) × World α),
      imp.ReadFile path = some scene → scene.mFlags &&& AI_SCENE_FLAGS_INCOMPLETE = 0 →
      scene.mRootNode = some root →
      Model.loadModel imp path st = Model.processNode scene root st) := by
  constructor
  · intro hfail
    have hload : ∃ w1 : World α,
        Model.loadModel imp path ([], w) = some ([], w1) ∧ w1.gl = w.gl := by
      refine ⟨w.cout [LogItem.str "ERROR::ASSIMP:: ", LogItem.str (imp.GetErrorString path),
        LogItem.str "\n"], ?_, rfl⟩
      rcases hfail with hnone | ⟨scene, hsome, hbad⟩
      · simp only [Model.loadModel, hnone]
      · by_cases hfl : scene.mFlags &&& AI_SCENE_FLAGS_INCOMPLETE ≠ 0
        · simp only [Model.loadModel, hsome, if_pos hfl]
        · rcases hbad with hbad | hbad
          · exact absurd hbad hfl
          · simp only [Model.loadModel, hsome, if_neg hfl, hbad]
    obtain ⟨w1, h1, h2⟩ := hload
    refine ⟨⟨w1, h1, h2⟩, { meshes := [], modelName := name },
      Model.printModelDetails { meshes := [], modelName := name } w1, ?_, rfl, ?_⟩
    · simp only [Model.new, h1]
    · intro shader w3
      have h := draw_of_no_meshes { meshes := [], modelName := name } rfl shader w3
      rw [h]
      exact ⟨rfl, rfl⟩
  · intro scene root st hread hflags hroot
    simp only [Model.loadModel, hread, hflags, hroot, ne_eq, not_true_eq_false, if_false]

end ModelTheorems

section DrawTheorems

variable {α : Type}

theorem draw_single_mesh_wraps (idx : List Nat) (h : idx.length = 2 ^ 31)
    (vao : Nat) (shader : Shader) (w : World α) :
    indexedDraws
        (Model.draw
          { meshes := [{ vertices := [], indices := idx, meshName := "",
                         VAO := vao, VBO := 1, EBO := 2 }],
            modelName := "Sphere" }
          shader w).trace =
      indexedDraws w.trace ++ [(vao, -2 ^ 31)] := by
  rw [Model.draw, foldl_draw_indexedDraws]
  have h2 : toInt (toUInt idx.length) = -2 ^ 31 := by
    rw [h]; simp [toUInt, toInt]
  have h1 : toUInt 1 = 1 := by simp [toUInt]
  simp only [List.length_singleton, h1, List.take_succ_cons, List.take_zero, List.map, h2]

theorem draw_mesh_count_wraps (model : Model α) (h : model.meshes.length = 2 ^ 32)
    (shader : Shader) (w : World α) : model.draw shader w = w := by
  have h0 : toUInt model.meshes.length = 0 := by
    rw [h]; simp [toUInt]
  rw [Model.draw, h0, List.take_zero, List.foldl_nil]

/-- C10, as stated, fails: for a model whose one mesh has 2^31 indices the
index count `static_cast<unsigned int>(2^31)` reaches the `GLsizei` parameter
of `glDrawElements` as -2^31, not the length of the index list; and for a
model of 2^32 meshes the loop bound `static_cast<unsigned int>(meshes.size())`
is 0, so no draw call is issued at all. -/
theorem draw_index_count_wraps :
    indexedDraws
        (Model.draw
          { meshes := [{ vertices := [], indices := List.replicate (2 ^ 31) 0, meshName := "",
                         VAO := 1, VBO := 1, EBO := 2 }],
            modelName := "Sphere" }
          ⟨3⟩ (World.initial approxOps)).trace =
      [((1 : Nat), (-2 ^ 31 : Int))] ∧
    indexedDraws
        (Model.draw
          { meshes := [{ vertices := [], indices := List.replicate (2 ^ 31) 0, meshName := "",
                         VAO := 1, VBO := 1, EBO := 2 }],
            modelName := "Sphere" }
          ⟨3⟩ (World.initial approxOps)).trace ≠
      [((1 : Nat), (((List.replicate (2 ^ 31) 0).length : Nat) : Int))] ∧
    (indexedDraws
        (Model.draw
          { meshes := List.replicate (2 ^ 32)
              { vertices := [], indices := [0, 1, 2], meshName := "",
                VAO := 1, VBO := 1, EBO := 2 },
            modelName := "Sphere" }
          ⟨3⟩ (World.initial approxOps)).trace).length ≠
      (List.replicate (2 ^ 32)
        ({ vertices := [], indices := [0, 1, 2], meshName := "",
           VAO := 1, VBO := 1, EBO := 2 } : Mesh ℚ)).length := by
  have h2 : indexedDraws (World.initial approxOps).trace = ([] : List (Nat × Int)) := rfl
  refine ⟨?_, ?_, ?_⟩
  · rw [draw_single_mesh_wraps _ (List.length_replicate _ _), h2]
    rfl
  · rw [draw_single_mesh_wraps _ (List.length_replicate _ _), List.length_replicate, h2]
    intro h
    simp only [List.nil_append, List.cons.injEq, Prod.mk.injEq, and_true, true_and] at h
    have h3 : (-2 ^ 31 : Int) < 0 := by norm_num
    have h4 : (0 : Int) ≤ ((2 ^ 31 : Nat) : Int) := Int.natCast_nonneg _
    omega
  · rw [draw_mesh_count_wraps _ (List.length_replicate _ _), h2, List.length_replicate]
    simp

/-- C10, amended: for every model with fewer than 2^32 meshes, each with fewer
than 2^31 indices, `Model::draw` appends exactly one indexed-draw call per
mesh, in list order, the i-th with that mesh's vertex array bound and an index
count equal to the length of its index list. -/
theorem draw_issues_one_indexed_draw_per_mesh (model : Model α) (shader : Shader)
    (w : World α) (hn : model.meshes.length < 2 ^ 32)
    (hi : ∀ m ∈ model.meshes, m.indices.length < 2 ^ 31) :
    indexedDraws (model.draw shader w).trace =
      indexedDraws w.trace ++ model.meshes.map fun m => (m.VAO, (m.indices.length : Int)) := by
  rw [Model.draw, toUInt_of_lt _ hn, List.take_length, foldl_draw_indexedDraws]
  congr 1
  apply List.map_congr_left
  intro m hm
  have h1 : m.indices.length < 2 ^ 32 := lt_trans (hi m hm) (by norm_num)
  rw [toUInt_of_lt _ h1, toInt_of_lt _ (hi m hm)]

theorem draw_issues_one_indexed_draw_per_mesh_witness :
    indexedDraws
        (Model.draw
          { meshes := [{ vertices := [], indices := [0, 1, 2], meshName := "a",
                         VAO := 1, VBO := 1, EBO := 2 },
                       { vertices := [], indices := [0, 1, 2, 2, 1, 3], meshName := "b",
                         VAO := 2, VBO := 3, EBO := 4 }],
            modelName := "Teapot" }
          ⟨3⟩ (World.initial approxOps)).trace =
      [(1, 3), (2, 6)] :=
  draw_issues_one_indexed_draw_per_mesh
    { meshes := [{ vertices := [], indices := [0, 1, 2], meshName := "a",
                   VAO := 1, VBO := 1, EBO := 2 },
                 { vertices := [], indices := [0, 1, 2, 2, 1, 3], meshName := "b",
                   VAO := 2, VBO := 3, EBO := 4 }],
      modelName := "Teapot" }
    ⟨3⟩ (World.initial approxOps) (by simp) (by simp)

end DrawTheorems

/-! ## Theorems: frame driver -/

section ScreenshotTheorems

variable {α : Type} [LinearOrderedField α] [FloorRing α]

theorem roundHalfEven_near (x : α) :
    |x - ((roundHalfEven x : Int) : α)| ≤ 1 / 2 ∧ (0 ≤ x → 0 ≤ roundHalfEven x) ∧
    (|x - ((roundHalfEven x : Int) : α)| = 1 / 2 → roundHalfEven x % 2 = 0) := by
  have h1 : ((⌊x⌋ : Int) : α) ≤ x := Int.floor_le x
  have h2 : x < ((⌊x⌋ : Int) : α) + 1 := Int.lt_floor_add_one x
  have h0 : 0 ≤ x → 0 ≤ ⌊x⌋ := fun h => Int.floor_nonneg.mpr h
  unfold roundHalfEven
  lift_lets
  intro f r
  have hr : r = x - (f : α) := rfl
  have hf1 : (f : α) ≤ x := h1
  have hf2 : x < (f : α) + 1 := h2
  have hf0 : 0 ≤ x → 0 ≤ f := h0
  by_cases c1 : r < 1 / 2
  · rw [if_pos c1]
    refine ⟨?_, hf0, ?_⟩
    · rw [abs_le]
      constructor <;> linarith
    · intro h
      rw [abs_of_nonneg (by linarith)] at h
      linarith
  · rw [if_neg c1]
    have key : |x - ((f + 1 : Int) : α)| ≤ 1 / 2 := by
      push_cast
      rw [abs_le]
      constructor <;> linarith
    by_cases c2 : 1 / 2 < r
    · rw [if_pos c2]
      refine ⟨key, fun h => by have := hf0 h; omega, ?_⟩
      intro h
      push_cast at h
      rw [abs_of_nonpos (by linarith)] at h
      linarith
    · rw [if_neg c2]
      have hr2 : r = 1 / 2 := le_antisymm (not_lt.mp c2) (not_lt.mp c1)
      by_cases c3 : f % 2 = 0
      · rw [if_pos c3]
        refine ⟨?_, hf0, fun _ => c3⟩
        rw [abs_le]
        constructor <;> linarith
      · rw [if_neg c3]
        exact ⟨key, fun h => by have := hf0 h; omega, fun _ => by omega⟩

theorem digitChar_eq (d : Nat) (h : d < 10) : digitChar d = Nat.digitChar d := by
  interval_cases d <;> rfl

theorem fixed3_spec (x : α) :
    ∃ k d1 d2 d3 : Nat, d1 < 10 ∧ d2 < 10 ∧ d3 < 10 ∧
      fixed3 x = (if x < 0 then "-" else "") ++ toString k ++ "." ++
        String.mk [Nat.digitChar d1, Nat.digitChar d2, Nat.digitChar d3] ∧
      |(|x|) - ((k : α) + ((100 * d1 + 10 * d2 + d3 : Nat) : α) / 1000)| ≤ 1 / 2000 ∧
      (|(|x|) - ((k : α) + ((100 * d1 + 10 * d2 + d3 : Nat) : α) / 1000)| = 1 / 2000 →
        d3 % 2 = 0) := by
  obtain ⟨hnear, hnn, htie⟩ := roundHalfEven_near (|x| * 1000)
  have hpos : (0 : α) ≤ |x| * 1000 := by positivity
  have hn0 := hnn hpos
  obtain ⟨n, hn⟩ : ∃ n : Nat, (roundHalfEven (|x| * 1000)).toNat = n := ⟨_, rfl⟩
  have hcast : ((roundHalfEven (|x| * 1000) : Int) : α) = (n : α) := by
    have : ((n : Int)) = roundHalfEven (|x| * 1000) := by
      rw [← hn]
      exact Int.toNat_of_nonneg hn0
    rw [← this]
    simp
  rw [hcast] at hnear htie
  have hint : ((n : Int)) = roundHalfEven (|x| * 1000) := by
    rw [← hn]
    exact Int.toNat_of_nonneg hn0
  rw [← hint] at htie
  refine ⟨n / 1000, n % 1000 / 100, n % 100 / 10, n % 10, by omega, by omega, by omega, ?_, ?_⟩
  · unfold fixed3
    simp only [hn]
    rw [digitChar_eq (n % 1000 / 100) (by omega), digitChar_eq (n % 100 / 10) (by omega),
      digitChar_eq (n % 10) (by omega)]
  · have hsplit : n = 1000 * (n / 1000) + (100 * (n % 1000 / 100) + 10 * (n % 100 / 10) + n % 10) := by
      omega
    have hval : ((n / 1000 : Nat) : α) +
        ((100 * (n % 1000 / 100) + 10 * (n % 100 / 10) + n % 10 : Nat) : α) / 1000 =
        (n : α) / 1000 := by
      have h2 : (n : α) = 1000 * ((n / 1000 : Nat) : α) +
          ((100 * (n % 1000 / 100) + 10 * (n % 100 / 10) + n % 10 : Nat) : α) := by
        conv_lhs => rw [hsplit]
        push_cast
        ring
      rw [h2]
      field_simp
      ring
    rw [hval]
    have e : |(|x|) - (n : α) / 1000| = |(|x|) * 1000 - (n : α)| / 1000 := by
      have e1 : |x| - (n : α) / 1000 = (|x| * 1000 - n) / 1000 := by field_simp
      rw [e1, abs_div, abs_of_pos (by norm_num : (0 : α) < 1000)]
    rw [e]
    constructor
    · rw [div_le_iff₀ (by norm_num)]
      linarith
    · intro h
      have h5 : |(|x|) * 1000 - (n : α)| = 1 / 2 := by
        rw [div_eq_iff (by norm_num)] at h
        rw [h]
        norm_num
      have := htie h5
      omega

theorem roundHalfEven_1500 : roundHalfEven ((|3 / 2| : α) * 1000) = 1500 := by
  have h : (|3 / 2| : α) * 1000 = ((1500 : Int) : α) := by
    rw [abs_of_pos (by norm_num)]
    norm_num
  rw [h]
  simp [roundHalfEven]

theorem fixed3_three_halves : fixed3 (3 / 2 : α) = "1.500" := by
  unfold fixed3
  rw [roundHalfEven_1500, if_neg (by norm_num)]
  decide

/-- C7: the screenshot file name built in the render loop is
model + "_" + skybox + "_IOR_" + (IOR in fixed notation with 3 decimals) +
suffix + ".png", the suffix chosen by the refraction method and
`screenSpaceOnly`.  The IOR text is an optional minus sign (present exactly
when IOR is negative), the decimal digits of a natural number `k`, a dot and
exactly three decimal digits `d1 d2 d3`, where `k.d1d2d3` is the multiple of
1/1000 nearest to |IOR| (within 1/2000 of it, the last digit even when |IOR|
lies halfway between two multiples).  This is the name handed to
`saveScreenshot`; and for IOR = 1.5, Sphere, Museum, TwoSurfaces,
`screenSpaceOnly` it is "Sphere_Museum_IOR_1.500_2_surfaces_dv_only.png". -/
theorem screenshot_file_name (w : World α) (model skybox : String)
    (hm : index? modelOptions w.selectedModel = some model)
    (hs : index? skyboxOptions w.selectedSkybox = some skybox) :
    screenshotFileName w =
      some (model ++ "_" ++ skybox ++ "_IOR_" ++ fixed3 w.IOR ++
        (if w.selectedRefractionMethod = TwoSurfaces ∧ w.screenSpaceOnly = true then
          "_2_surfaces_dv_only"
        else if w.selectedRefractionMethod = TwoSurfaces then "_2_surfaces_dn_dv"
        else "_1_surface") ++ ".png") ∧
    (∃ k d1 d2 d3 : Nat, d1 < 10 ∧ d2 < 10 ∧ d3 < 10 ∧
      screenshotFileName w =
        some (model ++ "_" ++ skybox ++ "_IOR_" ++
          ((if w.IOR < 0 then "-" else "") ++ toString k ++ "." ++
            String.mk [Nat.digitChar d1, Nat.digitChar d2, Nat.digitChar d3]) ++
          (if w.selectedRefractionMethod = TwoSurfaces ∧ w.screenSpaceOnly = true then
            "_2_surfaces_dv_only"
          else if w.selectedRefractionMethod = TwoSurfaces then "_2_surfaces_dn_dv"
          else "_1_surface") ++ ".png") ∧
      |(|w.IOR|) - ((k : α) + ((100 * d1 + 10 * d2 + d3 : Nat) : α) / 1000)| ≤ 1 / 2000 ∧
      (|(|w.IOR|) - ((k : α) + ((100 * d1 + 10 * d2 + d3 : Nat) : α) / 1000)| = 1 / 2000 →
        d3 % 2 = 0)) ∧
    (w.takeScreenshot = true →
      ∃ fileName, screenshotFileName w = some fileName ∧
        screenshotStep w =
          some { saveScreenshot fileName (toInt w.SCREEN_WIDTH) (toInt w.SCREEN_HEIGHT) w with
                 takeScreenshot := false }) ∧
    (w.IOR = 3 / 2 → w.selectedModel = Sphere → w.selectedSkybox = Museum →
      w.selectedRefractionMethod = TwoSurfaces → w.screenSpaceOnly = true →
      screenshotFileName w = some "Sphere_Museum_IOR_1.500_2_surfaces_dv_only.png") := by
  have hname : screenshotFileName w =
      some (model ++ "_" ++ skybox ++ "_IOR_" ++ fixed3 w.IOR ++
        (if w.selectedRefractionMethod = TwoSurfaces ∧ w.screenSpaceOnly = true then
          "_2_surfaces_dv_only"
        else if w.selectedRefractionMethod = TwoSurfaces then "_2_surfaces_dn_dv"
        else "_1_surface") ++ ".png") := by
    have hj : (model ++ "_" ++ skybox ++ "_" ++ "IOR_" : String) =
        model ++ "_" ++ skybox ++ "_IOR_" := by
      rw [String.append_assoc (model ++ "_" ++ skybox) "_" "IOR_"]
      rfl
    simp only [screenshotFileName, hm, hs, hj]
    by_cases h1 : w.selectedRefractionMethod = TwoSurfaces
    · by_cases h2 : w.screenSpaceOnly = true
      · simp [h1, h2]
      · simp [h1, h2]
    · simp [h1]
  refine ⟨hname, ?_, ?_, ?_⟩
  · obtain ⟨k, d1, d2, d3, h1, h2, h3, htext, hval, htie⟩ := fixed3_spec w.IOR
    refine ⟨k, d1, d2, d3, h1, h2, h3, ?_, hval, htie⟩
    rw [hname, htext]
  · intro ht
    refine ⟨_, hname, ?_⟩
    simp only [screenshotStep, ht, if_true, hname]
  · intro hI hM hS hR hO
    rw [hM] at hm
    rw [hS] at hs
    have hm2 : model = "Sphere" := by
      have h : index? modelOptions Sphere = some "Sphere" := by decide
      rw [h] at hm
      exact (Option.some.inj hm).symm
    have hs2 : skybox = "Museum" := by
      have h : index? skyboxOptions Museum = some "Museum" := by decide
      rw [h] at hs
      exact (Option.some.inj hs).symm
    rw [hname, hI, hR, hO, hm2, hs2, fixed3_three_halves]
    decide

theorem screenshot_file_name_witness :
    index? modelOptions
      ({ World.initial approxOps with
          selectedModel := Sphere, selectedSkybox := Museum,
          selectedRefractionMethod := TwoSurfaces, screenSpaceOnly := true } : World ℚ).selectedModel
      = some "Sphere" ∧
    index? skyboxOptions
      ({ World.initial approxOps with
          selectedModel := Sphere, selectedSkybox := Museum,
          selectedRefractionMethod := TwoSurfaces, screenSpaceOnly := true } : World ℚ).selectedSkybox
      = some "Museum" ∧
    screenshotFileName
      ({ World.initial approxOps with
          selectedModel := Sphere, selectedSkybox := Museum,
          selectedRefractionMethod := TwoSurfaces, screenSpaceOnly := true } : World ℚ)
      = some "Sphere_Museum_IOR_1.500_2_surfaces_dv_only.png" :=
  ⟨by decide, by decide,
    (screenshot_file_name
      ({ World.initial approxOps with
          selectedModel := Sphere, selectedSkybox := Museum,
          selectedRefractionMethod := TwoSurfaces, screenSpaceOnly := true } : World ℚ)
      "Sphere" "Museum" (by decide) (by decide)).2.2.2 rfl rfl rfl rfl rfl⟩

end ScreenshotTheorems

/-! ## Theorems: one iteration of the render loop -/

section StepLemmas

variable {α : Type}

theorem SameSel.selRefl (w : World α) : SameSel w w := ⟨rfl, rfl, rfl, rfl⟩

theorem SameSel.selTrans {w w2 w3 : World α} (h : SameSel w w2) (h' : SameSel w2 w3) :
    SameSel w w3 :=
  ⟨h'.1.trans h.1, h'.2.1.trans h.2.1, h'.2.2.1.trans h.2.2.1, h'.2.2.2.trans h.2.2.2⟩

theorem Quiet.quietRefl (w : World α) : Quiet w w := ⟨[], by simp, by simp⟩

theorem Quiet.quietTrans {w w2 w3 : World α} (h : Quiet w w2) (h' : Quiet w2 w3) : Quiet w w3 := by
  obtain ⟨l, hl, hq⟩ := h
  obtain ⟨l', hl', hq'⟩ := h'
  refine ⟨l ++ l', by rw [hl', hl, List.append_assoc], ?_⟩
  intro e he
  rcases List.mem_append.mp he with he | he
  · exact hq e he
  · exact hq' e he

theorem Quiet.quietEmit (w : World α) (op : Op α) (hop : quietOp op = true) : Quiet w (w.emit op) :=
  ⟨[⟨op, w.gl⟩], rfl, by simp [hop]⟩

theorem Quiet.quietOfEq {w w2 : World α} (h : w2.trace = w.trace) : Quiet w w2 :=
  ⟨[], by simp [h], by simp⟩

theorem Frame.frameRefl (w : World α) : Frame w w := ⟨Quiet.quietRefl w, SameSel.selRefl w⟩

theorem Frame.frameTrans {w w2 w3 : World α} (h : Frame w w2) (h' : Frame w2 w3) : Frame w w3 :=
  ⟨h.trace.quietTrans h'.trace, h.sel.selTrans h'.sel⟩

theorem Frame.frameGlCall (w : World α) (op : Op α) (f : GLState → GLState)
    (hop : quietOp op = true) : Frame w (w.glCall op f) :=
  ⟨⟨[⟨op, w.gl⟩], rfl, by simp [hop]⟩, SameSel.selRefl w⟩

theorem Step.stepRefl (w : World α) : Step w w :=
  ⟨⟨[], by simp, by simp⟩, rfl, rfl, SameSel.selRefl w⟩

theorem Step.stepOfEq {w w2 : World α} (h1 : w2.trace = w.trace) (h2 : w2.gl = w.gl)
    (h3 : SameSel w w2) : Step w w2 :=
  ⟨⟨[], by simp [h1], by simp⟩, by rw [h2], by rw [h2], h3⟩

theorem Step.stepTrans {w w2 w3 : World α} (h : Step w w2) (h' : Step w2 w3) : Step w w3 := by
  obtain ⟨l, hl, hq⟩ := h.trace
  obtain ⟨l', hl', hq'⟩ := h'.trace
  refine ⟨⟨l ++ l', by rw [hl', hl, List.append_assoc], ?_⟩, h'.cullFace.trans h.cullFace,
    h'.cullFaceMode.trans h.cullFaceMode, h.sel.selTrans h'.sel⟩
  intro e he
  rcases List.mem_append.mp he with he | he
  · exact hq e he
  · obtain ⟨a, b, c⟩ := hq' e he
    exact ⟨a, b.trans h.cullFace, c.trans h.cullFaceMode⟩

theorem Step.quiet {w w2 : World α} (h : Step w w2) : Quiet w w2 := by
  obtain ⟨l, hl, hq⟩ := h.trace
  exact ⟨l, hl, fun e he => (hq e he).1⟩

theorem Step.frame {w w2 : World α} (h : Step w w2) : Frame w w2 := ⟨h.quiet, h.sel⟩

theorem Step.stepEmit (w : World α) (op : Op α) (hop : quietOp op = true) : Step w (w.emit op) :=
  ⟨⟨[⟨op, w.gl⟩], rfl, by simp [hop]⟩, rfl, rfl, SameSel.selRefl w⟩

theorem Step.stepGlCall (w : World α) (op : Op α) (f : GLState → GLState) (hop : quietOp op = true)
    (h1 : (f w.gl).cullFace = w.gl.cullFace) (h2 : (f w.gl).cullFaceMode = w.gl.cullFaceMode) :
    Step w (w.glCall op f) :=
  ⟨⟨[⟨op, w.gl⟩], rfl, by simp [hop]⟩, h1, h2, SameSel.selRefl w⟩

theorem Step.ite {w : World α} (c : Prop) [Decidable c] {a b : World α}
    (ha : Step w a) (hb : Step w b) : Step w (if c then a else b) := by
  split_ifs <;> assumption

theorem Step.glClearColor (w : World α) (r g b a : α) : Step w (w.glClearColor r g b a) :=
  Step.stepEmit _ _ rfl

theorem Step.glClear (w : World α) (c d : Bool) : Step w (w.glClear c d) :=
  Step.stepEmit _ _ rfl

theorem Step.glEnableDepth (w : World α) : Step w (w.glEnable Capability.GL_DEPTH_TEST) :=
  Step.stepGlCall _ _ _ rfl rfl rfl

theorem Step.glDisableDepth (w : World α) : Step w (w.glDisable Capability.GL_DEPTH_TEST) :=
  Step.stepGlCall _ _ _ rfl rfl rfl

theorem Step.glBindFramebuffer (w : World α) (fbo : Nat) : Step w (w.glBindFramebuffer fbo) :=
  Step.stepGlCall _ _ _ rfl rfl rfl

theorem Step.glViewport (w : World α) (x y width height : Int) :
    Step w (w.glViewport x y width height) :=
  Step.stepGlCall _ _ _ rfl rfl rfl

theorem Step.glActiveTexture (w : World α) (unit : Nat) : Step w (w.glActiveTexture unit) :=
  Step.stepGlCall _ _ _ rfl rfl rfl

theorem Step.glBindTexture (w : World α) (target : TextureTarget) (texture : Nat) :
    Step w (w.glBindTexture target texture) := by
  cases target <;> exact Step.stepGlCall _ _ _ rfl rfl rfl

theorem Step.glBindVertexArray (w : World α) (vao : Nat) : Step w (w.glBindVertexArray vao) :=
  Step.stepGlCall _ _ _ rfl rfl rfl

theorem Step.glDrawElements (w : World α) (count : Int) : Step w (w.glDrawElements count) :=
  Step.stepEmit _ _ rfl

theorem Step.glDrawArrays (w : World α) (first count : Nat) :
    Step w (w.glDrawArrays first count) :=
  Step.stepEmit _ _ rfl

theorem Step.cout (w : World α) (items : List (LogItem α)) : Step w (w.cout items) :=
  Step.stepEmit _ _ rfl

theorem Step.cerr (w : World α) (items : List (LogItem α)) : Step w (w.cerr items) :=
  Step.stepEmit _ _ rfl

theorem Step.coutFold (logs : List (List (LogItem α))) (w : World α) :
    Step w (logs.foldl (fun w items => w.cout items) w) := by
  induction logs generalizing w with
  | nil => exact Step.stepRefl w
  | cons a t ih => exact (Step.cout w a).stepTrans (ih _)

theorem Step.use (shader : Shader) (w : World α) : Step w (shader.use w) :=
  Step.stepGlCall _ _ _ rfl rfl rfl

theorem Step.setMat4 (shader : Shader) (name : String) (v : Mat4 α) (w : World α) :
    Step w (shader.setMat4 name v w) :=
  Step.stepEmit _ _ rfl

theorem Step.setFloat (shader : Shader) (name : String) (v : α) (w : World α) :
    Step w (shader.setFloat name v w) :=
  Step.stepEmit _ _ rfl

theorem Step.setBool (shader : Shader) (name : String) (v : Bool) (w : World α) :
    Step w (shader.setBool name v w) :=
  Step.stepEmit _ _ rfl

theorem Step.setInt (shader : Shader) (name : String) (v : Int) (w : World α) :
    Step w (shader.setInt name v w) :=
  Step.stepEmit _ _ rfl

theorem Step.meshDraw (mesh : Mesh α) (shader : Shader) (w : World α) :
    Step w (mesh.draw shader w) := by
  unfold Mesh.draw
  exact (((Step.glBindVertexArray _ _).stepTrans (Step.glDrawElements _ _)).stepTrans
    (Step.glBindVertexArray _ _)).stepTrans (Step.glActiveTexture _ _)

theorem Step.foldlDraw (meshes : List (Mesh α)) (shader : Shader) (w : World α) :
    Step w (meshes.foldl (fun w mesh => mesh.draw shader w) w) := by
  induction meshes generalizing w with
  | nil => exact Step.stepRefl w
  | cons m t ih => exact (Step.meshDraw m shader w).stepTrans (ih _)

theorem Step.modelDraw (model : Model α) (shader : Shader) (w : World α) :
    Step w (model.draw shader w) := by
  unfold Model.draw
  exact Step.foldlDraw _ _ _

theorem Submits.of_step (shader : Nat) (shaderType : Int) (w wu : World α)
    (h : Step (w.emit (Op.drawModel shader shaderType)) wu) :
    Submits shader shaderType w (wu.emit Op.drawModelReturn) := by
  obtain ⟨l, hl, hq⟩ := h.trace
  refine ⟨⟨l, wu.gl, ?_, hq, h.cullFace, h.cullFaceMode⟩, h.cullFace, h.cullFaceMode, h.sel⟩
  simp only [World.emit, hl, List.append_assoc, List.singleton_append, List.cons_append,
    List.nil_append]

theorem drawModelCalls_cons_quiet (e : Entry α) (rest : List (Entry α))
    (h : quietOp e.op = true) : drawModelCalls (e :: rest) = drawModelCalls rest := by
  obtain ⟨op, gl⟩ := e
  cases op <;> first | rfl | exact absurd h (by simp [quietOp])

theorem untilReturn_cons_quiet (e : Entry α) (rest : List (Entry α))
    (h : quietOp e.op = true) : untilReturn (e :: rest) = e :: untilReturn rest := by
  obtain ⟨op, gl⟩ := e
  cases op <;> first | rfl | exact absurd h (by simp [quietOp])

theorem drawModelCalls_quiet_append (l b : List (Entry α))
    (hl : ∀ e ∈ l, quietOp e.op = true) : drawModelCalls (l ++ b) = drawModelCalls b := by
  induction l with
  | nil => rfl
  | cons e t ih =>
    rw [List.cons_append, drawModelCalls_cons_quiet e _ (hl e (List.mem_cons_self _ _))]
    exact ih fun x hx => hl x (List.mem_cons_of_mem _ hx)

theorem drawModelCalls_quiet (l : List (Entry α)) (hl : ∀ e ∈ l, quietOp e.op = true) :
    drawModelCalls l = [] := by
  have h := drawModelCalls_quiet_append l [] hl
  rw [List.append_nil] at h
  exact h

theorem untilReturn_quiet_append (l b : List (Entry α)) (g : GLState)
    (hl : ∀ e ∈ l, quietOp e.op = true) :
    untilReturn (l ++ ⟨Op.drawModelReturn, g⟩ :: b) = l ++ [⟨Op.drawModelReturn, g⟩] := by
  induction l with
  | nil => rfl
  | cons e t ih =>
    rw [List.cons_append, untilReturn_cons_quiet e _ (hl e (List.mem_cons_self _ _)),
      ih fun x hx => hl x (List.mem_cons_of_mem _ hx)]
    rfl

theorem drawModelCalls_submission (shader : Nat) (shaderType : Int) (g g2 : GLState)
    (body b : List (Entry α)) (hbody : ∀ e ∈ body, quietOp e.op = true) :
    drawModelCalls (⟨Op.drawModel shader shaderType, g⟩ ::
        (body ++ ⟨Op.drawModelReturn, g2⟩ :: b)) =
      { shader := shader, shaderType := shaderType,
        states := g :: (body.map Entry.gl ++ [g2]) } :: drawModelCalls b := by
  have h1 : drawModelCalls (⟨Op.drawModel shader shaderType, g⟩ ::
        (body ++ ⟨Op.drawModelReturn, g2⟩ :: b)) =
      { shader := shader, shaderType := shaderType,
        states := g :: (untilReturn (body ++ ⟨Op.drawModelReturn, g2⟩ :: b)).map Entry.gl } ::
        drawModelCalls (body ++ ⟨Op.drawModelReturn, g2⟩ :: b) := rfl
  have h2 : drawModelCalls ((⟨Op.drawModelReturn, g2⟩ : Entry α) :: b) = drawModelCalls b := rfl
  rw [h1, untilReturn_quiet_append body b g2 hbody,
    drawModelCalls_quiet_append body _ hbody, h2]
  simp

theorem step_frameBufferSizeCallback (width height : Int) (w : World α) :
    Step w (frameBufferSizeCallback width height w) := by
  unfold frameBufferSizeCallback
  exact Step.ite _ (Step.stepRefl _)
    ((Step.glViewport w 0 0 width height).stepTrans (Step.stepOfEq rfl rfl ⟨rfl, rfl, rfl, rfl⟩))

theorem step_logFPSTestStart (model refraction skybox : String) (w : World α) :
    Step w (logFPSTestStart model refraction skybox w) := by
  unfold logFPSTestStart
  exact ((((((((Step.cout _ _).stepTrans (Step.cout _ _)).stepTrans (Step.cout _ _)).stepTrans
    (Step.cout _ _)).stepTrans (Step.cout _ _)).stepTrans (Step.cout _ _)).stepTrans (Step.cout _ _)).stepTrans
    (Step.cout _ _)).stepTrans (Step.cout _ _)

end StepLemmas

section FrameLemmas

variable {α : Type} [LinearOrderedField α]

theorem step_drawSkyBox (shader : Shader) (projection view : Mat4 α) (w : World α) :
    Step w (drawSkyBox shader projection view w) := by
  unfold drawSkyBox
  lift_lets
  intro w1 w2 viewNoTrans w3 w4 w5 wg wn wm w6 w7 w8 w9
  have h1 : Step w w1 := Step.glDisableDepth _
  have h2 : Step w1 w2 := Step.use _ _
  have h3 : Step w2 w3 := Step.setMat4 _ _ _ _
  have h4 : Step w3 w4 := Step.setMat4 _ _ _ _
  have h5 : Step w4 w5 := Step.glActiveTexture _ _
  have h6 : Step w5 w6 := by
    simp only [w6]
    split_ifs
    · exact (Step.glBindTexture _ _ _).stepTrans (Step.glBindVertexArray _ _)
    · exact (Step.glBindTexture _ _ _).stepTrans (Step.glBindVertexArray _ _)
    · exact (Step.glBindTexture _ _ _).stepTrans (Step.glBindVertexArray _ _)
    · exact Step.stepRefl _
  have h7 : Step w6 w7 := Step.setInt _ _ _ _
  have h8 : Step w7 w8 := Step.glDrawArrays _ _ _
  have h9 : Step w8 w9 := Step.glBindVertexArray _ _
  exact (((((((((h1.stepTrans h2).stepTrans h3).stepTrans h4).stepTrans h5).stepTrans h6).stepTrans h7).stepTrans h8).stepTrans
    h9).stepTrans (Step.glEnableDepth _))

theorem drawModel_submits (ops : FrameOps α) (shader : Shader) (projection view : Mat4 α)
    (shaderType : Int) (w : World α)
    (hty : shaderType = OneSurfaceShader ∨ shaderType = TwoSurfacesBackFaceShader ∨
      shaderType = TwoSurfacesFrontFaceShader)
    (hm : (index? w.allModels w.selectedModel).isSome = true) :
    ∃ w2, drawModel ops shader projection view shaderType w = some w2 ∧
      Submits shader.ID shaderType w w2 := by
  obtain ⟨m, hm⟩ := Option.isSome_iff_exists.mp hm
  unfold drawModel
  lift_lets
  intro w1 w2 model0 model w3 w4 w5 w6 w7 w8 w9 w10 uniforms wErr
  have h5 : Step w1 w5 :=
    (((Step.use shader w1).stepTrans (Step.setMat4 _ _ _ _)).stepTrans (Step.setMat4 _ _ _ _)).stepTrans
      (Step.setMat4 _ _ _ _)
  have h7 : Step w1 w7 := (h5.stepTrans (Step.setFloat _ _ _ _)).stepTrans (Step.setBool _ _ _ _)
  have hu : ∃ wu, uniforms = some wu ∧ Step w1 wu := by
    rcases hty with h | h | h
    · exact ⟨shader.setInt "skybox" 0 w7, by simp only [uniforms, h, if_true],
        h7.stepTrans (Step.setInt _ _ _ _)⟩
    · refine ⟨w5, ?_, h5⟩
      simp [uniforms, h, OneSurfaceShader, TwoSurfacesBackFaceShader]
    · refine ⟨_, ?_, (((h7.stepTrans (Step.setBool _ _ _ _)).stepTrans (Step.setInt _ _ _ _)).stepTrans
        (Step.setInt _ _ _ _)).stepTrans (Step.setInt shader "backfaceDepthTex" 2 w10)⟩
      simp [uniforms, h, OneSurfaceShader, TwoSurfacesBackFaceShader,
        TwoSurfacesFrontFaceShader]
  obtain ⟨wu, hwu, hstep⟩ := hu
  have hidx : index? wu.allModels wu.selectedModel = some m := by
    rw [hstep.sel.1, hstep.sel.2.1]
    exact hm
  refine ⟨(m.draw shader wu).emit Op.drawModelReturn, ?_, ?_⟩
  · rw [hwu]
    simp only [hidx]
  · exact Submits.of_step _ _ _ _ (hstep.stepTrans (Step.modelDraw m shader wu))

end FrameLemmas

section InputLemmas

variable {α : Type} [LinearOrderedField α]

theorem step_processUserInput (keys : Int → Bool) (w : World α) :
    Step w (processUserInput keys w) := by
  unfold processUserInput
  lift_lets
  intro src3 w9 w8 w7 w6 w5 w4 w3 src2 cam3 cam2 cam1 cam0 w2 w1 src1 src0 w0
  have h9 : Step w w9 :=
    Step.ite _ ((Step.stepEmit w Op.glfwSetWindowShouldClose rfl).stepTrans
      (Step.stepOfEq rfl rfl ⟨rfl, rfl, rfl, rfl⟩)) (Step.stepRefl _)
  have h8 : Step w9 w8 := Step.ite _ (Step.stepOfEq rfl rfl ⟨rfl, rfl, rfl, rfl⟩) (Step.stepRefl _)
  have h7 : Step w8 w7 := Step.ite _ (Step.stepOfEq rfl rfl ⟨rfl, rfl, rfl, rfl⟩) (Step.stepRefl _)
  have h6 : Step w7 w6 := Step.ite _ (Step.stepOfEq rfl rfl ⟨rfl, rfl, rfl, rfl⟩) (Step.stepRefl _)
  have h5 : Step w6 w5 := Step.ite _ (Step.stepOfEq rfl rfl ⟨rfl, rfl, rfl, rfl⟩) (Step.stepRefl _)
  have h4 : Step w5 w4 := Step.ite _ (Step.stepOfEq rfl rfl ⟨rfl, rfl, rfl, rfl⟩) (Step.stepRefl _)
  have h3 : Step w4 w3 := Step.ite _ (Step.stepOfEq rfl rfl ⟨rfl, rfl, rfl, rfl⟩) (Step.stepRefl _)
  have h2 : Step w3 w2 := Step.ite _ (Step.stepOfEq rfl rfl ⟨rfl, rfl, rfl, rfl⟩) (Step.stepRefl _)
  have h1 : Step w2 w1 := Step.stepOfEq rfl rfl ⟨rfl, rfl, rfl, rfl⟩
  have h0 : Step w2 w0 :=
    Step.ite _
      (Step.ite _
        ((h1.stepTrans (Step.stepEmit w1 (Op.glfwSetInputMode CursorMode.GLFW_CURSOR_NORMAL) rfl)).stepTrans
          (Step.stepOfEq rfl rfl ⟨rfl, rfl, rfl, rfl⟩))
        ((h1.stepTrans (Step.stepEmit w1 (Op.glfwSetInputMode CursorMode.GLFW_CURSOR_DISABLED) rfl)).stepTrans
          (Step.stepOfEq rfl rfl ⟨rfl, rfl, rfl, rfl⟩)))
      (Step.stepRefl _)
  exact ((((((((((h9.stepTrans h8).stepTrans h7).stepTrans h6).stepTrans h5).stepTrans h4).stepTrans h3).stepTrans h2).stepTrans
    h0).stepTrans (Step.ite _ (Step.stepOfEq rfl rfl ⟨rfl, rfl, rfl, rfl⟩) (Step.stepRefl _))))

theorem step_mouseCallback (ops : FrameOps α) (xIn yIn : α) (w : World α) :
    Step w (mouseCallback ops xIn yIn w) := by
  simp only [mouseCallback]
  split_ifs <;> exact Step.stepOfEq rfl rfl ⟨rfl, rfl, rfl, rfl⟩

theorem step_scrollCallback (xOff yOff : α) (w : World α) :
    Step w (scrollCallback xOff yOff w) :=
  Step.stepOfEq rfl rfl ⟨rfl, rfl, rfl, rfl⟩

theorem step_foldEvents (ops : FrameOps α) (events : List (WindowEvent α)) (w : World α) :
    Step w (events.foldl
      (fun w e =>
        match e with
        | WindowEvent.framebufferSize width height => frameBufferSizeCallback width height w
        | WindowEvent.cursorPos xIn yIn => mouseCallback ops xIn yIn w
        | WindowEvent.scroll xOff yOff => scrollCallback xOff yOff w) w) := by
  induction events generalizing w with
  | nil => exact Step.stepRefl w
  | cons e t ih =>
    rw [List.foldl_cons]
    refine Step.stepTrans ?_ (ih _)
    cases e with
    | framebufferSize width height => exact step_frameBufferSizeCallback width height w
    | cursorPos xIn yIn => exact step_mouseCallback ops xIn yIn w
    | scroll xOff yOff => exact step_scrollCallback xOff yOff w

theorem step_glfwPollEvents (ops : FrameOps α) (events : List (WindowEvent α)) (w : World α) :
    Step w (glfwPollEvents ops events w) := by
  unfold glfwPollEvents
  exact (Step.stepEmit w Op.glfwPollEvents rfl).stepTrans (step_foldEvents ops events _)

end InputLemmas

section DispatchLemmas

variable {α : Type} [LinearOrderedField α]

theorem ImGuiDrawWindow_some (p : PanelInput α) (w : World α)
    (h : p.buttonStartFPSTest = true →
      (index? modelOptions (p.comboModel.getD w.selectedModel)).isSome = true ∧
      (index? refractionOptions (p.comboRefraction.getD w.selectedRefractionMethod)).isSome
        = true ∧
      (index? skyboxOptions (p.comboSkybox.getD w.selectedSkybox)).isSome = true) :
    ∃ w2, ImGuiDrawWindow p w = some w2 ∧ Quiet w w2 := by
  unfold ImGuiDrawWindow
  lift_lets
  intro w9 w8 w7 w6 w5 w4 w3 w2 started
  have h9 : Frame w w9 := (Step.stepEmit w Op.ImGuiDrawWindow rfl).frame
  have h8 : Frame w9 w8 := by
    simp only [w8]
    cases p.sliderIOR <;> exact ⟨Quiet.quietOfEq rfl, ⟨rfl, rfl, rfl, rfl⟩⟩
  have h7 : Frame w8 w7 := by
    simp only [w7]
    split_ifs <;> exact ⟨Quiet.quietOfEq rfl, ⟨rfl, rfl, rfl, rfl⟩⟩
  have h6 : Frame w7 w6 := by
    simp only [w6]
    split_ifs <;> exact ⟨Quiet.quietOfEq rfl, ⟨rfl, rfl, rfl, rfl⟩⟩
  have h5 : Frame w6 w5 := by
    simp only [w5]
    split_ifs <;> exact ⟨Quiet.quietOfEq rfl, ⟨rfl, rfl, rfl, rfl⟩⟩
  have hf : Frame w w5 := (((h9.frameTrans h8).frameTrans h7).frameTrans h6).frameTrans h5
  have h2 : Quiet w5 w2 ∧ w2.selectedModel = p.comboModel.getD w.selectedModel ∧
      w2.selectedRefractionMethod = p.comboRefraction.getD w.selectedRefractionMethod ∧
      w2.selectedSkybox = p.comboSkybox.getD w.selectedSkybox := by
    have e1 := hf.sel.2.1
    have e2 := hf.sel.2.2.1
    have e3 := hf.sel.2.2.2
    simp only [w2, w3, w4]
    cases p.comboModel <;> cases p.comboRefraction <;> cases p.comboSkybox <;>
      exact ⟨Quiet.quietOfEq rfl, by simp [e1], by simp [e2], by simp [e3]⟩
  obtain ⟨hq2, hm, hr, hs⟩ := h2
  have hst : ∃ ws, started = some ws ∧ Quiet w2 ws := by
    by_cases hb : p.buttonStartFPSTest = true
    · obtain ⟨a, b, c⟩ := h hb
      rw [← hm] at a
      rw [← hr] at b
      rw [← hs] at c
      obtain ⟨x, hx⟩ := Option.isSome_iff_exists.mp a
      obtain ⟨y, hy⟩ := Option.isSome_iff_exists.mp b
      obtain ⟨z, hz⟩ := Option.isSome_iff_exists.mp c
      refine ⟨_, by simp only [started, hb, if_true, hx, hy, hz]; rfl, ?_⟩
      exact (step_logFPSTestStart x y z w2).quiet.quietTrans (Quiet.quietOfEq rfl)
    · exact ⟨w2, by simp only [started, hb]; rfl, Quiet.quietRefl _⟩
  obtain ⟨ws, hws, hqs⟩ := hst
  rw [hws]
  refine ⟨_, rfl, ((hf.trace.quietTrans hq2).quietTrans hqs).quietTrans ?_⟩
  split_ifs <;> exact Quiet.quietOfEq rfl

theorem dispatch_one (ops : FrameOps α) (sh : Shaders) (projection view : Mat4 α)
    (w : World α) (hsel : w.selectedRefractionMethod ≠ TwoSurfaces)
    (hm : (index? w.allModels w.selectedModel).isSome = true) :
    ∃ w2, refractionDispatch ops sh projection view w = some w2 ∧
      Submits sh.refractionShader.ID OneSurfaceShader w w2 := by
  unfold refractionDispatch
  lift_lets
  intro w4 w3 w2 w1 w0
  split_ifs
  · exact drawModel_submits ops _ _ _ _ w (Or.inl rfl) hm
  · exact drawModel_submits ops _ _ _ _ w (Or.inl rfl) hm

theorem dispatch_two (ops : FrameOps α) (sh : Shaders) (projection view : Mat4 α)
    (w : World α) (hsel : w.selectedRefractionMethod = TwoSurfaces)
    (hm : (index? w.allModels w.selectedModel).isSome = true) :
    ∃ wa wb wc wd, Frame w wa ∧ wa.gl.cullFace = true ∧
      wa.gl.cullFaceMode = FaceMode.GL_FRONT ∧
      Submits sh.backfaceShader.ID TwoSurfacesBackFaceShader wa wb ∧
      Frame wb wc ∧ wc.gl.cullFace = wb.gl.cullFace ∧ wc.gl.cullFaceMode = FaceMode.GL_BACK ∧
      Submits sh.frontfaceShader.ID TwoSurfacesFrontFaceShader wc wd ∧
      refractionDispatch ops sh projection view w = some wd := by
  unfold refractionDispatch
  lift_lets
  intro w4 w3 w2 w1 w0
  have hne : ¬ w.selectedRefractionMethod = OneSurface := by
    rw [hsel]; decide
  rw [if_neg hne, if_pos hsel]
  have hfa : Frame w w0 :=
    ((((Step.glBindFramebuffer w _).stepTrans (Step.glViewport _ _ _ _ _)).stepTrans
      (Step.glClear _ _ _)).frame.frameTrans
      (Frame.frameGlCall _ (Op.glEnable Capability.GL_CULL_FACE) _ rfl)).frameTrans
      (Frame.frameGlCall _ (Op.glCullFace FaceMode.GL_FRONT) _ rfl)
  have hma : (index? w0.allModels w0.selectedModel).isSome = true := by
    rw [hfa.sel.1, hfa.sel.2.1]; exact hm
  obtain ⟨wb, hwb, hsb⟩ :=
    drawModel_submits ops sh.backfaceShader projection view TwoSurfacesBackFaceShader w0
      (Or.inr (Or.inl rfl)) hma
  let wc1 := wb.glCullFace FaceMode.GL_BACK
  let wc2 := wc1.glBindFramebuffer 0
  let wc3 := wc2.glActiveTexture 1
  let wc4 := wc3.glBindTexture TextureTarget.GL_TEXTURE_2D wc3.backfaceNormalTex
  let wc5 := wc4.glActiveTexture 2
  let wc6 := wc5.glBindTexture TextureTarget.GL_TEXTURE_2D wc5.backfaceDepthTex
  have hfc : Frame wb wc6 :=
    (Frame.frameGlCall wb (Op.glCullFace FaceMode.GL_BACK) _ rfl).frameTrans
      (((((Step.glBindFramebuffer wc1 0).stepTrans (Step.glActiveTexture wc2 1)).stepTrans
        (Step.glBindTexture wc3 _ _)).stepTrans (Step.glActiveTexture wc4 2)).stepTrans
        (Step.glBindTexture wc5 _ _)).frame
  have hmc : (index? wb.allModels wb.selectedModel).isSome = true := by
    rw [hsb.sel.1, hsb.sel.2.1]; exact hma
  obtain ⟨wd, hwd, hsd⟩ :=
    drawModel_submits ops sh.frontfaceShader projection view TwoSurfacesFrontFaceShader wc6
      (Or.inr (Or.inr rfl)) (by rw [hfc.sel.1, hfc.sel.2.1]; exact hmc)
  refine ⟨w0, wb, wc6, wd, hfa, rfl, rfl, hsb, hfc, rfl, rfl, hsd, ?_⟩
  rw [hwb]
  exact hwd

theorem dispatch_some (ops : FrameOps α) (sh : Shaders) (projection view : Mat4 α)
    (w : World α) (hm : (index? w.allModels w.selectedModel).isSome = true) :
    ∃ wd, refractionDispatch ops sh projection view w = some wd ∧ SameSel w wd := by
  by_cases h : w.selectedRefractionMethod = TwoSurfaces
  · obtain ⟨wa, wb, wc, wd, hfa, _, _, hsb, hfc, _, _, hsd, hd⟩ :=
      dispatch_two ops sh projection view w h hm
    exact ⟨wd, hd, ((hfa.sel.selTrans hsb.sel).selTrans hfc.sel).selTrans hsd.sel⟩
  · obtain ⟨wd, hd, hs⟩ := dispatch_one ops sh projection view w h hm
    exact ⟨wd, hd, hs.sel⟩

end DispatchLemmas

section IterationTheorems

variable {α : Type} [LinearOrderedField α] [FloorRing α]

theorem screenshotStep_some (w : World α)
    (h1 : (index? modelOptions w.selectedModel).isSome = true)
    (h2 : (index? skyboxOptions w.selectedSkybox).isSome = true) :
    ∃ w2, screenshotStep w = some w2 ∧ Step w w2 := by
  obtain ⟨m, hm⟩ := Option.isSome_iff_exists.mp h1
  obtain ⟨s, hs⟩ := Option.isSome_iff_exists.mp h2
  unfold screenshotStep
  by_cases ht : w.takeScreenshot = true
  · have hn : ∃ name, screenshotFileName w = some name := by
      simp only [screenshotFileName, hm, hs]
      exact ⟨_, rfl⟩
    obtain ⟨name, hn⟩ := hn
    rw [if_pos ht]
    simp only [hn]
    exact ⟨_, rfl, (Step.stepEmit w (Op.saveScreenshot name _ _) rfl).stepTrans
      (Step.stepOfEq rfl rfl ⟨rfl, rfl, rfl, rfl⟩)⟩
  · rw [if_neg ht]
    exact ⟨w, rfl, Step.stepRefl w⟩

theorem iteration_decomposition (ops : FrameOps α) (sh : Shaders) (inp : FrameInput α)
    (w : World α) (h : SelectionsInRange inp w) :
    ∃ (wPre : World α) (projection view : Mat4 α) (wd wEnd : World α),
      Step w wPre ∧ refractionDispatch ops sh projection view wPre = some wd ∧
      Quiet wd wEnd ∧ renderLoopIteration ops sh inp w = some wEnd := by
  obtain ⟨hA, hB, hC, hD⟩ := h
  unfold renderLoopIteration
  lift_lets
  intro w11 w10 currentFrame w9 w8 w7 w6 w5 w4 w3 src w2 view projection r w1 w0
  have h11 : Step w w11 := Step.glClearColor _ _ _ _ _
  have h10 : Step w11 w10 := Step.glClear _ _ _
  have h9 : Step w10 w9 := Step.stepOfEq rfl rfl ⟨rfl, rfl, rfl, rfl⟩
  have h8 : Step w9 w8 := Step.stepOfEq rfl rfl ⟨rfl, rfl, rfl, rfl⟩
  have h7 : Step w8 w7 := Step.stepOfEq rfl rfl ⟨rfl, rfl, rfl, rfl⟩
  have h6 : Step w7 w6 := Step.stepOfEq rfl rfl ⟨rfl, rfl, rfl, rfl⟩
  have h5 : Step w7 w5 :=
    Step.ite _ (h6.stepTrans (Step.stepOfEq rfl rfl ⟨rfl, rfl, rfl, rfl⟩)) (Step.stepRefl _)
  have h4 : Step w5 w4 := step_processUserInput _ _
  have h3 : Step w4 w3 := Step.ite _ (Step.stepEmit w4 Op.ImGuiNewFrame rfl) (Step.stepRefl _)
  have h2 : Step w3 w2 :=
    Step.ite _ (Step.stepOfEq rfl rfl ⟨rfl, rfl, rfl, rfl⟩) (Step.stepOfEq rfl rfl ⟨rfl, rfl, rfl, rfl⟩)
  have h1 : Step w2 w1 :=
    Step.ite _ ((Step.stepOfEq rfl rfl ⟨rfl, rfl, rfl, rfl⟩ :
      Step w2 { w2 with fpsTracker := r.1 }).stepTrans (Step.coutFold r.2 _)) (Step.stepRefl _)
  have h0 : Step w1 w0 := step_drawSkyBox _ _ _ _
  have hPre : Step w w0 :=
    (((((((((h11.stepTrans h10).stepTrans h9).stepTrans h8).stepTrans h7).stepTrans h5).stepTrans h4).stepTrans h3).stepTrans
      h2).stepTrans h1).stepTrans h0
  have hm0 : (index? w0.allModels w0.selectedModel).isSome = true := by
    rw [hPre.sel.1, hPre.sel.2.1]; exact hA
  obtain ⟨wd, hd, hsd⟩ := dispatch_some ops sh projection view w0 hm0
  have hsel : SameSel w wd := hPre.sel.selTrans hsd
  obtain ⟨ws, hws, hss⟩ := screenshotStep_some wd (by rw [hsel.2.1]; exact hB)
    (by rw [hsel.2.2.2]; exact hC)
  have hsel2 : SameSel w ws := hsel.selTrans hss.sel
  by_cases hact : ws.fpsTracker.active = false
  · obtain ⟨wi, hwi, hqi⟩ := ImGuiDrawWindow_some inp.panel ws (by
      intro hb
      rw [hsel2.2.1, hsel2.2.2.1, hsel2.2.2.2]
      exact hD hb)
    refine ⟨w0, projection, view, wd,
      glfwPollEvents ops inp.events (wi.emit Op.glfwSwapBuffers), hPre, hd, ?_, ?_⟩
    · exact ((hss.quiet.quietTrans hqi).quietTrans (Quiet.quietEmit wi Op.glfwSwapBuffers rfl)).quietTrans
        (step_glfwPollEvents ops inp.events _).quiet
    · simp only [hd, hws, hact, if_true, hwi]
  · refine ⟨w0, projection, view, wd,
      glfwPollEvents ops inp.events (ws.emit Op.glfwSwapBuffers), hPre, hd, ?_, ?_⟩
    · exact (hss.quiet.quietTrans (Quiet.quietEmit ws Op.glfwSwapBuffers rfl)).quietTrans
        (step_glfwPollEvents ops inp.events _).quiet
    · have hact2 : ws.fpsTracker.active = true := by simpa using hact
      simp [hd, hws, hact2]

/-- C6: in one iteration of the render loop whose selections index inside
their arrays, with `selectedRefractionMethod = TwoSurfaces` exactly two
`drawModel` submissions are issued, the first with the backface shader and the
second with the front-face shader, face culling being enabled with cull mode
FRONT in every context state from entry to return of the first and with cull
mode BACK in every context state from entry to return of the second; with
`selectedRefractionMethod = OneSurface` exactly one submission is issued, with
the one-surface refraction shader. -/
theorem refraction_draw_submissions (ops : FrameOps α) (sh : Shaders) (inp : FrameInput α)
    (w : World α) (h : SelectionsInRange inp w) :
    (w.selectedRefractionMethod = TwoSurfaces →
      ∃ (tr : List (Entry α)) (c1 c2 : DrawModelCall),
        iterationTrace ops sh inp w = some tr ∧ drawModelCalls tr = [c1, c2] ∧
        c1.shader = sh.backfaceShader.ID ∧ c1.shaderType = TwoSurfacesBackFaceShader ∧
        (∀ g ∈ c1.states, g.cullFace = true ∧ g.cullFaceMode = FaceMode.GL_FRONT) ∧
        c2.shader = sh.frontfaceShader.ID ∧ c2.shaderType = TwoSurfacesFrontFaceShader ∧
        (∀ g ∈ c2.states, g.cullFace = true ∧ g.cullFaceMode = FaceMode.GL_BACK)) ∧
    (w.selectedRefractionMethod = OneSurface →
      ∃ (tr : List (Entry α)) (c : DrawModelCall),
        iterationTrace ops sh inp w = some tr ∧ drawModelCalls tr = [c] ∧
        c.shader = sh.refractionShader.ID ∧ c.shaderType = OneSurfaceShader) := by
  have h0 : SelectionsInRange inp { w with trace := [] } := h
  obtain ⟨wPre, projection, view, wd, wEnd, hPre, hd, hq, hit⟩ :=
    iteration_decomposition ops sh inp { w with trace := [] } h0
  obtain ⟨lpre, hlpre, hqpre⟩ := hPre.quiet
  obtain ⟨lpost, hlpost, hqpost⟩ := hq
  have hm : (index? wPre.allModels wPre.selectedModel).isSome = true := by
    rw [hPre.sel.1, hPre.sel.2.1]; exact h.1
  have htr : iterationTrace ops sh inp w = some wEnd.trace := by
    simp only [iterationTrace, hit, Option.map_some']
  constructor
  · intro hsel
    have hsel' : wPre.selectedRefractionMethod = TwoSurfaces := by
      rw [hPre.sel.2.2.1]; exact hsel
    obtain ⟨wa, wb, wc, wd2, hfa, hca, hma, hsb, hfc, hcc, hmc, hsd, hd2⟩ :=
      dispatch_two ops sh projection view wPre hsel' hm
    have hwd : wd2 = wd := Option.some.inj (hd2.symm.trans hd)
    subst hwd
    obtain ⟨lset, hlset, hqset⟩ := hfa.trace
    obtain ⟨body1, g1, hb1, hqb1, hg1c, hg1m⟩ := hsb.trace
    obtain ⟨lmid, hlmid, hqmid⟩ := hfc.trace
    obtain ⟨body2, g2, hb2, hqb2, hg2c, hg2m⟩ := hsd.trace
    have hcc' : wc.gl.cullFace = true := by rw [hcc, hsb.cullFace, hca]
    have htrace : wEnd.trace = lpre ++ (lset ++
        (⟨Op.drawModel sh.backfaceShader.ID TwoSurfacesBackFaceShader, wa.gl⟩ ::
          (body1 ++ ⟨Op.drawModelReturn, g1⟩ :: (lmid ++
            (⟨Op.drawModel sh.frontfaceShader.ID TwoSurfacesFrontFaceShader, wc.gl⟩ ::
              (body2 ++ ⟨Op.drawModelReturn, g2⟩ :: lpost)))))) := by
      rw [hlpost, hb2, hlmid, hb1, hlset, hlpre]
      simp only [List.append_assoc, List.cons_append, List.nil_append, List.singleton_append]
    refine ⟨wEnd.trace,
      { shader := sh.backfaceShader.ID, shaderType := TwoSurfacesBackFaceShader,
        states := wa.gl :: (body1.map Entry.gl ++ [g1]) },
      { shader := sh.frontfaceShader.ID, shaderType := TwoSurfacesFrontFaceShader,
        states := wc.gl :: (body2.map Entry.gl ++ [g2]) },
      htr, ?_, rfl, rfl, ?_, rfl, rfl, ?_⟩
    · rw [htrace, drawModelCalls_quiet_append _ _ hqpre, drawModelCalls_quiet_append _ _ hqset,
        drawModelCalls_submission _ _ _ _ _ _ (fun e he => (hqb1 e he).1),
        drawModelCalls_quiet_append _ _ hqmid,
        drawModelCalls_submission _ _ _ _ _ _ (fun e he => (hqb2 e he).1),
        drawModelCalls_quiet lpost hqpost]
    · intro g hg
      simp only [List.mem_cons, List.mem_append, List.mem_map, List.not_mem_nil, or_false] at hg
      rcases hg with rfl | ⟨e, he, rfl⟩ | rfl
      · exact ⟨hca, hma⟩
      · exact ⟨(hqb1 e he).2.1.trans hca, (hqb1 e he).2.2.trans hma⟩
      · exact ⟨hg1c.trans hca, hg1m.trans hma⟩
    · intro g hg
      simp only [List.mem_cons, List.mem_append, List.mem_map, List.not_mem_nil, or_false] at hg
      rcases hg with rfl | ⟨e, he, rfl⟩ | rfl
      · exact ⟨hcc', hmc⟩
      · exact ⟨(hqb2 e he).2.1.trans hcc', (hqb2 e he).2.2.trans hmc⟩
      · exact ⟨hg2c.trans hcc', hg2m.trans hmc⟩
  · intro hsel
    have hsel' : wPre.selectedRefractionMethod ≠ TwoSurfaces := by
      rw [hPre.sel.2.2.1]
      change w.selectedRefractionMethod ≠ TwoSurfaces
      rw [hsel]; decide
    obtain ⟨wd2, hd2, hsd⟩ := dispatch_one ops sh projection view wPre hsel' hm
    have hwd : wd2 = wd := Option.some.inj (hd2.symm.trans hd)
    subst hwd
    obtain ⟨body, g, hb, hqb, _, _⟩ := hsd.trace
    have htrace : wEnd.trace = lpre ++
        (⟨Op.drawModel sh.refractionShader.ID OneSurfaceShader, wPre.gl⟩ ::
          (body ++ ⟨Op.drawModelReturn, g⟩ :: lpost)) := by
      rw [hlpost, hb, hlpre]
      simp only [List.append_assoc, List.cons_append, List.nil_append, List.singleton_append]
    refine ⟨wEnd.trace,
      { shader := sh.refractionShader.ID, shaderType := OneSurfaceShader,
        states := wPre.gl :: (body.map Entry.gl ++ [g]) },
      htr, ?_, rfl, rfl⟩
    rw [htrace, drawModelCalls_quiet_append _ _ hqpre,
      drawModelCalls_submission _ _ _ _ _ _ (fun e he => (hqb e he).1),
      drawModelCalls_quiet lpost hqpost]

theorem refraction_draw_submissions_witness :
    SelectionsInRange idleInput twoSurfaceWorld ∧
    ∃ (tr : List (Entry ℚ)) (c1 c2 : DrawModelCall),
      iterationTrace approxFrameOps sampleShaders idleInput twoSurfaceWorld = some tr ∧
      drawModelCalls tr = [c1, c2] ∧
      c1.shader = 3 ∧ c1.shaderType = TwoSurfacesBackFaceShader ∧
      (∀ g ∈ c1.states, g.cullFace = true ∧ g.cullFaceMode = FaceMode.GL_FRONT) ∧
      c2.shader = 4 ∧ c2.shaderType = TwoSurfacesFrontFaceShader ∧
      (∀ g ∈ c2.states, g.cullFace = true ∧ g.cullFaceMode = FaceMode.GL_BACK) :=
  have hin : SelectionsInRange idleInput twoSurfaceWorld :=
    ⟨rfl, rfl, rfl, fun hb => absurd hb (by decide)⟩
  ⟨hin, (refraction_draw_submissions approxFrameOps sampleShaders idleInput twoSurfaceWorld hin).1
    rfl⟩

end IterationTheorems

/-! ## Theorems: the FPS tracker, the skybox view and the rendering passes -/

section TrackerTheorems
variable {α : Type} [LinearOrderedField α]

theorem update_of_inactive (t : FPSTracker α) (h : t.active = false) (dt : α) :
    t.update dt = (t, []) := by
  simp [FPSTracker.update, h]

theorem update_active_frameLimit (t : FPSTracker α) (h : t.active = true) (dt : α) :
    (t.update dt).1.frameLimit = t.frameLimit ∧ (t.update dt).1.frameCount = t.frameCount + 1 ∧
    ((t.update dt).1.active = true ↔ t.frameCount + 1 < t.frameLimit) := by
  by_cases hl : t.frameCount + 1 ≥ t.frameLimit
  · simp only [FPSTracker.update, h, if_pos hl]
    refine ⟨rfl, rfl, ?_⟩
    constructor
    · intro hf
      simp at hf
    · intro hlt
      omega
  · simp only [FPSTracker.update, h, if_neg hl]
    refine ⟨rfl, rfl, ?_⟩
    constructor
    · intro _
      omega
    · intro _
      simp

theorem updates_snoc (t : FPSTracker α) (dts : List α) (dt : α) :
    FPSTracker.updates t (dts ++ [dt]) = ((FPSTracker.updates t dts).update dt).1 := by
  simp [FPSTracker.updates]

theorem updates_after_start (t : FPSTracker α) (n : Int) (hn : 1 ≤ n) (dts : List α) :
    (FPSTracker.updates (t.start n) dts).frameLimit = n ∧
    (FPSTracker.updates (t.start n) dts).frameCount = min (dts.length : Int) n ∧
    ((FPSTracker.updates (t.start n) dts).active = true ↔ (dts.length : Int) < n) := by
  induction dts using List.reverseRecOn with
  | nil =>
    refine ⟨rfl, ?_, ?_⟩
    · simp only [FPSTracker.updates, List.foldl_nil, FPSTracker.start, List.length_nil]
      rw [min_eq_left (by simpa using (by omega : (0 : Int) ≤ n))]
      rfl
    · simp only [FPSTracker.updates, List.foldl_nil, FPSTracker.start, List.length_nil]
      simp
      omega
  | append_singleton l dt ih =>
    obtain ⟨h1, h2, h3⟩ := ih
    rw [updates_snoc]
    have hlen : ((l ++ [dt]).length : Int) = (l.length : Int) + 1 := by simp
    rw [hlen]
    by_cases hact : (FPSTracker.updates (t.start n) l).active = true
    · obtain ⟨a, b, c⟩ := update_active_frameLimit _ hact dt
      have hl : (l.length : Int) < n := h3.mp hact
      refine ⟨a.trans h1, ?_, ?_⟩
      · rw [b, h2, min_eq_left hl.le, min_eq_left (by omega)]
      · rw [c, h2, h1, min_eq_left hl.le]
    · have hact' : (FPSTracker.updates (t.start n) l).active = false := by simpa using hact
      rw [update_of_inactive _ hact']
      have hl : ¬ (l.length : Int) < n := fun h => hact (h3.mpr h)
      refine ⟨h1, ?_, ?_⟩
      · rw [h2, min_eq_right (by omega), min_eq_right (by omega)]
      · rw [h3]
        constructor
        · intro h; exact absurd h hl
        · intro h; omega

theorem updates_of_inactive (t : FPSTracker α) (h : t.active = false) (dts : List α) :
    FPSTracker.updates t dts = t := by
  induction dts with
  | nil => rfl
  | cons dt rest ih =>
    have h1 : FPSTracker.updates t (dt :: rest) = FPSTracker.updates (t.update dt).1 rest := rfl
    rw [h1, update_of_inactive t h]
    exact ih

theorem updates_append (t : FPSTracker α) (a b : List α) :
    FPSTracker.updates t (a ++ b) = FPSTracker.updates (FPSTracker.updates t a) b := by
  simp [FPSTracker.updates]

theorem ImGuiDrawWindow_starts_tracker (panel : PanelInput α) (w : World α)
    (hb : panel.buttonStartFPSTest = true) :
    ∀ w2, ImGuiDrawWindow panel w = some w2 → w2.fpsTracker = w.fpsTracker.start 1000 := by
  unfold ImGuiDrawWindow
  lift_lets
  intro w9 w8 w7 w6 w5 w4 w3 w2 started
  intro wr h
  have hs : ∀ ws, started = some ws → ws.fpsTracker = w.fpsTracker.start 1000 := by
    intro ws hws
    simp only [started, hb, if_true] at hws
    split at hws
    · cases hws
      rfl
    · cases hws
  cases hst : started with
  | none => rw [hst] at h; cases h
  | some ws =>
    rw [hst] at h
    simp only [Option.some.injEq] at h
    rw [← h]
    have := hs ws hst
    split_ifs <;> exact this

/-- C15.  After `start(n)` with `n >= 1` followed by `k` calls of `update`,
whatever the `deltaTime` values, the tracker is active if and only if `k < n`
and `frameCount = min(k, n)`; the state is the one reached by the first `n`
calls, and once `k >= n` every further `update` returns the tracker as it is,
`minFPS`, `maxFPS`, `totalFPS` and `frameCount` included, and prints nothing.
The Start FPS Test button of `ImGuiDrawWindow` starts the tracker with
`n = 1000`. -/
theorem tracker_samples_exactly_n_frames (t : FPSTracker α) (n : Int) (hn : 1 ≤ n)
    (dts : List α) :
    ((FPSTracker.updates (t.start n) dts).active = true ↔ (dts.length : Int) < n) ∧
    (FPSTracker.updates (t.start n) dts).frameCount = min (dts.length : Int) n ∧
    FPSTracker.updates (t.start n) dts = FPSTracker.updates (t.start n) (dts.take n.toNat) ∧
    (n ≤ (dts.length : Int) → ∀ dt : α,
      (FPSTracker.updates (t.start n) dts).update dt =
        (FPSTracker.updates (t.start n) dts, [])) ∧
    (∀ (panel : PanelInput α) (w w2 : World α), panel.buttonStartFPSTest = true →
      ImGuiDrawWindow panel w = some w2 → w2.fpsTracker = w.fpsTracker.start 1000) := by
  obtain ⟨_, h2, h3⟩ := updates_after_start t n hn dts
  refine ⟨h3, h2, ?_, ?_, fun panel w w2 hb => ImGuiDrawWindow_starts_tracker panel w hb w2⟩
  · by_cases hl : (dts.length : Int) < n
    · rw [List.take_of_length_le (by omega)]
    · obtain ⟨_, _, h3'⟩ := updates_after_start t n hn (dts.take n.toNat)
      have hlen : ((dts.take n.toNat).length : Int) = n := by
        rw [List.length_take]
        omega
      have hin : (FPSTracker.updates (t.start n) (dts.take n.toNat)).active = false := by
        cases hact : (FPSTracker.updates (t.start n) (dts.take n.toNat)).active
        · rfl
        · have := h3'.mp hact
          omega
      conv_lhs => rw [← List.take_append_drop n.toNat dts]
      rw [updates_append, updates_of_inactive _ hin]
  · intro hl dt
    apply update_of_inactive
    cases hact : (FPSTracker.updates (t.start n) dts).active
    · rfl
    · have := h3.mp hact
      omega

theorem tracker_samples_exactly_n_frames_witness :
    (1 : Int) ≤ 3 ∧
    ((FPSTracker.updates ((FPSTracker.initial : FPSTracker ℚ).start 3)
        [1 / 60, 1 / 60, 1 / 60, 1 / 60]).active = true ↔
      ((([1 / 60, 1 / 60, 1 / 60, 1 / 60] : List ℚ).length : Nat) : Int) < 3) ∧
    (FPSTracker.updates ((FPSTracker.initial : FPSTracker ℚ).start 3)
        [1 / 60, 1 / 60, 1 / 60, 1 / 60]).frameCount =
      min ((([1 / 60, 1 / 60, 1 / 60, 1 / 60] : List ℚ).length : Nat) : Int) 3 :=
  ⟨by decide,
    (tracker_samples_exactly_n_frames FPSTracker.initial 3 (by decide)
      [1 / 60, 1 / 60, 1 / 60, 1 / 60]).1,
    (tracker_samples_exactly_n_frames FPSTracker.initial 3 (by decide)
      [1 / 60, 1 / 60, 1 / 60, 1 / 60]).2.1⟩

end TrackerTheorems

section SkyboxTheorems
variable {α : Type} [LinearOrderedField α]

theorem drawSkyBox_view_uniform (skyboxShader : Shader) (projection V : Mat4 α) (w : World α) :
    mat4Uniforms skyboxShader.ID "view" (drawSkyBox skyboxShader projection V w).trace =
      mat4Uniforms skyboxShader.ID "view" w.trace ++ [mat4OfMat3 (mat3OfMat4 V)] := by
  simp only [drawSkyBox, World.glDisable, World.glEnable, World.glCall, World.emit, Shader.use,
    Shader.setMat4, Shader.setInt, World.glActiveTexture, World.glBindTexture,
    World.glBindVertexArray, World.glDrawArrays]
  split_ifs <;> simp [mat4Uniforms, List.filterMap_append]

/-- C14: the one matrix `drawSkyBox` passes to the skybox shader as `view` is
`mat4(mat3(V))`; it has the upper-left 3x3 block of `V`, zeros in the first three
rows of the fourth column (the translation), zeros in the first three entries of
the fourth row and 1 in the corner; a view matrix `V2` that differs from `V`
only in the translation entries yields the same skybox view matrix. -/
theorem skybox_view_drops_translation (skyboxShader : Shader) (projection V : Mat4 α)
    (w : World α) :
    mat4Uniforms skyboxShader.ID "view"
        (drawSkyBox skyboxShader projection V { w with trace := [] }).trace =
      [mat4OfMat3 (mat3OfMat4 V)] ∧
    (∀ c r : Fin 3, mat4OfMat3 (mat3OfMat4 V) c.castSucc r.castSucc = V c.castSucc r.castSucc) ∧
    (∀ r : Fin 3, mat4OfMat3 (mat3OfMat4 V) 3 r.castSucc = 0) ∧
    (∀ c : Fin 3, mat4OfMat3 (mat3OfMat4 V) c.castSucc 3 = 0) ∧
    mat4OfMat3 (mat3OfMat4 V) 3 3 = 1 ∧
    ∀ V2 : Mat4 α, (∀ c r : Fin 4, (c ≠ 3 ∨ r = 3) → V2 c r = V c r) →
      mat4OfMat3 (mat3OfMat4 V2) = mat4OfMat3 (mat3OfMat4 V) ∧
      mat4Uniforms skyboxShader.ID "view"
          (drawSkyBox skyboxShader projection V2 { w with trace := [] }).trace =
        mat4Uniforms skyboxShader.ID "view"
          (drawSkyBox skyboxShader projection V { w with trace := [] }).trace := by
  have hblock : ∀ (m : Mat4 α) (c r : Fin 3),
      mat4OfMat3 (mat3OfMat4 m) c.castSucc r.castSucc = m c.castSucc r.castSucc := by
    intro m c r
    simp [mat4OfMat3, mat3OfMat4]
  have hsame : ∀ V2 : Mat4 α, (∀ c r : Fin 4, (c ≠ 3 ∨ r = 3) → V2 c r = V c r) →
      mat4OfMat3 (mat3OfMat4 V2) = mat4OfMat3 (mat3OfMat4 V) := by
    intro V2 h
    funext c r
    simp only [mat4OfMat3, mat3OfMat4]
    split_ifs with hc hr
    · apply h
      left
      intro hc3
      rw [Fin.ext_iff] at hc3
      simp at hc3
      omega
    · rfl
    · rfl
    · rfl
  have h3 : ((3 : Fin 4) : Nat) = 3 := rfl
  refine ⟨?_, hblock V, ?_, ?_, ?_, ?_⟩
  · rw [drawSkyBox_view_uniform]
    rfl
  · intro r
    have hr : (r.castSucc : Fin 4).val < 3 := r.isLt
    simp [mat4OfMat3, hr, h3]
  · intro c
    have hc : (c.castSucc : Fin 4).val < 3 := c.isLt
    simp [mat4OfMat3, hc, h3]
  · simp [mat4OfMat3, h3]
  · intro V2 h
    refine ⟨hsame V2 h, ?_⟩
    rw [drawSkyBox_view_uniform, drawSkyBox_view_uniform, hsame V2 h]

end SkyboxTheorems

section FlowLemmas
variable {α : Type}

theorem quietOp_of_cls (op : Op α) (h : op.cls ≠ OpClass.marker) : quietOp op = true := by
  cases op <;> first | rfl | exact absurd rfl h

theorem Emits.emitsRefl (S : OpClass → Bool) (w : World α) : Emits S w w :=
  ⟨[], by simp, by simp⟩

theorem Emits.emitsTrans {S : OpClass → Bool} {w w2 w3 : World α} (h : Emits S w w2)
    (h2 : Emits S w2 w3) : Emits S w w3 := by
  obtain ⟨l, hl, hq⟩ := h
  obtain ⟨l2, hl2, hq2⟩ := h2
  refine ⟨l ++ l2, by rw [hl2, hl, List.append_assoc], ?_⟩
  intro e he
  rcases List.mem_append.mp he with he | he
  · exact hq e he
  · exact hq2 e he

theorem Emits.emitsMono {S T : OpClass → Bool} {w w2 : World α} (h : Emits S w w2)
    (hST : ∀ c, S c = true → T c = true) : Emits T w w2 := by
  obtain ⟨l, hl, hq⟩ := h
  exact ⟨l, hl, fun e he => hST _ (hq e he)⟩

theorem Render.renderRefl (S : OpClass → Bool) (w : World α) : Render S w w :=
  ⟨⟨[], by simp, by simp⟩, rfl, rfl⟩

theorem Render.renderTrans {S : OpClass → Bool} {w w2 w3 : World α} (h : Render S w w2)
    (h2 : Render S w2 w3) : Render S w w3 := by
  obtain ⟨l, hl, hq⟩ := h.trace
  obtain ⟨l2, hl2, hq2⟩ := h2.trace
  refine ⟨⟨l ++ l2, by rw [hl2, hl, List.append_assoc], ?_⟩, h2.gl.trans h.gl, ?_⟩
  · intro e he
    rcases List.mem_append.mp he with he | he
    · exact hq e he
    · exact ⟨(hq2 e he).1, (hq2 e he).2.trans h.gl⟩
  · have e1 : World.withContextOf w w3 = World.withContextOf w (World.withContextOf w2 w3) := rfl
    rw [e1, h2.globals]
    exact h.globals

theorem Render.renderEmit (S : OpClass → Bool) (w : World α) (op : Op α)
    (hop : S op.cls = true) : Render S w (w.emit op) :=
  ⟨⟨[⟨op, w.gl⟩], rfl, by simp [hop]⟩, rfl, rfl⟩

theorem Render.renderGlCall (S : OpClass → Bool) (w : World α) (op : Op α)
    (f : GLState → GLState) (hop : S op.cls = true)
    (hf : (f w.gl).fixedPart = w.gl.fixedPart) : Render S w (w.glCall op f) :=
  ⟨⟨[⟨op, w.gl⟩], rfl, by simp [hop]⟩, hf, rfl⟩

theorem Render.renderMono {S T : OpClass → Bool} {w w2 : World α} (h : Render S w w2)
    (hST : ∀ c, S c = true → T c = true) : Render T w w2 := by
  obtain ⟨l, hl, hq⟩ := h.trace
  exact ⟨⟨l, hl, fun e he => ⟨hST _ (hq e he).1, (hq e he).2⟩⟩, h.gl, h.globals⟩

theorem Flow.flowRefl (S : OpClass → Bool) (w : World α) : Flow S w w :=
  ⟨Emits.emitsRefl S w, rfl, rfl⟩

theorem Flow.flowTrans {S : OpClass → Bool} {w w2 w3 : World α} (h : Flow S w w2)
    (h2 : Flow S w2 w3) : Flow S w w3 := by
  refine ⟨h.trace.emitsTrans h2.trace, h2.store.trans h.store, ?_⟩
  have e1 : World.withInputsOf w w3 = World.withInputsOf w (World.withInputsOf w2 w3) := rfl
  rw [e1, h2.settings]
  exact h.settings

theorem Flow.flowMono {S T : OpClass → Bool} {w w2 : World α} (h : Flow S w w2)
    (hST : ∀ c, S c = true → T c = true) : Flow T w w2 :=
  ⟨h.trace.emitsMono hST, h.store, h.settings⟩

theorem Flow.flowEmit (S : OpClass → Bool) (w : World α) (op : Op α)
    (hop : S op.cls = true) : Flow S w (w.emit op) :=
  ⟨⟨[⟨op, w.gl⟩], rfl, by simp [hop]⟩, rfl, rfl⟩

theorem Flow.flowGlCall (S : OpClass → Bool) (w : World α) (op : Op α)
    (f : GLState → GLState) (hop : S op.cls = true)
    (hf : (f w.gl).store = w.gl.store) : Flow S w (w.glCall op f) :=
  ⟨⟨[⟨op, w.gl⟩], rfl, by simp [hop]⟩, hf, rfl⟩

theorem Flow.flowOfEq (S : OpClass → Bool) {w w2 : World α} (h1 : w2.trace = w.trace)
    (h2 : w2.gl = w.gl) (h3 : World.withInputsOf w w2 = w) : Flow S w w2 :=
  ⟨⟨[], by simp [h1], by simp⟩, by rw [h2], h3⟩

theorem Flow.flowIte {S : OpClass → Bool} {w : World α} (c : Prop) [Decidable c] {a b : World α}
    (ha : Flow S w a) (hb : Flow S w b) : Flow S w (if c then a else b) := by
  split_ifs <;> assumption

theorem Render.renderFlow {S : OpClass → Bool} {w w2 : World α} (h : Render S w w2) : Flow S w w2 := by
  obtain ⟨l, hl, hq⟩ := h.trace
  refine ⟨⟨l, hl, fun e he => (hq e he).1⟩, ?_, ?_⟩
  · show w2.gl.fixedPart.store = w.gl.fixedPart.store
    rw [h.gl]
  · have e1 : World.withInputsOf w w2 = World.withInputsOf w (World.withContextOf w w2) := rfl
    rw [e1, h.globals]
    rfl

theorem render_use (S : OpClass → Bool) (hs : S OpClass.shader = true) (shader : Shader)
    (w : World α) : Render S w (shader.use w) :=
  Render.renderGlCall S _ _ _ hs rfl

theorem render_setMat4 (S : OpClass → Bool) (hs : S OpClass.shader = true) (shader : Shader)
    (name : String) (v : Mat4 α) (w : World α) : Render S w (shader.setMat4 name v w) :=
  Render.renderEmit S _ _ hs

theorem render_setFloat (S : OpClass → Bool) (hs : S OpClass.shader = true) (shader : Shader)
    (name : String) (v : α) (w : World α) : Render S w (shader.setFloat name v w) :=
  Render.renderEmit S _ _ hs

theorem render_setBool (S : OpClass → Bool) (hs : S OpClass.shader = true) (shader : Shader)
    (name : String) (v : Bool) (w : World α) : Render S w (shader.setBool name v w) :=
  Render.renderEmit S _ _ hs

theorem render_setInt (S : OpClass → Bool) (hs : S OpClass.shader = true) (shader : Shader)
    (name : String) (v : Int) (w : World α) : Render S w (shader.setInt name v w) :=
  Render.renderEmit S _ _ hs

theorem render_meshDraw (S : OpClass → Bool) (hg : S OpClass.gl = true) (mesh : Mesh α)
    (shader : Shader) (w : World α) : Render S w (mesh.draw shader w) := by
  unfold Mesh.draw
  exact (((Render.renderGlCall S w (Op.glBindVertexArray mesh.VAO) _ hg rfl).renderTrans
    (Render.renderEmit S _ (Op.glDrawElements _) hg)).renderTrans
    (Render.renderGlCall S _ (Op.glBindVertexArray 0) _ hg rfl)).renderTrans
    (Render.renderGlCall S _ (Op.glActiveTexture 0) _ hg rfl)

theorem render_foldlDraw (S : OpClass → Bool) (hg : S OpClass.gl = true) (meshes : List (Mesh α))
    (shader : Shader) (w : World α) :
    Render S w (meshes.foldl (fun w mesh => mesh.draw shader w) w) := by
  induction meshes generalizing w with
  | nil => exact Render.renderRefl S w
  | cons m t ih => exact (render_meshDraw S hg m shader w).renderTrans (ih _)

theorem render_modelDraw (S : OpClass → Bool) (hg : S OpClass.gl = true) (model : Model α)
    (shader : Shader) (w : World α) : Render S w (model.draw shader w) := by
  unfold Model.draw
  exact render_foldlDraw S hg _ _ _

theorem intUniforms_append (a b : List (Entry α)) :
    intUniforms (a ++ b) = intUniforms a ++ intUniforms b := by
  simp [intUniforms, List.filterMap_append]

theorem intUniforms_of_gl (l : List (Entry α)) (h : ∀ e ∈ l, e.op.cls = OpClass.gl) :
    intUniforms l = [] := by
  induction l with
  | nil => rfl
  | cons e t ih =>
    have he := h e (List.mem_cons_self _ _)
    have ht := ih fun x hx => h x (List.mem_cons_of_mem _ hx)
    obtain ⟨op, gl⟩ := e
    have h1 : intUniforms ((⟨op, gl⟩ : Entry α) :: t) = intUniforms t := by
      cases op <;> first | rfl | exact absurd he (by simp [Op.cls])
    rw [h1, ht]

theorem imguiCalls_append (a b : List (Entry α)) :
    imguiCalls (a ++ b) = imguiCalls a ++ imguiCalls b := by
  simp [imguiCalls, List.filterMap_append]

theorem imguiCalls_of_emits (l : List (Entry α)) (S : OpClass → Bool)
    (hS : S OpClass.imgui = false) (h : ∀ e ∈ l, S e.op.cls = true) : imguiCalls l = [] := by
  induction l with
  | nil => rfl
  | cons e t ih =>
    have he := h e (List.mem_cons_self _ _)
    have ht := ih fun x hx => h x (List.mem_cons_of_mem _ hx)
    obtain ⟨op, gl⟩ := e
    have h1 : imguiCalls ((⟨op, gl⟩ : Entry α) :: t) = imguiCalls t := by
      cases op <;> first | rfl | (simp only [Op.cls] at he; rw [hS] at he; cases he)
    rw [h1, ht]

end FlowLemmas

section RenderLemmas
variable {α : Type} [LinearOrderedField α]

theorem drawModel_uniforms (ops : FrameOps α) (shader : Shader) (projection view : Mat4 α)
    (shaderType : Int) (w : World α)
    (hty : shaderType = OneSurfaceShader ∨ shaderType = TwoSurfacesBackFaceShader ∨
      shaderType = TwoSurfacesFrontFaceShader)
    (hm : (index? w.allModels w.selectedModel).isSome = true) :
    ∃ (wu : World α) (m : Model α) (l : List (Entry α)),
      index? w.allModels w.selectedModel = some m ∧
      drawModel ops shader projection view shaderType w =
        some ((m.draw shader wu).emit Op.drawModelReturn) ∧
      wu.trace = (w.emit (Op.drawModel shader.ID shaderType)).trace ++ l ∧
      (∀ e ∈ l, e.op.cls = OpClass.shader ∧ e.gl.fixedPart = w.gl.fixedPart) ∧
      wu.gl.fixedPart = w.gl.fixedPart ∧
      World.withContextOf w wu = w ∧
      (shaderType = OneSurfaceShader → intUniforms l = [(shader.ID, "skybox", 0)]) ∧
      (shaderType = TwoSurfacesBackFaceShader → intUniforms l = []) ∧
      (shaderType = TwoSurfacesFrontFaceShader →
        intUniforms l =
          [(shader.ID, "skybox", 0), (shader.ID, "backfaceNormalTex", 1),
           (shader.ID, "backfaceDepthTex", 2)]) := by
  obtain ⟨m, hm⟩ := Option.isSome_iff_exists.mp hm
  unfold drawModel
  lift_lets
  intro w1 w2 model0 model w3 w4 w5 w6 w7 w8 w9 w10 uniforms wErr
  have hs : (fun c => decide (c = OpClass.shader)) OpClass.shader = true := rfl
  have h5 : Render (fun c => decide (c = OpClass.shader)) w1 w5 :=
    (((render_use _ hs shader w1).renderTrans (render_setMat4 _ hs _ _ _ _)).renderTrans
      (render_setMat4 _ hs _ _ _ _)).renderTrans (render_setMat4 _ hs _ _ _ _)
  have h7 : Render (fun c => decide (c = OpClass.shader)) w1 w7 :=
    (h5.renderTrans (render_setFloat _ hs _ _ _ _)).renderTrans (render_setBool _ hs _ _ _ _)
  have ht5 : intUniforms w5.trace = intUniforms w1.trace := by
    simp [w5, w4, w3, w2, Shader.setMat4, Shader.use, World.emit, World.glCall, intUniforms,
      List.filterMap_append]
  have ht7 : intUniforms w7.trace = intUniforms w1.trace := by
    have : intUniforms w7.trace = intUniforms w5.trace := by
      simp [w7, w6, Shader.setFloat, Shader.setBool, World.emit, intUniforms,
        List.filterMap_append]
    rw [this, ht5]
  have hu : ∃ wu, uniforms = some wu ∧ Render (fun c => decide (c = OpClass.shader)) w1 wu ∧
      (shaderType = OneSurfaceShader →
        intUniforms wu.trace = intUniforms w1.trace ++ [(shader.ID, "skybox", 0)]) ∧
      (shaderType = TwoSurfacesBackFaceShader → intUniforms wu.trace = intUniforms w1.trace) ∧
      (shaderType = TwoSurfacesFrontFaceShader →
        intUniforms wu.trace = intUniforms w1.trace ++
          [(shader.ID, "skybox", 0), (shader.ID, "backfaceNormalTex", 1),
           (shader.ID, "backfaceDepthTex", 2)]) := by
    rcases hty with h | h | h
    · refine ⟨shader.setInt "skybox" 0 w7, by simp only [uniforms, h, if_true],
        h7.renderTrans (render_setInt _ hs _ _ _ _), ?_, ?_, ?_⟩
      · intro _
        have : intUniforms (shader.setInt "skybox" 0 w7).trace =
            intUniforms w7.trace ++ [(shader.ID, "skybox", 0)] := by
          simp [Shader.setInt, World.emit, intUniforms, List.filterMap_append]
        rw [this, ht7]
      · intro h2; rw [h] at h2; exact absurd h2 (by decide)
      · intro h2; rw [h] at h2; exact absurd h2 (by decide)
    · refine ⟨w5, ?_, h5, ?_, ?_, ?_⟩
      · simp [uniforms, h, OneSurfaceShader, TwoSurfacesBackFaceShader]
      · intro h2; rw [h] at h2; exact absurd h2 (by decide)
      · intro _; exact ht5
      · intro h2; rw [h] at h2; exact absurd h2 (by decide)
    · refine ⟨_, ?_, (((h7.renderTrans (render_setBool _ hs _ _ _ _)).renderTrans
        (render_setInt _ hs _ _ _ _)).renderTrans (render_setInt _ hs _ _ _ _)).renderTrans
        (render_setInt _ hs shader "backfaceDepthTex" 2 w10), ?_, ?_, ?_⟩
      · simp [uniforms, h, OneSurfaceShader, TwoSurfacesBackFaceShader,
          TwoSurfacesFrontFaceShader]
      · intro h2; rw [h] at h2; exact absurd h2 (by decide)
      · intro h2; rw [h] at h2; exact absurd h2 (by decide)
      · intro _
        have : intUniforms (shader.setInt "backfaceDepthTex" 2 w10).trace =
            intUniforms w7.trace ++ [(shader.ID, "skybox", 0),
              (shader.ID, "backfaceNormalTex", 1), (shader.ID, "backfaceDepthTex", 2)] := by
          simp [w10, w9, w8, Shader.setInt, Shader.setBool, World.emit, intUniforms,
            List.filterMap_append]
        rw [this, ht7]
  obtain ⟨wu, hwu, hrender, hu1, hu2, hu3⟩ := hu
  obtain ⟨l, hl, hq⟩ := hrender.trace
  have hglob : World.withContextOf w wu = w := by
    have e1 : World.withContextOf w wu = World.withContextOf w (World.withContextOf w1 wu) := rfl
    rw [e1, hrender.globals]
    rfl
  have hidx : index? wu.allModels wu.selectedModel = some m := by
    have e1 : wu.allModels = w.allModels := by
      have := congrArg World.allModels hglob
      exact this
    have e2 : wu.selectedModel = w.selectedModel := by
      have := congrArg World.selectedModel hglob
      exact this
    rw [e1, e2]
    exact hm
  have hcancel : ∀ x : List (Nat × String × Int),
      intUniforms wu.trace = intUniforms w1.trace ++ x → intUniforms l = x := by
    intro x hx
    rw [hl, intUniforms_append] at hx
    exact List.append_cancel_left hx
  refine ⟨wu, m, l, hm, ?_, hl, ?_, hrender.gl, hglob, ?_, ?_, ?_⟩
  · rw [hwu]
    simp only [hidx]
  · intro e he
    exact ⟨by simpa using (hq e he).1, (hq e he).2⟩
  · intro h; exact hcancel _ (hu1 h)
  · intro h
    apply hcancel
    rw [hu2 h, List.append_nil]
  · intro h; exact hcancel _ (hu3 h)

theorem drawModel_submission (ops : FrameOps α) (shader : Shader) (projection view : Mat4 α)
    (shaderType : Int) (w : World α)
    (hty : shaderType = OneSurfaceShader ∨ shaderType = TwoSurfacesBackFaceShader ∨
      shaderType = TwoSurfacesFrontFaceShader)
    (hm : (index? w.allModels w.selectedModel).isSome = true) :
    ∃ (w2 : World α) (m : Model α) (body : List (Entry α)) (g : GLState),
      index? w.allModels w.selectedModel = some m ∧
      drawModel ops shader projection view shaderType w = some w2 ∧
      Submission shader.ID shaderType w w2 body g ∧
      indexedDraws body =
        (m.meshes.take (toUInt m.meshes.length)).map
          (fun mesh => (mesh.VAO, toInt (toUInt mesh.indices.length))) ∧
      (shaderType = OneSurfaceShader → intUniforms body = [(shader.ID, "skybox", 0)]) ∧
      (shaderType = TwoSurfacesBackFaceShader → intUniforms body = []) ∧
      (shaderType = TwoSurfacesFrontFaceShader →
        intUniforms body =
          [(shader.ID, "skybox", 0), (shader.ID, "backfaceNormalTex", 1),
           (shader.ID, "backfaceDepthTex", 2)]) := by
  obtain ⟨wu, m, l, hm, hd, hl, hq, hgl, hglob, hu1, hu2, hu3⟩ :=
    drawModel_uniforms ops shader projection view shaderType w hty hm
  have hdraw : Render (fun c => decide (c = OpClass.gl)) wu (m.draw shader wu) :=
    render_modelDraw _ rfl m shader wu
  obtain ⟨d, hd1, hd2⟩ := hdraw.trace
  have hdgl : ∀ e ∈ d, e.op.cls = OpClass.gl := fun e he => by simpa using (hd2 e he).1
  have hid : indexedDraws d =
      (m.meshes.take (toUInt m.meshes.length)).map
        (fun mesh => (mesh.VAO, toInt (toUInt mesh.indices.length))) := by
    have h1 : indexedDraws (m.draw shader wu).trace = indexedDraws wu.trace ++
        (m.meshes.take (toUInt m.meshes.length)).map
          (fun mesh => (mesh.VAO, toInt (toUInt mesh.indices.length))) := by
      rw [Model.draw, foldl_draw_indexedDraws]
    rw [hd1, indexedDraws_append] at h1
    exact List.append_cancel_left h1
  have hil : indexedDraws l = [] := by
    clear hu1 hu2 hu3 hl
    induction l with
    | nil => rfl
    | cons e t ih =>
      have he := (hq e (List.mem_cons_self _ _)).1
      have ht := ih fun x hx => hq x (List.mem_cons_of_mem _ hx)
      obtain ⟨op, gl⟩ := e
      have h1 : indexedDraws ((⟨op, gl⟩ : Entry α) :: t) = indexedDraws t := by
        cases op <;> first | rfl | exact absurd he (by simp [Op.cls])
      rw [h1, ht]
  have hud : intUniforms d = [] := intUniforms_of_gl d hdgl
  refine ⟨(m.draw shader wu).emit Op.drawModelReturn, m, l ++ d, (m.draw shader wu).gl, hm, hd,
    ⟨?_, ?_, ?_, rfl, ?_⟩, ?_, ?_, ?_, ?_⟩
  · simp only [World.emit, hd1, hl, List.append_assoc, List.singleton_append, List.cons_append,
      List.nil_append]
  · intro e he
    rcases List.mem_append.mp he with he | he
    · exact ⟨Or.inl (hq e he).1, (hq e he).2⟩
    · exact ⟨Or.inr (hdgl e he), ((hd2 e he).2).trans hgl⟩
  · exact hdraw.gl.trans hgl
  · have e1 : World.withContextOf w ((m.draw shader wu).emit Op.drawModelReturn) =
        World.withContextOf w (World.withContextOf wu (m.draw shader wu)) := rfl
    rw [e1, hdraw.globals]
    exact hglob
  · rw [indexedDraws_append, hil, hid, List.nil_append]
  · intro h; rw [intUniforms_append, hud, hu1 h, List.append_nil]
  · intro h; rw [intUniforms_append, hud, hu2 h, List.append_nil]
  · intro h; rw [intUniforms_append, hud, hu3 h, List.append_nil]

end RenderLemmas

section SubmissionLemmas
variable {α : Type}

theorem submissions_cons_quiet (e : Entry α) (rest : List (Entry α))
    (h : quietOp e.op = true) : submissions (e :: rest) = submissions rest := by
  obtain ⟨op, gl⟩ := e
  cases op <;> first | rfl | exact absurd h (by simp [quietOp])

theorem submissions_quiet_append (l b : List (Entry α))
    (hl : ∀ e ∈ l, quietOp e.op = true) : submissions (l ++ b) = submissions b := by
  induction l with
  | nil => rfl
  | cons e t ih =>
    rw [List.cons_append, submissions_cons_quiet e _ (hl e (List.mem_cons_self _ _))]
    exact ih fun x hx => hl x (List.mem_cons_of_mem _ hx)

theorem submissions_quiet (l : List (Entry α)) (hl : ∀ e ∈ l, quietOp e.op = true) :
    submissions l = [] := by
  have h := submissions_quiet_append l [] hl
  rw [List.append_nil] at h
  exact h

theorem submissions_one (shader : Nat) (shaderType : Int) (g g2 : GLState)
    (body b : List (Entry α)) (hbody : ∀ e ∈ body, quietOp e.op = true) :
    submissions (⟨Op.drawModel shader shaderType, g⟩ ::
        (body ++ ⟨Op.drawModelReturn, g2⟩ :: b)) =
      (⟨Op.drawModel shader shaderType, g⟩ :: (body ++ [⟨Op.drawModelReturn, g2⟩])) ::
        submissions b := by
  have h1 : submissions (⟨Op.drawModel shader shaderType, g⟩ ::
        (body ++ ⟨Op.drawModelReturn, g2⟩ :: b)) =
      (⟨Op.drawModel shader shaderType, g⟩ ::
        untilReturn (body ++ ⟨Op.drawModelReturn, g2⟩ :: b)) ::
        submissions (body ++ ⟨Op.drawModelReturn, g2⟩ :: b) := rfl
  have h2 : submissions ((⟨Op.drawModelReturn, g2⟩ : Entry α) :: b) = submissions b := rfl
  rw [h1, untilReturn_quiet_append body b g2 hbody, submissions_quiet_append body _ hbody, h2]

theorem Submission.quietBody {shader : Nat} {shaderType : Int} {w w2 : World α}
    {body : List (Entry α)} {g : GLState} (h : Submission shader shaderType w w2 body g) :
    ∀ e ∈ body, quietOp e.op = true := by
  intro e he
  apply quietOp_of_cls
  rcases (h.body e he).1 with h1 | h1 <;> rw [h1] <;> decide

theorem submissions_two (s1 s2 : Nat × Int) (ga g1 gc g2 : GLState)
    (pre b1 mid b2 : List (Entry α)) (hpre : ∀ e ∈ pre, quietOp e.op = true)
    (hb1 : ∀ e ∈ b1, quietOp e.op = true) (hmid : ∀ e ∈ mid, quietOp e.op = true)
    (hb2 : ∀ e ∈ b2, quietOp e.op = true) :
    submissions (pre ++ (⟨Op.drawModel s1.1 s1.2, ga⟩ :: (b1 ++ [⟨Op.drawModelReturn, g1⟩])) ++
        mid ++ (⟨Op.drawModel s2.1 s2.2, gc⟩ :: (b2 ++ [⟨Op.drawModelReturn, g2⟩]))) =
      [⟨Op.drawModel s1.1 s1.2, ga⟩ :: (b1 ++ [⟨Op.drawModelReturn, g1⟩]),
       ⟨Op.drawModel s2.1 s2.2, gc⟩ :: (b2 ++ [⟨Op.drawModelReturn, g2⟩])] := by
  simp only [List.append_assoc]
  rw [submissions_quiet_append _ _ hpre]
  simp only [List.cons_append, List.append_assoc, List.singleton_append]
  rw [submissions_one _ _ _ _ _ _ hb1, List.nil_append, submissions_quiet_append _ _ hmid]
  have h2 := submissions_one s2.1 s2.2 gc g2 b2 [] hb2
  rw [h2]
  rfl

end SubmissionLemmas

section TwoSurface
variable {α : Type} [LinearOrderedField α]

theorem dispatch_two_trace (ops : FrameOps α) (sh : Shaders) (projection view : Mat4 α)
    (w : World α) (hsel : w.selectedRefractionMethod = TwoSurfaces)
    (hm : (index? w.allModels w.selectedModel).isSome = true) :
    ∃ (wd : World α) (m : Model α) (pre b1 mid b2 : List (Entry α)) (ga g1 gc g2 : GLState),
      index? w.allModels w.selectedModel = some m ∧
      refractionDispatch ops sh projection view w = some wd ∧
      wd.trace = w.trace ++ (pre ++
        (⟨Op.drawModel sh.backfaceShader.ID TwoSurfacesBackFaceShader, ga⟩ ::
          (b1 ++ [⟨Op.drawModelReturn, g1⟩])) ++ mid ++
        (⟨Op.drawModel sh.frontfaceShader.ID TwoSurfacesFrontFaceShader, gc⟩ ::
          (b2 ++ [⟨Op.drawModelReturn, g2⟩]))) ∧
      submissions (pre ++
        (⟨Op.drawModel sh.backfaceShader.ID TwoSurfacesBackFaceShader, ga⟩ ::
          (b1 ++ [⟨Op.drawModelReturn, g1⟩])) ++ mid ++
        (⟨Op.drawModel sh.frontfaceShader.ID TwoSurfacesFrontFaceShader, gc⟩ ::
          (b2 ++ [⟨Op.drawModelReturn, g2⟩]))) =
        [⟨Op.drawModel sh.backfaceShader.ID TwoSurfacesBackFaceShader, ga⟩ ::
            (b1 ++ [⟨Op.drawModelReturn, g1⟩]),
         ⟨Op.drawModel sh.frontfaceShader.ID TwoSurfacesFrontFaceShader, gc⟩ ::
            (b2 ++ [⟨Op.drawModelReturn, g2⟩])] ∧
      (∃ a c : List (Entry α), ∃ g : GLState,
        pre = a ++ ⟨Op.glClear true true, g⟩ :: c ∧ g.framebuffer = w.backfaceFBO) ∧
      (∀ e ∈ (⟨Op.drawModel sh.backfaceShader.ID TwoSurfacesBackFaceShader, ga⟩ : Entry α) ::
          (b1 ++ [⟨Op.drawModelReturn, g1⟩]),
        e.gl.framebuffer = w.backfaceFBO ∧
        e.gl.viewport = (0, 0, toInt w.SCREEN_WIDTH, toInt w.SCREEN_HEIGHT) ∧
        e.gl.store = w.gl.store) ∧
      (∀ e ∈ (⟨Op.drawModel sh.frontfaceShader.ID TwoSurfacesFrontFaceShader, gc⟩ : Entry α) ::
          (b2 ++ [⟨Op.drawModelReturn, g2⟩]),
        e.gl.framebuffer = 0 ∧ e.gl.texture2D 1 = w.backfaceNormalTex ∧
        e.gl.texture2D 2 = w.backfaceDepthTex) ∧
      indexedDraws b1 =
        (m.meshes.take (toUInt m.meshes.length)).map
          (fun mesh => (mesh.VAO, toInt (toUInt mesh.indices.length))) ∧
      indexedDraws b2 =
        (m.meshes.take (toUInt m.meshes.length)).map
          (fun mesh => (mesh.VAO, toInt (toUInt mesh.indices.length))) ∧
      intUniforms b2 =
        [(sh.frontfaceShader.ID, "skybox", 0), (sh.frontfaceShader.ID, "backfaceNormalTex", 1),
         (sh.frontfaceShader.ID, "backfaceDepthTex", 2)] := by
  unfold refractionDispatch
  lift_lets
  intro w4 w3 w2 w1 w0
  have hne : ¬ w.selectedRefractionMethod = OneSurface := by
    rw [hsel]; decide
  rw [if_neg hne, if_pos hsel]
  obtain ⟨wb, m, b1, g1, hidx, hdb, hsb, hib, _, _, _⟩ :=
    drawModel_submission ops sh.backfaceShader projection view TwoSurfacesBackFaceShader w0
      (Or.inr (Or.inl rfl)) hm
  have hglob_b : World.withContextOf w wb = w := by
    have e1 : World.withContextOf w wb = World.withContextOf w (World.withContextOf w0 wb) := rfl
    rw [e1, hsb.globals]
    rfl
  have hAll : wb.allModels = w.allModels := by
    have := congrArg World.allModels hglob_b
    exact this
  have hSel : wb.selectedModel = w.selectedModel := by
    have := congrArg World.selectedModel hglob_b
    exact this
  have hN : wb.backfaceNormalTex = w.backfaceNormalTex := by
    have := congrArg World.backfaceNormalTex hglob_b
    exact this
  have hD : wb.backfaceDepthTex = w.backfaceDepthTex := by
    have := congrArg World.backfaceDepthTex hglob_b
    exact this
  let wc1 := wb.glCullFace FaceMode.GL_BACK
  let wc2 := wc1.glBindFramebuffer 0
  let wc3 := wc2.glActiveTexture 1
  let wc4 := wc3.glBindTexture TextureTarget.GL_TEXTURE_2D wc3.backfaceNormalTex
  let wc5 := wc4.glActiveTexture 2
  let wc6 := wc5.glBindTexture TextureTarget.GL_TEXTURE_2D wc5.backfaceDepthTex
  have hmc : (index? wc6.allModels wc6.selectedModel).isSome = true := by
    show (index? wb.allModels wb.selectedModel).isSome = true
    rw [hAll, hSel]; exact hm
  obtain ⟨wd, m2, b2, g2, hidx2, hdd, hsd, hid, _, _, hu⟩ :=
    drawModel_submission ops sh.frontfaceShader projection view TwoSurfacesFrontFaceShader wc6
      (Or.inr (Or.inr rfl)) hmc
  have hidx' : index? w.allModels w.selectedModel = some m := hidx
  have hmm : m2 = m := by
    have h1 : index? wc6.allModels wc6.selectedModel = index? w.allModels w.selectedModel := by
      show index? wb.allModels wb.selectedModel = _
      rw [hAll, hSel]
    rw [h1, hidx'] at hidx2
    exact (Option.some.inj hidx2).symm
  subst hmm
  have hqb1 := hsb.quietBody
  have hqb2 := hsd.quietBody
  let pre : List (Entry α) :=
    [⟨Op.glBindFramebuffer w.backfaceFBO, w.gl⟩,
     ⟨Op.glViewport 0 0 (toInt w.SCREEN_WIDTH) (toInt w.SCREEN_HEIGHT), w4.gl⟩,
     ⟨Op.glClear true true, w3.gl⟩, ⟨Op.glEnable Capability.GL_CULL_FACE, w2.gl⟩,
     ⟨Op.glCullFace FaceMode.GL_FRONT, w1.gl⟩]
  let mid : List (Entry α) :=
    [⟨Op.glCullFace FaceMode.GL_BACK, wb.gl⟩, ⟨Op.glBindFramebuffer 0, wc1.gl⟩,
     ⟨Op.glActiveTexture 1, wc2.gl⟩,
     ⟨Op.glBindTexture TextureTarget.GL_TEXTURE_2D wb.backfaceNormalTex, wc3.gl⟩,
     ⟨Op.glActiveTexture 2, wc4.gl⟩,
     ⟨Op.glBindTexture TextureTarget.GL_TEXTURE_2D wb.backfaceDepthTex, wc5.gl⟩]
  have hpre : w0.trace = w.trace ++ pre := by
    simp [w0, w1, w2, w3, w4, pre, World.glCullFace, World.glEnable, World.glClear,
      World.glViewport, World.glBindFramebuffer, World.glCall, World.emit]
  have hmid : wc6.trace = wb.trace ++ mid := by
    simp [wc6, wc5, wc4, wc3, wc2, wc1, mid, World.glCullFace, World.glActiveTexture,
      World.glBindTexture, World.glBindFramebuffer, World.glCall]
  have hqpre : ∀ e ∈ pre, quietOp e.op = true := by
    intro e he
    simp only [pre, List.mem_cons, List.mem_singleton, List.not_mem_nil, or_false] at he
    rcases he with rfl | rfl | rfl | rfl | rfl <;> rfl
  have hqmid : ∀ e ∈ mid, quietOp e.op = true := by
    intro e he
    simp only [mid, List.mem_cons, List.mem_singleton, List.not_mem_nil, or_false] at he
    rcases he with rfl | rfl | rfl | rfl | rfl | rfl <;> rfl
  have hfa : w0.gl.framebuffer = w.backfaceFBO := rfl
  have hfc : wc6.gl.framebuffer = 0 := rfl
  have ht1 : wc6.gl.texture2D 1 = w.backfaceNormalTex := by
    rw [← hN]
    simp [wc6, wc5, wc4, wc3, wc2, wc1, World.glCullFace, World.glActiveTexture,
      World.glBindTexture, World.glBindFramebuffer, World.glCall, Function.update]
  have ht2 : wc6.gl.texture2D 2 = w.backfaceDepthTex := by
    rw [← hD]
    simp [wc6, wc5, wc4, wc3, wc2, wc1, World.glCullFace, World.glActiveTexture,
      World.glBindTexture, World.glBindFramebuffer, World.glCall, Function.update]
  refine ⟨wd, m2, pre, b1, mid, b2, w0.gl, g1, wc6.gl, g2, hidx', ?_, ?_, ?_, ?_, ?_, ?_, hib,
    hid, hu rfl⟩
  · rw [hdb]
    exact hdd
  · rw [hsd.trace, hmid, hsb.trace, hpre]
    simp only [List.append_assoc, List.cons_append, List.nil_append, List.singleton_append]
  · exact submissions_two (sh.backfaceShader.ID, TwoSurfacesBackFaceShader)
      (sh.frontfaceShader.ID, TwoSurfacesFrontFaceShader) w0.gl g1 wc6.gl g2 pre b1 mid b2
      hqpre hqb1 hqmid hqb2
  · exact ⟨[⟨Op.glBindFramebuffer w.backfaceFBO, w.gl⟩,
      ⟨Op.glViewport 0 0 (toInt w.SCREEN_WIDTH) (toInt w.SCREEN_HEIGHT), w4.gl⟩],
      [⟨Op.glEnable Capability.GL_CULL_FACE, w2.gl⟩, ⟨Op.glCullFace FaceMode.GL_FRONT, w1.gl⟩],
      w3.gl, rfl, rfl⟩
  · have hfix : ∀ g : GLState, g.fixedPart = w0.gl.fixedPart →
        g.framebuffer = w.backfaceFBO ∧
        g.viewport = (0, 0, toInt w.SCREEN_WIDTH, toInt w.SCREEN_HEIGHT) ∧
        g.store = w.gl.store := by
      intro g hg
      have h1 : g.framebuffer = w0.gl.framebuffer := by
        have := congrArg GLState.framebuffer hg
        exact this
      have h2 : g.viewport = w0.gl.viewport := by
        have := congrArg GLState.viewport hg
        exact this
      have h3 : g.store = w0.gl.store := by
        have := congrArg GLState.store hg
        exact this
      exact ⟨h1.trans hfa, h2.trans rfl, h3.trans rfl⟩
    intro e he
    simp only [List.mem_cons, List.mem_append, List.mem_singleton, List.not_mem_nil,
      or_false] at he
    rcases he with rfl | he | rfl
    · exact hfix _ rfl
    · exact hfix _ (hsb.body e he).2
    · exact hfix _ hsb.ret
  · have hfix : ∀ g : GLState, g.fixedPart = wc6.gl.fixedPart →
        g.framebuffer = 0 ∧ g.texture2D 1 = w.backfaceNormalTex ∧
        g.texture2D 2 = w.backfaceDepthTex := by
      intro g hg
      have h1 : g.framebuffer = wc6.gl.framebuffer := by
        have := congrArg GLState.framebuffer hg
        exact this
      have h2 : g.texture2D = wc6.gl.texture2D := by
        have := congrArg GLState.texture2D hg
        exact this
      exact ⟨h1.trans hfc, by rw [h2]; exact ht1, by rw [h2]; exact ht2⟩
    intro e he
    simp only [List.mem_cons, List.mem_append, List.mem_singleton, List.not_mem_nil,
      or_false] at he
    rcases he with rfl | he | rfl
    · exact hfix _ rfl
    · exact hfix _ (hsd.body e he).2
    · exact hfix _ hsd.ret

/-- C13: in the two-surface path the dispatch issues, in this order, operations
`pre` among which a clear of the bound backface framebuffer, the backface
submission, operations `mid`, and the front-face submission; every operation
of the backface submission, its indexed draws included, is issued while the
backface framebuffer is bound; every operation of the front-face submission is
issued while framebuffer 0 is bound, the normal texture is bound to texture
unit 1 and the depth texture to unit 2; the integer uniforms the front-face
shader is given are `skybox = 0`, `backfaceNormalTex = 1`,
`backfaceDepthTex = 2`. -/
theorem two_surface_pass_targets (ops : FrameOps α) (sh : Shaders) (projection view : Mat4 α)
    (w : World α) (hsel : w.selectedRefractionMethod = TwoSurfaces)
    (hm : (index? w.allModels w.selectedModel).isSome = true) :
    ∃ (wd : World α) (m : Model α) (pre b1 mid b2 : List (Entry α)) (ga g1 gc g2 : GLState),
      index? w.allModels w.selectedModel = some m ∧
      refractionDispatch ops sh projection view w = some wd ∧
      wd.trace = w.trace ++ (pre ++
        (⟨Op.drawModel sh.backfaceShader.ID TwoSurfacesBackFaceShader, ga⟩ ::
          (b1 ++ [⟨Op.drawModelReturn, g1⟩])) ++ mid ++
        (⟨Op.drawModel sh.frontfaceShader.ID TwoSurfacesFrontFaceShader, gc⟩ ::
          (b2 ++ [⟨Op.drawModelReturn, g2⟩]))) ∧
      submissions (pre ++
        (⟨Op.drawModel sh.backfaceShader.ID TwoSurfacesBackFaceShader, ga⟩ ::
          (b1 ++ [⟨Op.drawModelReturn, g1⟩])) ++ mid ++
        (⟨Op.drawModel sh.frontfaceShader.ID TwoSurfacesFrontFaceShader, gc⟩ ::
          (b2 ++ [⟨Op.drawModelReturn, g2⟩]))) =
        [⟨Op.drawModel sh.backfaceShader.ID TwoSurfacesBackFaceShader, ga⟩ ::
            (b1 ++ [⟨Op.drawModelReturn, g1⟩]),
         ⟨Op.drawModel sh.frontfaceShader.ID TwoSurfacesFrontFaceShader, gc⟩ ::
            (b2 ++ [⟨Op.drawModelReturn, g2⟩])] ∧
      (∃ a c : List (Entry α), ∃ g : GLState,
        pre = a ++ ⟨Op.glClear true true, g⟩ :: c ∧ g.framebuffer = w.backfaceFBO) ∧
      (∀ e ∈ (⟨Op.drawModel sh.backfaceShader.ID TwoSurfacesBackFaceShader, ga⟩ : Entry α) ::
          (b1 ++ [⟨Op.drawModelReturn, g1⟩]), e.gl.framebuffer = w.backfaceFBO) ∧
      (∀ e ∈ (⟨Op.drawModel sh.frontfaceShader.ID TwoSurfacesFrontFaceShader, gc⟩ : Entry α) ::
          (b2 ++ [⟨Op.drawModelReturn, g2⟩]),
        e.gl.framebuffer = 0 ∧ e.gl.texture2D 1 = w.backfaceNormalTex ∧
        e.gl.texture2D 2 = w.backfaceDepthTex) ∧
      indexedDraws b1 =
        (m.meshes.take (toUInt m.meshes.length)).map
          (fun mesh => (mesh.VAO, toInt (toUInt mesh.indices.length))) ∧
      indexedDraws b2 =
        (m.meshes.take (toUInt m.meshes.length)).map
          (fun mesh => (mesh.VAO, toInt (toUInt mesh.indices.length))) ∧
      intUniforms b2 =
        [(sh.frontfaceShader.ID, "skybox", 0), (sh.frontfaceShader.ID, "backfaceNormalTex", 1),
         (sh.frontfaceShader.ID, "backfaceDepthTex", 2)] := by
  obtain ⟨wd, m, pre, b1, mid, b2, ga, g1, gc, g2, h1, h2, h3, h4, h5, h6, h7, h8, h9, h10⟩ :=
    dispatch_two_trace ops sh projection view w hsel hm
  exact ⟨wd, m, pre, b1, mid, b2, ga, g1, gc, g2, h1, h2, h3, h4, h5,
    fun e he => (h6 e he).1, h7, h8, h9, h10⟩

theorem two_surface_pass_targets_witness :
    readyWorld.selectedRefractionMethod = TwoSurfaces ∧
    (index? readyWorld.allModels readyWorld.selectedModel).isSome = true ∧
    (refractionDispatch approxFrameOps sampleShaders identityMat4 identityMat4
      readyWorld).isSome = true := by
  refine ⟨rfl, rfl, ?_⟩
  obtain ⟨wd, _, _, _, _, _, _, _, _, _, _, h, _⟩ :=
    two_surface_pass_targets approxFrameOps sampleShaders identityMat4 identityMat4 readyWorld
      rfl rfl
  rw [h]
  rfl

end TwoSurface

section MethodLemmas
variable {α : Type}

theorem foldl_draw_method (meshes : List (Mesh α)) (shader : Shader) (w : World α) (k : Int) :
    meshes.foldl (fun w mesh => mesh.draw shader w) { w with selectedRefractionMethod := k } =
      { meshes.foldl (fun w mesh => mesh.draw shader w) w with selectedRefractionMethod := k } := by
  induction meshes generalizing w with
  | nil => rfl
  | cons m t ih =>
    simp only [List.foldl_cons]
    exact ih (m.draw shader w)

theorem drawModel_tail_method (shader : Shader) (wu : World α) (k : Int) :
    (match index? ({ wu with selectedRefractionMethod := k } : World α).allModels
        ({ wu with selectedRefractionMethod := k } : World α).selectedModel with
      | none => none
      | some m =>
        some (World.emit (Model.draw m shader ({ wu with selectedRefractionMethod := k } : World α))
          Op.drawModelReturn)) =
      Option.map (fun x : World α => { x with selectedRefractionMethod := k })
        (match index? wu.allModels wu.selectedModel with
        | none => none
        | some m => some (World.emit (Model.draw m shader wu) Op.drawModelReturn)) := by
  cases hidx : index? wu.allModels wu.selectedModel with
  | none => simp only [hidx, Option.map_none']
  | some m =>
    simp only [hidx, Option.map_some', Model.draw, foldl_draw_method]
    rfl

end MethodLemmas

section Fallback
variable {α : Type} [LinearOrderedField α]

theorem drawModel_method (ops : FrameOps α) (shader : Shader) (projection view : Mat4 α)
    (shaderType : Int) (w : World α) (k : Int) :
    drawModel ops shader projection view shaderType { w with selectedRefractionMethod := k } =
      (drawModel ops shader projection view shaderType w).map
        fun x => { x with selectedRefractionMethod := k } := by
  have key : ∀ ty : Int, ty = OneSurfaceShader ∨ ty = TwoSurfacesBackFaceShader ∨
      ty = TwoSurfacesFrontFaceShader →
      drawModel ops shader projection view ty { w with selectedRefractionMethod := k } =
        (drawModel ops shader projection view ty w).map
          fun x => { x with selectedRefractionMethod := k } := by
    intro ty hty
    let w1 := w.emit (Op.drawModel shader.ID ty)
    let w2 := shader.use w1
    let w3 := shader.setMat4 "model"
      (ops.rotate identityMat4 (radians ops.toFloatOps w2.rotY) ⟨0, 1, 0⟩) w2
    let w4 := shader.setMat4 "view" view w3
    let w5 := shader.setMat4 "projection" projection w4
    let w6 := shader.setFloat "modelIOR" w5.IOR w5
    let w7 := shader.setBool "reflectEnable" w6.enableReflect w6
    let w8 := shader.setBool "viewSpaceOnly" w7.screenSpaceOnly w7
    let w9 := shader.setInt "skybox" 0 w8
    let w10 := shader.setInt "backfaceNormalTex" 1 w9
    rcases hty with h | h | h
    · have e := drawModel_tail_method shader (shader.setInt "skybox" 0 w7) k
      simp only [drawModel, h, if_true]
      simp only [w7, w6, w5, w4, w3, w2, w1, h] at e
      exact e
    · have e := drawModel_tail_method shader w5 k
      simp only [drawModel, h, OneSurfaceShader, TwoSurfacesBackFaceShader, if_true]
      simp only [w5, w4, w3, w2, w1, h, TwoSurfacesBackFaceShader] at e
      exact e
    · have e := drawModel_tail_method shader (shader.setInt "backfaceDepthTex" 2 w10) k
      simp only [drawModel, h, OneSurfaceShader, TwoSurfacesBackFaceShader,
        TwoSurfacesFrontFaceShader, if_true]
      simp only [w10, w9, w8, w7, w6, w5, w4, w3, w2, w1, h, TwoSurfacesFrontFaceShader] at e
      exact e
  by_cases h1 : shaderType = OneSurfaceShader
  · exact key _ (Or.inl h1)
  · by_cases h2 : shaderType = TwoSurfacesBackFaceShader
    · exact key _ (Or.inr (Or.inl h2))
    · by_cases h3 : shaderType = TwoSurfacesFrontFaceShader
      · exact key _ (Or.inr (Or.inr h3))
      · simp only [drawModel, h1, h2, h3, if_false]
        rfl

end Fallback

section FlowLemmas2
variable {α : Type}

theorem Emits.emitsOfEq (S : OpClass → Bool) {w w2 : World α} (h : w2.trace = w.trace) :
    Emits S w w2 :=
  ⟨[], by simp [h], by simp⟩

theorem Emits.emitsEmit (S : OpClass → Bool) (w : World α) (op : Op α) (hop : S op.cls = true) :
    Emits S w (w.emit op) :=
  ⟨[⟨op, w.gl⟩], rfl, by simp [hop]⟩

theorem Submission.submissionFlow {S : OpClass → Bool} {shader : Nat} {shaderType : Int} {w w2 : World α}
    {body : List (Entry α)} {g : GLState} (h : Submission shader shaderType w w2 body g)
    (hs : S OpClass.shader = true) (hg : S OpClass.gl = true) (hk : S OpClass.marker = true) :
    Flow S w w2 := by
  refine ⟨⟨_, h.trace, ?_⟩, ?_, ?_⟩
  · intro e he
    simp only [List.mem_cons, List.mem_append, List.mem_singleton, List.not_mem_nil,
      or_false] at he
    rcases he with rfl | he | rfl
    · exact hk
    · rcases (h.body e he).1 with h1 | h1 <;> rw [h1] <;> assumption
    · exact hk
  · rw [h.gl]
    show g.fixedPart.store = w.gl.fixedPart.store
    rw [h.ret]
  · have e1 : World.withInputsOf w w2 = World.withInputsOf w (World.withContextOf w w2) := rfl
    rw [e1, h.globals]
    rfl

theorem flow_glViewport (S : OpClass → Bool) (hg : S OpClass.gl = true) (w : World α)
    (x y width height : Int) : Flow S w (w.glViewport x y width height) :=
  Flow.flowGlCall S _ _ _ hg rfl

theorem flow_frameBufferSizeCallback (S : OpClass → Bool) (hg : S OpClass.gl = true)
    (width height : Int) (w : World α) : Flow S w (frameBufferSizeCallback width height w) := by
  unfold frameBufferSizeCallback
  exact Flow.flowIte _ (Flow.flowRefl S _)
    ((flow_glViewport S hg w 0 0 width height).flowTrans (Flow.flowOfEq S rfl rfl rfl))

theorem flow_coutFold (S : OpClass → Bool) (hl : S OpClass.log = true)
    (logs : List (List (LogItem α))) (w : World α) :
    Flow S w (logs.foldl (fun w items => w.cout items) w) := by
  induction logs generalizing w with
  | nil => exact Flow.flowRefl S w
  | cons a t ih => exact (Flow.flowEmit S w (Op.cout a) hl).flowTrans (ih _)

theorem flow_logFPSTestStart (S : OpClass → Bool) (hl : S OpClass.log = true)
    (model refraction skybox : String) (w : World α) :
    Flow S w (logFPSTestStart model refraction skybox w) := by
  unfold logFPSTestStart
  exact ((((((((Flow.flowEmit S _ (Op.cout _) hl).flowTrans (Flow.flowEmit S _ (Op.cout _) hl)).flowTrans
    (Flow.flowEmit S _ (Op.cout _) hl)).flowTrans (Flow.flowEmit S _ (Op.cout _) hl)).flowTrans
    (Flow.flowEmit S _ (Op.cout _) hl)).flowTrans (Flow.flowEmit S _ (Op.cout _) hl)).flowTrans
    (Flow.flowEmit S _ (Op.cout _) hl)).flowTrans (Flow.flowEmit S _ (Op.cout _) hl)).flowTrans
    (Flow.flowEmit S _ (Op.cout _) hl)

theorem Panel.panelRefl (w : World α) : Panel w w := ⟨Emits.emitsRefl _ w, rfl⟩

theorem Panel.panelTrans {w w2 w3 : World α} (h : Panel w w2) (h2 : Panel w2 w3) :
    Panel w w3 := by
  refine ⟨h.trace.emitsTrans h2.trace, ?_⟩
  have e1 : World.withPanelOf w w3 = World.withPanelOf w (World.withPanelOf w2 w3) := rfl
  rw [e1, h2.rest]
  exact h.rest

theorem Panel.panelOfEq {w w2 : World α} (h1 : w2.trace = w.trace)
    (h2 : World.withPanelOf w w2 = w) : Panel w w2 :=
  ⟨Emits.emitsOfEq _ h1, h2⟩

theorem Panel.panelCout (w : World α) (items : List (LogItem α)) : Panel w (w.cout items) :=
  ⟨Emits.emitsEmit _ w (Op.cout items) rfl, rfl⟩

theorem Panel.panelSetTracker (w : World α) (t : FPSTracker α) :
    Panel w { w with fpsTracker := t } :=
  Panel.panelOfEq rfl rfl

theorem panel_logFPSTestStart (model refraction skybox : String) (w : World α) :
    Panel w (logFPSTestStart model refraction skybox w) := by
  unfold logFPSTestStart
  exact ((((((((Panel.panelCout _ _).panelTrans (Panel.panelCout _ _)).panelTrans
    (Panel.panelCout _ _)).panelTrans (Panel.panelCout _ _)).panelTrans
    (Panel.panelCout _ _)).panelTrans (Panel.panelCout _ _)).panelTrans
    (Panel.panelCout _ _)).panelTrans (Panel.panelCout _ _)).panelTrans (Panel.panelCout _ _)

end FlowLemmas2

section FlowLemmas3
variable {α : Type} [LinearOrderedField α]

theorem flow_drawSkyBox (S : OpClass → Bool) (hg : S OpClass.gl = true)
    (hs : S OpClass.shader = true) (shader : Shader) (projection view : Mat4 α) (w : World α) :
    Flow S w (drawSkyBox shader projection view w) := by
  unfold drawSkyBox
  lift_lets
  intro w1 w2 viewNoTrans w3 w4 w5 wg wn wm w6 w7 w8 w9
  have h1 : Flow S w w1 := Flow.flowGlCall S _ (Op.glDisable _) _ hg rfl
  have h2 : Flow S w1 w2 := Flow.flowGlCall S _ (Op.shaderUse _) _ hs rfl
  have h3 : Flow S w2 w3 := Flow.flowEmit S _ (Op.setMat4 _ _ _) hs
  have h4 : Flow S w3 w4 := Flow.flowEmit S _ (Op.setMat4 _ _ _) hs
  have h5 : Flow S w4 w5 := Flow.flowGlCall S _ (Op.glActiveTexture _) _ hg rfl
  have hb : ∀ (x : World α) (t v : Nat), Flow S x
      ((x.glBindTexture TextureTarget.GL_TEXTURE_CUBE_MAP t).glBindVertexArray v) := by
    intro x t v
    exact (Flow.flowGlCall S x (Op.glBindTexture TextureTarget.GL_TEXTURE_CUBE_MAP t) _ hg
      rfl).flowTrans (Flow.flowGlCall S _ (Op.glBindVertexArray v) _ hg rfl)
  have h6 : Flow S w5 w6 := by
    simp only [w6]
    split_ifs
    · exact hb _ _ _
    · exact hb _ _ _
    · exact hb _ _ _
    · exact Flow.flowRefl S _
  have h7 : Flow S w6 w7 := Flow.flowEmit S _ (Op.setInt _ _ _) hs
  have h8 : Flow S w7 w8 := Flow.flowEmit S _ (Op.glDrawArrays _ _) hg
  have h9 : Flow S w8 w9 := Flow.flowGlCall S _ (Op.glBindVertexArray _) _ hg rfl
  exact (((((((((h1.flowTrans h2).flowTrans h3).flowTrans h4).flowTrans h5).flowTrans h6).flowTrans
    h7).flowTrans h8).flowTrans h9).flowTrans
    (Flow.flowGlCall S _ (Op.glEnable Capability.GL_DEPTH_TEST) _ hg rfl))

theorem flow_processUserInput (S : OpClass → Bool) (hw : S OpClass.window = true)
    (keys : Int → Bool) (w : World α) : Flow S w (processUserInput keys w) := by
  unfold processUserInput
  lift_lets
  intro src3 w9 w8 w7 w6 w5 w4 w3 src2 cam3 cam2 cam1 cam0 w2 w1 src1 src0 w0
  have h9 : Flow S w w9 :=
    Flow.flowIte _ ((Flow.flowEmit S w Op.glfwSetWindowShouldClose hw).flowTrans
      (Flow.flowOfEq S rfl rfl rfl)) (Flow.flowRefl S _)
  have h8 : Flow S w9 w8 := Flow.flowIte _ (Flow.flowOfEq S rfl rfl rfl) (Flow.flowRefl S _)
  have h7 : Flow S w8 w7 := Flow.flowIte _ (Flow.flowOfEq S rfl rfl rfl) (Flow.flowRefl S _)
  have h6 : Flow S w7 w6 := Flow.flowIte _ (Flow.flowOfEq S rfl rfl rfl) (Flow.flowRefl S _)
  have h5 : Flow S w6 w5 := Flow.flowIte _ (Flow.flowOfEq S rfl rfl rfl) (Flow.flowRefl S _)
  have h4 : Flow S w5 w4 := Flow.flowIte _ (Flow.flowOfEq S rfl rfl rfl) (Flow.flowRefl S _)
  have h3 : Flow S w4 w3 := Flow.flowIte _ (Flow.flowOfEq S rfl rfl rfl) (Flow.flowRefl S _)
  have h2 : Flow S w3 w2 := Flow.flowIte _ (Flow.flowOfEq S rfl rfl rfl) (Flow.flowRefl S _)
  have h1 : Flow S w2 w1 := Flow.flowOfEq S rfl rfl rfl
  have h0 : Flow S w2 w0 :=
    Flow.flowIte _
      (Flow.flowIte _
        ((h1.flowTrans (Flow.flowEmit S w1 (Op.glfwSetInputMode CursorMode.GLFW_CURSOR_NORMAL)
          hw)).flowTrans (Flow.flowOfEq S rfl rfl rfl))
        ((h1.flowTrans (Flow.flowEmit S w1 (Op.glfwSetInputMode CursorMode.GLFW_CURSOR_DISABLED)
          hw)).flowTrans (Flow.flowOfEq S rfl rfl rfl)))
      (Flow.flowRefl S _)
  exact ((((((((((h9.flowTrans h8).flowTrans h7).flowTrans h6).flowTrans h5).flowTrans h4).flowTrans
    h3).flowTrans h2).flowTrans h0).flowTrans
    (Flow.flowIte _ (Flow.flowOfEq S rfl rfl rfl) (Flow.flowRefl S _))))

theorem flow_mouseCallback (S : OpClass → Bool) (ops : FrameOps α) (xIn yIn : α) (w : World α) :
    Flow S w (mouseCallback ops xIn yIn w) := by
  simp only [mouseCallback]
  split_ifs <;> exact Flow.flowOfEq S rfl rfl rfl

theorem flow_scrollCallback (S : OpClass → Bool) (xOff yOff : α) (w : World α) :
    Flow S w (scrollCallback xOff yOff w) :=
  Flow.flowOfEq S rfl rfl rfl

theorem flow_foldEvents (S : OpClass → Bool) (hg : S OpClass.gl = true) (ops : FrameOps α)
    (events : List (WindowEvent α)) (w : World α) :
    Flow S w (events.foldl
      (fun w e =>
        match e with
        | WindowEvent.framebufferSize width height => frameBufferSizeCallback width height w
        | WindowEvent.cursorPos xIn yIn => mouseCallback ops xIn yIn w
        | WindowEvent.scroll xOff yOff => scrollCallback xOff yOff w) w) := by
  induction events generalizing w with
  | nil => exact Flow.flowRefl S w
  | cons e t ih =>
    rw [List.foldl_cons]
    refine Flow.flowTrans ?_ (ih _)
    cases e with
    | framebufferSize width height => exact flow_frameBufferSizeCallback S hg width height w
    | cursorPos xIn yIn => exact flow_mouseCallback S ops xIn yIn w
    | scroll xOff yOff => exact flow_scrollCallback S xOff yOff w

theorem flow_glfwPollEvents (S : OpClass → Bool) (hg : S OpClass.gl = true)
    (hw : S OpClass.window = true) (ops : FrameOps α) (events : List (WindowEvent α))
    (w : World α) : Flow S w (glfwPollEvents ops events w) := by
  unfold glfwPollEvents
  exact (Flow.flowEmit S w Op.glfwPollEvents hw).flowTrans (flow_foldEvents S hg ops events _)

theorem flow_dispatch (S : OpClass → Bool) (hg : S OpClass.gl = true)
    (hs : S OpClass.shader = true) (hk : S OpClass.marker = true) (ops : FrameOps α)
    (sh : Shaders) (projection view : Mat4 α) (w : World α)
    (hm : (index? w.allModels w.selectedModel).isSome = true) :
    ∃ wd, refractionDispatch ops sh projection view w = some wd ∧ Flow S w wd := by
  by_cases hsel : w.selectedRefractionMethod = TwoSurfaces
  · unfold refractionDispatch
    lift_lets
    intro w4 w3 w2 w1 w0
    have hne : ¬ w.selectedRefractionMethod = OneSurface := by
      rw [hsel]; decide
    rw [if_neg hne, if_pos hsel]
    have hpre : Flow S w w0 :=
      ((((Flow.flowGlCall S w (Op.glBindFramebuffer _) _ hg rfl).flowTrans
        (Flow.flowGlCall S _ (Op.glViewport _ _ _ _) _ hg rfl)).flowTrans
        (Flow.flowEmit S _ (Op.glClear _ _) hg)).flowTrans
        (Flow.flowGlCall S _ (Op.glEnable Capability.GL_CULL_FACE) _ hg rfl)).flowTrans
        (Flow.flowGlCall S _ (Op.glCullFace FaceMode.GL_FRONT) _ hg rfl)
    obtain ⟨wb, m, b1, g1, _, hdb, hsb, _⟩ :=
      drawModel_submission ops sh.backfaceShader projection view TwoSurfacesBackFaceShader w0
        (Or.inr (Or.inl rfl)) hm
    have hfb : Flow S w0 wb := hsb.submissionFlow hs hg hk
    let wc1 := wb.glCullFace FaceMode.GL_BACK
    let wc2 := wc1.glBindFramebuffer 0
    let wc3 := wc2.glActiveTexture 1
    let wc4 := wc3.glBindTexture TextureTarget.GL_TEXTURE_2D wc3.backfaceNormalTex
    let wc5 := wc4.glActiveTexture 2
    let wc6 := wc5.glBindTexture TextureTarget.GL_TEXTURE_2D wc5.backfaceDepthTex
    have hmid : Flow S wb wc6 :=
      (((((Flow.flowGlCall S wb (Op.glCullFace FaceMode.GL_BACK) _ hg rfl).flowTrans
        (Flow.flowGlCall S wc1 (Op.glBindFramebuffer 0) _ hg rfl)).flowTrans
        (Flow.flowGlCall S wc2 (Op.glActiveTexture 1) _ hg rfl)).flowTrans
        (Flow.flowGlCall S wc3 (Op.glBindTexture TextureTarget.GL_TEXTURE_2D _) _ hg rfl)).flowTrans
        (Flow.flowGlCall S wc4 (Op.glActiveTexture 2) _ hg rfl)).flowTrans
        (Flow.flowGlCall S wc5 (Op.glBindTexture TextureTarget.GL_TEXTURE_2D _) _ hg rfl)
    have hall : Flow S w wc6 := (hpre.flowTrans hfb).flowTrans hmid
    have hmc : (index? wc6.allModels wc6.selectedModel).isSome = true := by
      have e1 : wc6.allModels = w.allModels := by
        have := congrArg World.allModels hall.settings
        exact this
      have e2 : wc6.selectedModel = w.selectedModel := by
        have := congrArg World.selectedModel hall.settings
        exact this
      rw [e1, e2]; exact hm
    obtain ⟨wd, m2, b2, g2, _, hdd, hsd, _⟩ :=
      drawModel_submission ops sh.frontfaceShader projection view TwoSurfacesFrontFaceShader wc6
        (Or.inr (Or.inr rfl)) hmc
    refine ⟨wd, ?_, hall.flowTrans (hsd.submissionFlow hs hg hk)⟩
    rw [hdb]
    exact hdd
  · obtain ⟨wd, m, b, g, _, hd, hsub, _⟩ :=
      drawModel_submission ops sh.refractionShader projection view OneSurfaceShader w
        (Or.inl rfl) hm
    refine ⟨wd, ?_, hsub.submissionFlow hs hg hk⟩
    unfold refractionDispatch
    lift_lets
    intro w4 w3 w2 w1 w0
    split_ifs
    · exact hd
    · exact hd

theorem flow_screenshotStep (S : OpClass → Bool) (hf : S OpClass.file = true) (w : World α)
    [FloorRing α]
    (h1 : (index? modelOptions w.selectedModel).isSome = true)
    (h2 : (index? skyboxOptions w.selectedSkybox).isSome = true) :
    ∃ w2, screenshotStep w = some w2 ∧ Flow S w w2 := by
  obtain ⟨m, hm⟩ := Option.isSome_iff_exists.mp h1
  obtain ⟨s, hs⟩ := Option.isSome_iff_exists.mp h2
  unfold screenshotStep
  by_cases ht : w.takeScreenshot = true
  · have hn : ∃ name, screenshotFileName w = some name := by
      simp only [screenshotFileName, hm, hs]
      exact ⟨_, rfl⟩
    obtain ⟨name, hn⟩ := hn
    rw [if_pos ht]
    simp only [hn]
    exact ⟨_, rfl, (Flow.flowEmit S w (Op.saveScreenshot name _ _) hf).flowTrans
      (Flow.flowOfEq S rfl rfl rfl)⟩
  · rw [if_neg ht]
    exact ⟨w, rfl, Flow.flowRefl S w⟩

theorem ImGuiDrawWindow_panel (p : PanelInput α) (w : World α) :
    ∀ wr, ImGuiDrawWindow p w = some wr → Panel (w.emit Op.ImGuiDrawWindow) wr := by
  unfold ImGuiDrawWindow
  lift_lets
  intro w9 w8 w7 w6 w5 w4 w3 w2 started
  have h8 : Panel w9 w8 := by
    simp only [w8]
    cases p.sliderIOR <;> exact Panel.panelOfEq rfl rfl
  have h7 : Panel w8 w7 := by
    simp only [w7]
    split_ifs <;> exact Panel.panelOfEq rfl rfl
  have h6 : Panel w7 w6 := by
    simp only [w6]
    split_ifs <;> exact Panel.panelOfEq rfl rfl
  have h5 : Panel w6 w5 := by
    simp only [w5]
    split_ifs <;> exact Panel.panelOfEq rfl rfl
  have h4 : Panel w5 w4 := by
    simp only [w4]
    cases p.comboModel <;> exact Panel.panelOfEq rfl rfl
  have h3 : Panel w4 w3 := by
    simp only [w3]
    cases p.comboRefraction <;> exact Panel.panelOfEq rfl rfl
  have h2 : Panel w3 w2 := by
    simp only [w2]
    cases p.comboSkybox <;> exact Panel.panelOfEq rfl rfl
  have hf : Panel w9 w2 :=
    (((((h8.panelTrans h7).panelTrans h6).panelTrans h5).panelTrans h4).panelTrans h3).panelTrans h2
  have hs : ∀ ws, started = some ws → Panel w2 ws := by
    intro ws hws
    by_cases hb : p.buttonStartFPSTest = true
    · cases hx : index? modelOptions w2.selectedModel with
      | none =>
        simp only [started, hb, if_true, hx] at hws
        cases hws
      | some x =>
        cases hy : index? refractionOptions w2.selectedRefractionMethod with
        | none =>
          simp only [started, hb, if_true, hx, hy] at hws
          cases hws
        | some y =>
          cases hz : index? skyboxOptions w2.selectedSkybox with
          | none =>
            simp only [started, hb, if_true, hx, hy, hz] at hws
            cases hws
          | some z =>
            simp only [started, hb, if_true, hx, hy, hz, Option.some.injEq] at hws
            rw [← hws]
            exact (panel_logFPSTestStart x y z w2).panelTrans (Panel.panelSetTracker _ _)
    · simp only [started, hb, Bool.false_eq_true, if_false, Option.some.injEq] at hws
      rw [← hws]
      exact Panel.panelRefl _
  intro wr hr
  cases hst : started with
  | none => rw [hst] at hr; cases hr
  | some ws =>
    rw [hst] at hr
    simp only [Option.some.injEq] at hr
    rw [← hr]
    have hzoom : Panel ws
        (if p.clickZoomIn = true then { ws with zoomIn := !ws.zoomIn } else ws) := by
      split_ifs
      · exact Panel.panelOfEq rfl rfl
      · exact Panel.panelRefl _
    refine ((hf.panelTrans (hs ws hst)).panelTrans hzoom).panelTrans ?_
    split_ifs <;> exact Panel.panelOfEq rfl rfl

end FlowLemmas3

section ImguiLemmas
variable {α : Type}

theorem imguiCalls_flow {S : OpClass → Bool} (hS : S OpClass.imgui = false) {w w2 : World α}
    (h : Flow S w w2) : imguiCalls w2.trace = imguiCalls w.trace := by
  obtain ⟨l, hl, hq⟩ := h.trace
  rw [hl, imguiCalls_append, imguiCalls_of_emits l S hS hq, List.append_nil]

theorem imguiCalls_panel {w w2 : World α} (h : Panel w w2) :
    imguiCalls w2.trace = imguiCalls w.trace := by
  obtain ⟨l, hl, hq⟩ := h.trace
  rw [hl, imguiCalls_append,
    imguiCalls_of_emits l (fun c => decide (c = OpClass.log)) rfl hq, List.append_nil]

end ImguiLemmas

section Iteration
variable {α : Type} [LinearOrderedField α] [FloorRing α]

theorem iteration_imgui (ops : FrameOps α) (sh : Shaders) (inp : FrameInput α)
    (w : World α) (h : SelectionsInRange inp w) :
    ∃ wEnd, renderLoopIteration ops sh inp w = some wEnd ∧
      imguiCalls wEnd.trace = imguiCalls w.trace ++
        (if w.fpsTracker.active = false then [ImGuiCall.newFrame] else []) ++
        (if (if w.fpsTracker.active then (w.fpsTracker.update (inp.time - w.prevFrame)).1
              else w.fpsTracker).active = false
          then [ImGuiCall.drawWindow] else []) := by
  obtain ⟨hA, hB, hC, hD⟩ := h
  let S : OpClass → Bool := fun c => decide (c ≠ OpClass.imgui)
  have hS : S OpClass.imgui = false := rfl
  unfold renderLoopIteration
  lift_lets
  intro w11 w10 currentFrame w9 w8 w7 w6 w5 w4 w3 src w2 view projection r w1 w0
  have h10 : Flow S w w10 :=
    (Flow.flowEmit S w (Op.glClearColor _ _ _ _) rfl).flowTrans (Flow.flowEmit S _ (Op.glClear _ _) rfl)
  have h5 : Flow S w7 w5 :=
    Flow.flowIte _ ((Flow.flowOfEq S rfl rfl rfl : Flow S w7 w6).flowTrans
      (Flow.flowOfEq S rfl rfl rfl)) (Flow.flowRefl S _)
  have h4 : Flow S w7 w4 := h5.flowTrans (flow_processUserInput S rfl _ _)
  have ht4 : w4.fpsTracker = w.fpsTracker := by
    have e1 : w4.fpsTracker = w7.fpsTracker := by
      have := congrArg World.fpsTracker h4.settings
      exact this
    have e2 : w10.fpsTracker = w.fpsTracker := by
      have := congrArg World.fpsTracker h10.settings
      exact this
    rw [e1]
    exact e2
  have hd4 : w4.deltaTime = inp.time - w.prevFrame := by
    have e1 : w4.deltaTime = w7.deltaTime := by
      have := congrArg World.deltaTime h4.settings
      exact this
    have e2 : w10.prevFrame = w.prevFrame := by
      have := congrArg World.prevFrame h10.settings
      exact this
    rw [e1]
    show inp.time - w10.prevFrame = _
    rw [e2]
  have hi4 : imguiCalls w4.trace = imguiCalls w.trace := by
    rw [imguiCalls_flow hS h4]
    exact (imguiCalls_flow hS h10 : imguiCalls w10.trace = imguiCalls w.trace)
  have hm4 : w4.allModels = w.allModels ∧ w4.selectedModel = w.selectedModel ∧
      w4.selectedRefractionMethod = w.selectedRefractionMethod ∧
      w4.selectedSkybox = w.selectedSkybox := by
    have a1 : w4.allModels = w7.allModels := by
      have := congrArg World.allModels h4.settings
      exact this
    have a2 : w4.selectedModel = w7.selectedModel := by
      have := congrArg World.selectedModel h4.settings
      exact this
    have a3 : w4.selectedRefractionMethod = w7.selectedRefractionMethod := by
      have := congrArg World.selectedRefractionMethod h4.settings
      exact this
    have a4 : w4.selectedSkybox = w7.selectedSkybox := by
      have := congrArg World.selectedSkybox h4.settings
      exact this
    have b1 : w10.allModels = w.allModels := by
      have := congrArg World.allModels h10.settings
      exact this
    have b2 : w10.selectedModel = w.selectedModel := by
      have := congrArg World.selectedModel h10.settings
      exact this
    have b3 : w10.selectedRefractionMethod = w.selectedRefractionMethod := by
      have := congrArg World.selectedRefractionMethod h10.settings
      exact this
    have b4 : w10.selectedSkybox = w.selectedSkybox := by
      have := congrArg World.selectedSkybox h10.settings
      exact this
    exact ⟨a1.trans b1, a2.trans b2, a3.trans b3, a4.trans b4⟩
  -- the new frame
  have hi3 : imguiCalls w3.trace = imguiCalls w.trace ++
      (if w.fpsTracker.active = false then [ImGuiCall.newFrame] else []) := by
    simp only [w3, ht4]
    split_ifs
    · rw [← hi4]
      simp [ImGuiNewFrame, World.emit, imguiCalls, List.filterMap_append]
    · rw [hi4, List.append_nil]
  have h3 : World.withContextOf w4 w3 = w4 := by
    simp only [w3]
    split_ifs <;> rfl
  have h2 : Flow S w3 w2 :=
    Flow.flowIte _ (Flow.flowOfEq S rfl rfl rfl) (Flow.flowOfEq S rfl rfl rfl)
  have ht2 : w2.fpsTracker = w.fpsTracker := by
    have e1 : w2.fpsTracker = w3.fpsTracker := by
      have := congrArg World.fpsTracker h2.settings
      exact this
    have e2 : w3.fpsTracker = w4.fpsTracker := by
      have := congrArg World.fpsTracker h3
      exact this
    rw [e1, e2, ht4]
  have hd2 : w2.deltaTime = inp.time - w.prevFrame := by
    have e1 : w2.deltaTime = w3.deltaTime := by
      have := congrArg World.deltaTime h2.settings
      exact this
    have e2 : w3.deltaTime = w4.deltaTime := by
      have := congrArg World.deltaTime h3
      exact this
    rw [e1, e2, hd4]
  -- the tracker update
  let wT : World α :=
    { w2 with fpsTracker := if w2.fpsTracker.active = true then r.1 else w2.fpsTracker }
  have h1 : Flow S wT w1 := by
    by_cases ha : w2.fpsTracker.active = true
    · have e1 : w1 = List.foldl (fun w items => w.cout items)
          ({ w2 with fpsTracker := r.1 } : World α) r.2 := by
        simp only [w1, ha, if_true]
      have e2 : wT = ({ w2 with fpsTracker := r.1 } : World α) := by
        simp only [wT, ha, if_true]
      rw [e1, e2]
      exact flow_coutFold S rfl r.2 _
    · have e1 : w1 = w2 := by
        simp only [w1, ha, Bool.false_eq_true, if_false]
      have e2 : wT = w2 := by
        simp only [wT, ha, Bool.false_eq_true, if_false]
      rw [e1, e2]
      exact Flow.flowRefl S _
  have ht1 : w1.fpsTracker =
      (if w.fpsTracker.active then (w.fpsTracker.update (inp.time - w.prevFrame)).1
        else w.fpsTracker) := by
    have e1 : w1.fpsTracker = wT.fpsTracker := by
      have := congrArg World.fpsTracker h1.settings
      exact this
    rw [e1]
    simp only [wT, r, ht2, hd2]
  have h0 : Flow S w1 w0 := flow_drawSkyBox S rfl rfl _ _ _ _
  have hpre : Flow S wT w0 := h1.flowTrans h0
  have hsel0 : w0.allModels = w.allModels ∧ w0.selectedModel = w.selectedModel ∧
      w0.selectedRefractionMethod = w.selectedRefractionMethod ∧
      w0.selectedSkybox = w.selectedSkybox ∧ w0.fpsTracker = w1.fpsTracker := by
    have a1 : w0.allModels = w2.allModels := by
      have := congrArg World.allModels hpre.settings
      exact this
    have a2 : w0.selectedModel = w2.selectedModel := by
      have := congrArg World.selectedModel hpre.settings
      exact this
    have a3 : w0.selectedRefractionMethod = w2.selectedRefractionMethod := by
      have := congrArg World.selectedRefractionMethod hpre.settings
      exact this
    have a4 : w0.selectedSkybox = w2.selectedSkybox := by
      have := congrArg World.selectedSkybox hpre.settings
      exact this
    have a5 : w0.fpsTracker = w1.fpsTracker := by
      have := congrArg World.fpsTracker h0.settings
      exact this
    have b1 : w2.allModels = w3.allModels := by
      have := congrArg World.allModels h2.settings
      exact this
    have b2 : w2.selectedModel = w3.selectedModel := by
      have := congrArg World.selectedModel h2.settings
      exact this
    have b3 : w2.selectedRefractionMethod = w3.selectedRefractionMethod := by
      have := congrArg World.selectedRefractionMethod h2.settings
      exact this
    have b4 : w2.selectedSkybox = w3.selectedSkybox := by
      have := congrArg World.selectedSkybox h2.settings
      exact this
    have c1 : w3.allModels = w4.allModels := by
      have := congrArg World.allModels h3
      exact this
    have c2 : w3.selectedModel = w4.selectedModel := by
      have := congrArg World.selectedModel h3
      exact this
    have c3 : w3.selectedRefractionMethod = w4.selectedRefractionMethod := by
      have := congrArg World.selectedRefractionMethod h3
      exact this
    have c4 : w3.selectedSkybox = w4.selectedSkybox := by
      have := congrArg World.selectedSkybox h3
      exact this
    exact ⟨((a1.trans b1).trans c1).trans hm4.1, ((a2.trans b2).trans c2).trans hm4.2.1,
      ((a3.trans b3).trans c3).trans hm4.2.2.1, ((a4.trans b4).trans c4).trans hm4.2.2.2, a5⟩
  have hi0 : imguiCalls w0.trace = imguiCalls w3.trace := by
    rw [imguiCalls_flow hS hpre]
    exact (imguiCalls_flow hS h2 : imguiCalls w2.trace = imguiCalls w3.trace)
  obtain ⟨wd, hd, hfd⟩ := flow_dispatch S rfl rfl rfl ops sh projection view w0
    (by rw [hsel0.1, hsel0.2.1]; exact hA)
  have hseld : wd.selectedModel = w.selectedModel ∧
      wd.selectedRefractionMethod = w.selectedRefractionMethod ∧
      wd.selectedSkybox = w.selectedSkybox ∧ wd.fpsTracker = w1.fpsTracker := by
    have a2 : wd.selectedModel = w0.selectedModel := by
      have := congrArg World.selectedModel hfd.settings
      exact this
    have a3 : wd.selectedRefractionMethod = w0.selectedRefractionMethod := by
      have := congrArg World.selectedRefractionMethod hfd.settings
      exact this
    have a4 : wd.selectedSkybox = w0.selectedSkybox := by
      have := congrArg World.selectedSkybox hfd.settings
      exact this
    have a5 : wd.fpsTracker = w0.fpsTracker := by
      have := congrArg World.fpsTracker hfd.settings
      exact this
    exact ⟨a2.trans hsel0.2.1, a3.trans hsel0.2.2.1, a4.trans hsel0.2.2.2.1,
      a5.trans hsel0.2.2.2.2⟩
  obtain ⟨ws, hws, hfs⟩ := flow_screenshotStep S rfl wd (by rw [hseld.1]; exact hB)
    (by rw [hseld.2.2.1]; exact hC)
  have hsels : ws.selectedModel = w.selectedModel ∧
      ws.selectedRefractionMethod = w.selectedRefractionMethod ∧
      ws.selectedSkybox = w.selectedSkybox ∧ ws.fpsTracker = w1.fpsTracker := by
    have a2 : ws.selectedModel = wd.selectedModel := by
      have := congrArg World.selectedModel hfs.settings
      exact this
    have a3 : ws.selectedRefractionMethod = wd.selectedRefractionMethod := by
      have := congrArg World.selectedRefractionMethod hfs.settings
      exact this
    have a4 : ws.selectedSkybox = wd.selectedSkybox := by
      have := congrArg World.selectedSkybox hfs.settings
      exact this
    have a5 : ws.fpsTracker = wd.fpsTracker := by
      have := congrArg World.fpsTracker hfs.settings
      exact this
    exact ⟨a2.trans hseld.1, a3.trans hseld.2.1, a4.trans hseld.2.2.1, a5.trans hseld.2.2.2⟩
  have his : imguiCalls ws.trace = imguiCalls w.trace ++
      (if w.fpsTracker.active = false then [ImGuiCall.newFrame] else []) := by
    rw [imguiCalls_flow hS hfs, imguiCalls_flow hS hfd, hi0, hi3]
  have hact : ws.fpsTracker =
      (if w.fpsTracker.active then (w.fpsTracker.update (inp.time - w.prevFrame)).1
        else w.fpsTracker) := hsels.2.2.2.trans ht1
  rw [← hact]
  by_cases hact2 : ws.fpsTracker.active = false
  · obtain ⟨wi, hwi, _⟩ := ImGuiDrawWindow_some inp.panel ws (by
      intro hb
      rw [hsels.1, hsels.2.1, hsels.2.2.1]
      exact hD hb)
    have hp := ImGuiDrawWindow_panel inp.panel ws wi hwi
    have hii : imguiCalls wi.trace = imguiCalls ws.trace ++ [ImGuiCall.drawWindow] := by
      rw [imguiCalls_panel hp]
      simp [World.emit, imguiCalls, List.filterMap_append]
    refine ⟨glfwPollEvents ops inp.events (wi.emit Op.glfwSwapBuffers), ?_, ?_⟩
    · simp only [hd, hws, hact2, if_true, hwi]
    · rw [imguiCalls_flow hS (flow_glfwPollEvents S rfl rfl ops inp.events _),
        imguiCalls_flow hS (Flow.flowEmit S wi Op.glfwSwapBuffers rfl), hii, his, if_pos hact2]
  · refine ⟨glfwPollEvents ops inp.events (ws.emit Op.glfwSwapBuffers), ?_, ?_⟩
    · have hact3 : ws.fpsTracker.active = true := by simpa using hact2
      simp [hd, hws, hact3]
    · rw [imguiCalls_flow hS (flow_glfwPollEvents S rfl rfl ops inp.events _),
        imguiCalls_flow hS (Flow.flowEmit S ws Op.glfwSwapBuffers rfl), his, if_neg hact2,
        List.append_nil]

end Iteration

section SetupLemmas
variable {α : Type}

theorem toInt_intToUInt (i : Int) (h0 : 0 ≤ i) (h1 : i < 2 ^ 31) : toInt (intToUInt i) = i := by
  have e : intToUInt i = i.toNat := by
    simp only [intToUInt]
    rw [Int.emod_eq_of_lt h0 (by omega)]
  rw [e, toInt_of_lt _ (by omega)]
  omega

theorem setup_names (complete : Bool) (w : World α) :
    (setupBackfaceFramebuffer complete w).backfaceFBO = w.gl.nextFramebuffer ∧
    (setupBackfaceFramebuffer complete w).backfaceNormalTex = w.gl.nextTexture ∧
    (setupBackfaceFramebuffer complete w).backfaceDepthTex = w.gl.nextTexture + 1 ∧
    (setupBackfaceFramebuffer complete w).SCREEN_WIDTH = w.SCREEN_WIDTH ∧
    (setupBackfaceFramebuffer complete w).SCREEN_HEIGHT = w.SCREEN_HEIGHT ∧
    (setupBackfaceFramebuffer complete w).gl.framebuffer = 0 := by
  by_cases hneg : toInt w.SCREEN_WIDTH < 0 ∨ toInt w.SCREEN_HEIGHT < 0 <;>
  cases complete <;>
    simp [setupBackfaceFramebuffer, World.glGenFramebuffers, World.glGenTextures,
      World.glBindFramebuffer, World.glBindTexture, World.glTexImage2D, World.glTexParameteri,
      World.glFramebufferTexture2D, World.glDrawBuffers, World.glCall, World.emit, World.cerr,
      hneg]

theorem setup_store (complete : Bool) (w : World α) (hW : w.SCREEN_WIDTH < 2 ^ 31)
    (hH : w.SCREEN_HEIGHT < 2 ^ 31) :
    (setupBackfaceFramebuffer complete w).gl.textureImage w.gl.nextTexture =
      some (TextureFormat.GL_RGBA16F, (w.SCREEN_WIDTH : Int), (w.SCREEN_HEIGHT : Int)) ∧
    (setupBackfaceFramebuffer complete w).gl.textureImage (w.gl.nextTexture + 1) =
      some (TextureFormat.GL_DEPTH_COMPONENT32F, (w.SCREEN_WIDTH : Int),
        (w.SCREEN_HEIGHT : Int)) ∧
    (setupBackfaceFramebuffer complete w).gl.colorAttachment0 w.gl.nextFramebuffer =
      w.gl.nextTexture ∧
    (setupBackfaceFramebuffer complete w).gl.depthAttachment w.gl.nextFramebuffer =
      w.gl.nextTexture + 1 := by
  have h1 := toInt_of_lt _ hW
  have h2 := toInt_of_lt _ hH
  have n1 : ¬ ((w.SCREEN_WIDTH : Int) < 0 ∨ (w.SCREEN_HEIGHT : Int) < 0) := by omega
  cases complete <;>
    simp [setupBackfaceFramebuffer, World.glGenFramebuffers, World.glGenTextures,
      World.glBindFramebuffer, World.glBindTexture, World.glTexImage2D, World.glTexParameteri,
      World.glFramebufferTexture2D, World.glDrawBuffers, World.glCall, World.emit, World.cerr,
      h1, h2, n1, Function.update]

end SetupLemmas

section ResizeLemmas
variable {α : Type}

theorem flow_resizeSequence (S : OpClass → Bool) (hg : S OpClass.gl = true)
    (sizes : List (Int × Int)) (w : World α) : Flow S w (resizeSequence sizes w) := by
  unfold resizeSequence
  induction sizes generalizing w with
  | nil => exact Flow.flowRefl S w
  | cons s t ih =>
    rw [List.foldl_cons]
    exact (flow_frameBufferSizeCallback S hg s.1 s.2 w).flowTrans (ih _)

theorem Flow.target {S : OpClass → Bool} {w w2 : World α} (h : Flow S w w2) :
    w2.backfaceFBO = w.backfaceFBO ∧ w2.backfaceNormalTex = w.backfaceNormalTex ∧
    w2.backfaceDepthTex = w.backfaceDepthTex ∧ w2.gl.textureImage = w.gl.textureImage ∧
    w2.gl.colorAttachment0 = w.gl.colorAttachment0 ∧
    w2.gl.depthAttachment = w.gl.depthAttachment := by
  have a1 : w2.backfaceFBO = w.backfaceFBO := by
    have := congrArg World.backfaceFBO h.settings
    exact this
  have a2 : w2.backfaceNormalTex = w.backfaceNormalTex := by
    have := congrArg World.backfaceNormalTex h.settings
    exact this
  have a3 : w2.backfaceDepthTex = w.backfaceDepthTex := by
    have := congrArg World.backfaceDepthTex h.settings
    exact this
  have a4 := congrArg Prod.fst h.store
  have a5 := congrArg (fun x => x.2.1) h.store
  have a6 := congrArg (fun x => x.2.2) h.store
  exact ⟨a1, a2, a3, a4, a5, a6⟩

end ResizeLemmas

section ResizeTheorems
variable {α : Type} [LinearOrderedField α]

/-- C16.  After the backface framebuffer has been set up in a state whose
`SCREEN_WIDTH` and `SCREEN_HEIGHT` are below 2^31, the normal and the depth
texture are its two attachments and have the startup dimensions.  After any
sequence of `frameBufferSizeCallback` calls, and after one more call with
positive `width` and `height`, the framebuffer, its attachments and the two
texture images are what they were, while `SCREEN_WIDTH`, `SCREEN_HEIGHT` and
the viewport are the new size.  In the two-surface backface pass that follows,
every operation of the backface submission is issued with the backface
framebuffer bound, the viewport at the new size and the attached textures at
the startup size, so the viewport size differs from the render target size
whenever the new size differs from the startup size. -/
theorem backface_target_keeps_startup_size (ops : FrameOps α) (sh : Shaders)
    (projection view : Mat4 α) (complete : Bool) (w0 : World α) (sizes : List (Int × Int))
    (width height : Int) (hW : w0.SCREEN_WIDTH < 2 ^ 31) (hH : w0.SCREEN_HEIGHT < 2 ^ 31)
    (hw : 0 < width) (hw2 : width < 2 ^ 31) (hh : 0 < height) (hh2 : height < 2 ^ 31)
    (ws wr w1 : World α) (hs : ws = setupBackfaceFramebuffer complete w0)
    (hr : wr = resizeSequence sizes ws) (h1 : w1 = frameBufferSizeCallback width height wr) :
    (ws.gl.colorAttachment0 ws.backfaceFBO = ws.backfaceNormalTex ∧
      ws.gl.depthAttachment ws.backfaceFBO = ws.backfaceDepthTex) ∧
    (∀ x : World α, x = ws ∨ x = wr ∨ x = w1 →
      x.backfaceFBO = ws.backfaceFBO ∧ x.backfaceNormalTex = ws.backfaceNormalTex ∧
      x.backfaceDepthTex = ws.backfaceDepthTex ∧
      x.gl.colorAttachment0 = ws.gl.colorAttachment0 ∧
      x.gl.depthAttachment = ws.gl.depthAttachment ∧
      x.gl.textureImage x.backfaceNormalTex =
        some (TextureFormat.GL_RGBA16F, (w0.SCREEN_WIDTH : Int), (w0.SCREEN_HEIGHT : Int)) ∧
      x.gl.textureImage x.backfaceDepthTex =
        some (TextureFormat.GL_DEPTH_COMPONENT32F, (w0.SCREEN_WIDTH : Int),
          (w0.SCREEN_HEIGHT : Int))) ∧
    ((w1.SCREEN_WIDTH : Int) = width ∧ (w1.SCREEN_HEIGHT : Int) = height ∧
      w1.gl.viewport = (0, 0, width, height)) ∧
    (w1.selectedRefractionMethod = TwoSurfaces →
      (index? w1.allModels w1.selectedModel).isSome = true →
      ∃ (wd : World α) (pre b1 rest : List (Entry α)) (ga g1 : GLState),
        refractionDispatch ops sh projection view w1 = some wd ∧
        wd.trace = w1.trace ++ (pre ++
          (⟨Op.drawModel sh.backfaceShader.ID TwoSurfacesBackFaceShader, ga⟩ ::
            (b1 ++ [⟨Op.drawModelReturn, g1⟩])) ++ rest) ∧
        ∀ e ∈ (⟨Op.drawModel sh.backfaceShader.ID TwoSurfacesBackFaceShader, ga⟩ : Entry α) ::
            (b1 ++ [⟨Op.drawModelReturn, g1⟩]),
          e.gl.framebuffer = w1.backfaceFBO ∧ e.gl.viewport = (0, 0, width, height) ∧
          e.gl.textureImage (e.gl.colorAttachment0 e.gl.framebuffer) =
            some (TextureFormat.GL_RGBA16F, (w0.SCREEN_WIDTH : Int), (w0.SCREEN_HEIGHT : Int)) ∧
          e.gl.textureImage (e.gl.depthAttachment e.gl.framebuffer) =
            some (TextureFormat.GL_DEPTH_COMPONENT32F, (w0.SCREEN_WIDTH : Int),
              (w0.SCREEN_HEIGHT : Int)) ∧
          (((w0.SCREEN_WIDTH : Int), (w0.SCREEN_HEIGHT : Int)) ≠ (width, height) →
            ∀ (f : TextureFormat) (tw th : Int),
              e.gl.textureImage (e.gl.colorAttachment0 e.gl.framebuffer) = some (f, tw, th) →
              (tw, th) ≠ (e.gl.viewport.2.2.1, e.gl.viewport.2.2.2))) := by
  let S : OpClass → Bool := fun _ => true
  obtain ⟨n1, n2, n3, n4, n5, n6⟩ := setup_names complete w0
  obtain ⟨s1, s2, s3, s4⟩ := setup_store complete w0 hW hH
  rw [← hs] at n1 n2 n3 n4 n5 n6 s1 s2 s3 s4
  have hfr : Flow S ws wr := by
    rw [hr]; exact flow_resizeSequence S rfl sizes ws
  have hf1 : Flow S wr w1 := by
    rw [h1]; exact flow_frameBufferSizeCallback S rfl width height wr
  have tws : ws.gl.textureImage ws.backfaceNormalTex =
      some (TextureFormat.GL_RGBA16F, (w0.SCREEN_WIDTH : Int), (w0.SCREEN_HEIGHT : Int)) := by
    rw [n2]; exact s1
  have tds : ws.gl.textureImage ws.backfaceDepthTex =
      some (TextureFormat.GL_DEPTH_COMPONENT32F, (w0.SCREEN_WIDTH : Int),
        (w0.SCREEN_HEIGHT : Int)) := by
    rw [n3]; exact s2
  have hkeep : ∀ x : World α, Flow S ws x →
      x.backfaceFBO = ws.backfaceFBO ∧ x.backfaceNormalTex = ws.backfaceNormalTex ∧
      x.backfaceDepthTex = ws.backfaceDepthTex ∧
      x.gl.colorAttachment0 = ws.gl.colorAttachment0 ∧
      x.gl.depthAttachment = ws.gl.depthAttachment ∧
      x.gl.textureImage x.backfaceNormalTex =
        some (TextureFormat.GL_RGBA16F, (w0.SCREEN_WIDTH : Int), (w0.SCREEN_HEIGHT : Int)) ∧
      x.gl.textureImage x.backfaceDepthTex =
        some (TextureFormat.GL_DEPTH_COMPONENT32F, (w0.SCREEN_WIDTH : Int),
          (w0.SCREEN_HEIGHT : Int)) := by
    intro x hx
    obtain ⟨a1, a2, a3, a4, a5, a6⟩ := hx.target
    exact ⟨a1, a2, a3, a5, a6, by rw [a4, a2]; exact tws, by rw [a4, a3]; exact tds⟩
  have hne : ¬ (width = 0 ∨ height = 0) := by omega
  have hsize : (w1.SCREEN_WIDTH : Int) = width ∧ (w1.SCREEN_HEIGHT : Int) = height ∧
      w1.gl.viewport = (0, 0, width, height) := by
    rw [h1]
    simp only [frameBufferSizeCallback, if_neg hne]
    refine ⟨?_, ?_, rfl⟩
    · show ((intToUInt width : Nat) : Int) = width
      simp only [intToUInt]
      rw [Int.emod_eq_of_lt hw.le (by omega)]
      omega
    · show ((intToUInt height : Nat) : Int) = height
      simp only [intToUInt]
      rw [Int.emod_eq_of_lt hh.le (by omega)]
      omega
  have hk1 := hkeep w1 (hfr.flowTrans hf1)
  have hatt1 : ws.gl.colorAttachment0 ws.backfaceFBO = ws.backfaceNormalTex := by
    rw [n1, n2]; exact s3
  have hatt2 : ws.gl.depthAttachment ws.backfaceFBO = ws.backfaceDepthTex := by
    rw [n1, n3]; exact s4
  refine ⟨⟨hatt1, hatt2⟩, ?_, hsize, ?_⟩
  · intro x hx
    rcases hx with rfl | rfl | rfl
    · exact hkeep _ (Flow.flowRefl S _)
    · exact hkeep _ hfr
    · exact hk1
  · intro hsel hm
    obtain ⟨wd, m, pre, b1, mid, b2, ga, g1, gc, g2, _, hd, htr, _, _, h6, _⟩ :=
      dispatch_two_trace ops sh projection view w1 hsel hm
    refine ⟨wd, pre, b1, mid ++
      (⟨Op.drawModel sh.frontfaceShader.ID TwoSurfacesFrontFaceShader, gc⟩ ::
        (b2 ++ [⟨Op.drawModelReturn, g2⟩])), ga, g1, hd, ?_, ?_⟩
    · rw [htr]
      simp only [List.append_assoc]
    · intro e he
      obtain ⟨e1, e2, e3⟩ := h6 e he
      have t1 : e.gl.textureImage = w1.gl.textureImage := congrArg Prod.fst e3
      have t2 : e.gl.colorAttachment0 = w1.gl.colorAttachment0 := congrArg (fun x => x.2.1) e3
      have t3 : e.gl.depthAttachment = w1.gl.depthAttachment := congrArg (fun x => x.2.2) e3
      have hvw : toInt w1.SCREEN_WIDTH = width := by
        rw [toInt_of_lt _ (by have := hsize.1; omega)]; exact hsize.1
      have hvh : toInt w1.SCREEN_HEIGHT = height := by
        rw [toInt_of_lt _ (by have := hsize.2.1; omega)]; exact hsize.2.1
      have c1 : e.gl.textureImage (e.gl.colorAttachment0 e.gl.framebuffer) =
          some (TextureFormat.GL_RGBA16F, (w0.SCREEN_WIDTH : Int), (w0.SCREEN_HEIGHT : Int)) := by
        rw [t1, t2, e1, hk1.2.2.2.1, hk1.1, hatt1, ← hk1.2.1]
        exact hk1.2.2.2.2.2.1
      have c2 : e.gl.textureImage (e.gl.depthAttachment e.gl.framebuffer) =
          some (TextureFormat.GL_DEPTH_COMPONENT32F, (w0.SCREEN_WIDTH : Int),
            (w0.SCREEN_HEIGHT : Int)) := by
        rw [t1, t3, e1, hk1.2.2.2.2.1, hk1.1, hatt2, ← hk1.2.2.1]
        exact hk1.2.2.2.2.2.2
      refine ⟨e1, by rw [e2, hvw, hvh], c1, c2, ?_⟩
      intro hdiff f tw th hf
      rw [c1] at hf
      simp only [Option.some.injEq, Prod.mk.injEq] at hf
      rw [e2, hvw, hvh, ← hf.2.1, ← hf.2.2]
      exact hdiff

theorem backface_target_keeps_startup_size_witness :
    twoSurfaceWorld.SCREEN_WIDTH < 2 ^ 31 ∧ twoSurfaceWorld.SCREEN_HEIGHT < 2 ^ 31 ∧
    (0 : Int) < 1280 ∧ (1280 : Int) < 2 ^ 31 ∧ (0 : Int) < 720 ∧ (720 : Int) < 2 ^ 31 ∧
    (frameBufferSizeCallback 1280 720 (resizeSequence [(800, 600)] readyWorld)).gl.viewport =
      (0, 0, 1280, 720) ∧
    (frameBufferSizeCallback 1280 720
        (resizeSequence [(800, 600)] readyWorld)).gl.textureImage
      (frameBufferSizeCallback 1280 720
        (resizeSequence [(800, 600)] readyWorld)).backfaceNormalTex =
      some (TextureFormat.GL_RGBA16F, ((twoSurfaceWorld.SCREEN_WIDTH : Nat) : Int),
        ((twoSurfaceWorld.SCREEN_HEIGHT : Nat) : Int)) :=
  have key := backface_target_keeps_startup_size approxFrameOps sampleShaders identityMat4
    identityMat4 true twoSurfaceWorld [(800, 600)] 1280 720 (by decide) (by decide) (by decide)
    (by decide) (by decide) (by decide) readyWorld (resizeSequence [(800, 600)] readyWorld)
    (frameBufferSizeCallback 1280 720 (resizeSequence [(800, 600)] readyWorld)) rfl rfl rfl
  ⟨by decide, by decide, by decide, by decide, by decide, by decide, key.2.2.1.2.2,
    (key.2.1 _ (Or.inr (Or.inr rfl))).2.2.2.2.2.1⟩

end ResizeTheorems

section FallbackTheorems
variable {α : Type} [LinearOrderedField α]

/-- C12.  For every value of `selectedRefractionMethod` other than
`OneSurface` and `TwoSurfaces`, the dispatch of the render loop leaves the same
trace of operations and the same context state as it does from the same state
with `OneSurface` selected, and fails on the same states.  When the selected
model exists, what it issues is one `drawModel` submission with the refraction
shader and shader type `OneSurfaceShader`, whose only integer uniform is
`skybox = 0`, and none of its operations writes to a log stream. -/
theorem fallback_dispatch_is_one_surface (ops : FrameOps α) (sh : Shaders)
    (projection view : Mat4 α) (w : World α)
    (h1 : w.selectedRefractionMethod ≠ OneSurface)
    (h2 : w.selectedRefractionMethod ≠ TwoSurfaces) :
    (refractionDispatch ops sh projection view w).map (fun x => (x.trace, x.gl)) =
      (refractionDispatch ops sh projection view
        { w with selectedRefractionMethod := OneSurface }).map (fun x => (x.trace, x.gl)) ∧
    ((index? w.allModels w.selectedModel).isSome = true →
      ∃ (wd : World α) (body : List (Entry α)) (g : GLState),
        refractionDispatch ops sh projection view w = some wd ∧
        wd.trace = w.trace ++
          ⟨Op.drawModel sh.refractionShader.ID OneSurfaceShader, w.gl⟩ ::
            (body ++ [⟨Op.drawModelReturn, g⟩]) ∧
        submissions (⟨Op.drawModel sh.refractionShader.ID OneSurfaceShader, w.gl⟩ ::
            (body ++ [⟨Op.drawModelReturn, g⟩])) =
          [⟨Op.drawModel sh.refractionShader.ID OneSurfaceShader, w.gl⟩ ::
            (body ++ [⟨Op.drawModelReturn, g⟩])] ∧
        intUniforms body = [(sh.refractionShader.ID, "skybox", 0)] ∧
        ∀ e ∈ (⟨Op.drawModel sh.refractionShader.ID OneSurfaceShader, w.gl⟩ : Entry α) ::
            (body ++ [⟨Op.drawModelReturn, g⟩]), e.op.cls ≠ OpClass.log) := by
  have hw : refractionDispatch ops sh projection view w =
      drawModel ops sh.refractionShader projection view OneSurfaceShader w := by
    simp only [refractionDispatch, if_neg h1, if_neg h2]
  have hone : refractionDispatch ops sh projection view
      { w with selectedRefractionMethod := OneSurface } =
      drawModel ops sh.refractionShader projection view OneSurfaceShader
        { w with selectedRefractionMethod := OneSurface } := by
    simp only [refractionDispatch, if_true]
  constructor
  · rw [hw, hone, drawModel_method ops sh.refractionShader projection view OneSurfaceShader w
      OneSurface, Option.map_map]
    rfl
  · intro hm
    obtain ⟨wd, m, body, g, _, hd, hsub, _, hu, _, _⟩ :=
      drawModel_submission ops sh.refractionShader projection view OneSurfaceShader w
        (Or.inl rfl) hm
    refine ⟨wd, body, g, hw.trans hd, hsub.trace, ?_, hu rfl, ?_⟩
    · have := submissions_one sh.refractionShader.ID OneSurfaceShader w.gl g body []
        hsub.quietBody
      rw [this]
      rfl
    · intro e he
      simp only [List.mem_cons, List.mem_append, List.mem_singleton, List.not_mem_nil,
        or_false] at he
      rcases he with rfl | he | rfl
      · simp [Op.cls]
      · rcases (hsub.body e he).1 with h | h <;> rw [h] <;> decide
      · simp [Op.cls]

theorem fallback_dispatch_is_one_surface_witness :
    strayMethodWorld.selectedRefractionMethod ≠ OneSurface ∧
    strayMethodWorld.selectedRefractionMethod ≠ TwoSurfaces ∧
    (refractionDispatch approxFrameOps sampleShaders identityMat4 identityMat4
        strayMethodWorld).map (fun x => (x.trace, x.gl)) =
      (refractionDispatch approxFrameOps sampleShaders identityMat4 identityMat4
        { strayMethodWorld with selectedRefractionMethod := OneSurface }).map
        (fun x => (x.trace, x.gl)) :=
  ⟨by decide, by decide,
    (fallback_dispatch_is_one_surface approxFrameOps sampleShaders identityMat4 identityMat4
      strayMethodWorld (by decide) (by decide)).1⟩

end FallbackTheorems

section PairingTheorems
variable {α : Type} [LinearOrderedField α] [FloorRing α]

/-- C17, as the program behaves.  In every iteration of the render loop whose
selections are in range: when the tracker is inactive at the start of the
iteration, `ImGuiNewFrame` and then `ImGuiDrawWindow` are called; when it is
active with samples remaining after this one, neither is called; when it is
active and records its last sample in this iteration
(`frameLimit <= frameCount + 1`), `ImGuiDrawWindow` is called although
`ImGuiNewFrame` was not, because `update` clears `active` between the two
tests of the flag. -/
theorem imgui_frame_pairing_by_tracker_state (ops : FrameOps α) (sh : Shaders)
    (inp : FrameInput α) (w : World α) (h : SelectionsInRange inp w) :
    ∃ tr, iterationTrace ops sh inp w = some tr ∧
      (w.fpsTracker.active = false →
        imguiCalls tr = [ImGuiCall.newFrame, ImGuiCall.drawWindow]) ∧
      (w.fpsTracker.active = true →
        w.fpsTracker.frameCount + 1 < w.fpsTracker.frameLimit → imguiCalls tr = []) ∧
      (w.fpsTracker.active = true →
        w.fpsTracker.frameLimit ≤ w.fpsTracker.frameCount + 1 →
        imguiCalls tr = [ImGuiCall.drawWindow]) := by
  have h0 : SelectionsInRange inp { w with trace := [] } := h
  obtain ⟨wEnd, hit, hcalls⟩ := iteration_imgui ops sh inp { w with trace := [] } h0
  have hc : imguiCalls wEnd.trace = [] ++
      (if w.fpsTracker.active = false then [ImGuiCall.newFrame] else []) ++
      (if (if w.fpsTracker.active then (w.fpsTracker.update (inp.time - w.prevFrame)).1
            else w.fpsTracker).active = false
        then [ImGuiCall.drawWindow] else []) := hcalls
  refine ⟨wEnd.trace, by simp only [iterationTrace, hit, Option.map_some'], ?_, ?_, ?_⟩
  · intro ha
    rw [hc]
    simp [ha]
  · intro ha hlt
    rw [hc]
    have e2 := (update_active_frameLimit w.fpsTracker ha (inp.time - w.prevFrame)).2.2.mpr hlt
    simp [ha, e2]
  · intro ha hge
    rw [hc]
    have e2 : (w.fpsTracker.update (inp.time - w.prevFrame)).1.active = false := by
      cases hx : (w.fpsTracker.update (inp.time - w.prevFrame)).1.active
      · rfl
      · have := (update_active_frameLimit w.fpsTracker ha (inp.time - w.prevFrame)).2.2.mp hx
        omega
    simp [ha, e2]

theorem imgui_frame_pairing_by_tracker_state_witness :
    SelectionsInRange idleInput lastSampleWorld ∧
    lastSampleWorld.fpsTracker.active = true ∧
    lastSampleWorld.fpsTracker.frameLimit ≤ lastSampleWorld.fpsTracker.frameCount + 1 ∧
    ∃ tr, iterationTrace approxFrameOps sampleShaders idleInput lastSampleWorld = some tr ∧
      imguiCalls tr = [ImGuiCall.drawWindow] := by
  have hin : SelectionsInRange idleInput lastSampleWorld :=
    ⟨rfl, rfl, rfl, fun hb => absurd hb (by decide)⟩
  obtain ⟨tr, h1, _, _, h4⟩ :=
    imgui_frame_pairing_by_tracker_state approxFrameOps sampleShaders idleInput lastSampleWorld
      hin
  exact ⟨hin, rfl, by decide, tr, h1, h4 rfl (by decide)⟩

end PairingTheorems

/-! ## Theorems: bindings after `Model::draw` -/

section BindingTheorems
variable {α : Type}

theorem Mesh_draw_bindings (mesh : Mesh α) (shader : Shader) (w : World α) :
    (mesh.draw shader w).gl.activeTexture = 0 ∧ (mesh.draw shader w).gl.vertexArray = 0 :=
  ⟨rfl, rfl⟩

theorem foldl_draw_bindings (meshes : List (Mesh α)) (h : meshes ≠ []) (shader : Shader)
    (w : World α) :
    (meshes.foldl (fun w mesh => mesh.draw shader w) w).gl.activeTexture = 0 ∧
    (meshes.foldl (fun w mesh => mesh.draw shader w) w).gl.vertexArray = 0 := by
  induction meshes generalizing w with
  | nil => exact absurd rfl h
  | cons m t ih =>
    by_cases ht : t = []
    · subst ht
      exact Mesh_draw_bindings m shader w
    · exact ih ht _

/-- C11, amended.  `Model::draw` resets the two bindings only through the
`Mesh::draw` calls of its loop: when the loop bound
`static_cast<unsigned int>(meshes.size())` is not zero, then for every context
state before the call (any active texture unit, any bound vertex array) the
state on return has texture unit 0 active and vertex array 0 bound, that is,
none. -/
theorem draw_resets_bindings_after_a_mesh (model : Model α) (shader : Shader) (w : World α)
    (h : toUInt model.meshes.length ≠ 0) :
    (model.draw shader w).gl.activeTexture = 0 ∧ (model.draw shader w).gl.vertexArray = 0 := by
  unfold Model.draw
  apply foldl_draw_bindings
  intro hnil
  have hl := congrArg List.length hnil
  simp only [List.length_take, List.length_nil] at hl
  have h0 : 0 < toUInt model.meshes.length := Nat.pos_of_ne_zero h
  have h1 : 0 < model.meshes.length := by
    rcases Nat.eq_zero_or_pos model.meshes.length with h2 | h2
    · rw [h2] at h0; simp [toUInt] at h0
    · exact h2
  omega

theorem draw_resets_bindings_after_a_mesh_witness :
    toUInt ([{ vertices := [], indices := [0, 1, 2], meshName := "", VAO := 1, VBO := 1,
               EBO := 2 }] : List (Mesh ℚ)).length ≠ 0 ∧
    (Model.draw
        { meshes := [{ vertices := [], indices := [0, 1, 2], meshName := "", VAO := 1,
                       VBO := 1, EBO := 2 }],
          modelName := "Teapot" }
        ⟨2⟩ boundWorld).gl.activeTexture = 0 ∧
    (Model.draw
        { meshes := [{ vertices := [], indices := [0, 1, 2], meshName := "", VAO := 1,
                       VBO := 1, EBO := 2 }],
          modelName := "Teapot" }
        ⟨2⟩ boundWorld).gl.vertexArray = 0 :=
  ⟨by decide, draw_resets_bindings_after_a_mesh _ ⟨2⟩ boundWorld (by decide)⟩

/-- C11 as stated fails for the model with zero meshes: the loop of
`Model::draw` has no iteration, no `Mesh::draw` runs, and a state with texture
unit 3 active and vertex array 7 bound is returned as it was. -/
theorem draw_of_empty_model_keeps_bindings :
    (Model.draw ({ meshes := [], modelName := "" } : Model ℚ) ⟨2⟩ boundWorld).gl.activeTexture
      = 3 ∧
    (Model.draw ({ meshes := [], modelName := "" } : Model ℚ) ⟨2⟩ boundWorld).gl.vertexArray
      = 7 ∧
    (Model.draw ({ meshes := [], modelName := "" } : Model ℚ) ⟨2⟩ boundWorld).trace
      = boundWorld.trace ∧
    ¬ ((Model.draw ({ meshes := [], modelName := "" } : Model ℚ) ⟨2⟩ boundWorld).gl.activeTexture
        = 0 ∧
       (Model.draw ({ meshes := [], modelName := "" } : Model ℚ) ⟨2⟩ boundWorld).gl.vertexArray
        = 0) := by
  refine ⟨rfl, rfl, rfl, ?_⟩
  intro h
  exact absurd h.1 (by decide)

end BindingTheorems

/-! ## Theorems: the flip loop of `saveScreenshot` -/

section FlipLemmas

theorem checkedInt_of_range (x : Int) (h0 : 0 ≤ x) (h1 : x < 2 ^ 31) :
    checkedInt x = some x := by
  unfold checkedInt
  rw [if_pos]
  constructor
  · have : (-2 ^ 31 : Int) ≤ 0 := by norm_num
    exact le_trans this h0
  · exact h1

theorem checkedInt_of_overflow (x : Int) (h : 2 ^ 31 ≤ x) : checkedInt x = none := by
  unfold checkedInt
  rw [if_neg]
  intro hx
  exact absurd hx.2 (not_lt.mpr h)

theorem cell_lt (w h r c : Nat) (hr : r < h) (hc : c < w * 3) :
    r * w * 3 + c < w * h * 3 := by
  have h1 : (r + 1) * (w * 3) ≤ h * (w * 3) := Nat.mul_le_mul_right _ hr
  have h2 : r * w * 3 + c < (r + 1) * (w * 3) := by
    have : (r + 1) * (w * 3) = r * w * 3 + w * 3 := by ring
    omega
  have h3 : h * (w * 3) = w * h * 3 := by ring
  omega

theorem cell_inj (w r c r2 c2 : Nat) (hc : c < w * 3) (hc2 : c2 < w * 3)
    (h : r * w * 3 + c = r2 * w * 3 + c2) : r = r2 ∧ c = c2 := by
  have hpos : 0 < w * 3 := by omega
  have e1 : r * w * 3 + c = c + (w * 3) * r := by ring
  have e2 : r2 * w * 3 + c2 = c2 + (w * 3) * r2 := by ring
  rw [e1, e2] at h
  have hd := congrArg (fun x => x / (w * 3)) h
  have hm := congrArg (fun x => x % (w * 3)) h
  simp only [Nat.add_mul_div_left _ _ hpos, Nat.add_mul_mod_self_left,
    Nat.div_eq_of_lt hc, Nat.div_eq_of_lt hc2, Nat.mod_eq_of_lt hc, Nat.mod_eq_of_lt hc2,
    Nat.zero_add] at hd hm
  exact ⟨hd, hm⟩

theorem swap_getElem? (l : List Nat) (a b k : Nat) (ha : a < l.length) (hb : b < l.length) :
    ((l.set a (l.getD b 0)).set b (l.getD a 0))[k]? =
      if k = b then l[a]? else if k = a then l[b]? else l[k]? := by
  have ea : l[a]? = some (l.getD a 0) := by
    simp [List.getD, List.getElem?_eq_getElem ha]
  have eb : l[b]? = some (l.getD b 0) := by
    simp [List.getD, List.getElem?_eq_getElem hb]
  rw [List.getElem?_set, List.getElem?_set, List.length_set]
  by_cases h1 : k = b
  · subst h1
    rw [if_pos rfl, if_pos hb, if_pos rfl, ea]
  · rw [if_neg (Ne.symm h1), if_neg h1]
    by_cases h2 : k = a
    · subst h2
      rw [if_pos rfl, if_pos ha, if_pos rfl, eb]
    · rw [if_neg (Ne.symm h2), if_neg h2]

theorem swapPixels_eq (l : List Nat) (a b : Nat) (ha : a < l.length) (hb : b < l.length) :
    swapPixels l (a : Int) (b : Int) =
      some ((l.set a (l.getD b 0)).set b (l.getD a 0)) := by
  unfold swapPixels
  rw [if_pos]
  · rfl
  · exact ⟨Int.natCast_nonneg a, Int.ofNat_lt.mpr ha, Int.natCast_nonneg b, Int.ofNat_lt.mpr hb⟩

theorem flipCell_eq (w h j i : Nat) (l : List Nat) (hj : j < h) (hi : i < w * 3)
    (hsize : w * h * 3 < 2 ^ 31) (hlen : l.length = w * h * 3) :
    flipCell (w : Int) (h : Int) j i l =
      some ((l.set (j * w * 3 + i) (l.getD ((h - 1 - j) * w * 3 + i) 0)).set
        ((h - 1 - j) * w * 3 + i) (l.getD (j * w * 3 + i) 0)) := by
  have ha : j * w * 3 + i < w * h * 3 := cell_lt w h j i hj hi
  have hb : (h - 1 - j) * w * 3 + i < w * h * 3 := cell_lt w h (h - 1 - j) i (by omega) hi
  have c1 : checkedInt ((j : Int) * (w : Int)) = some ((j * w : Nat) : Int) := by
    rw [checkedInt_of_range]
    · push_cast; rfl
    · positivity
    · have : j * w < 2 ^ 31 := by omega
      exact_mod_cast this
  have c2 : checkedInt (((j * w : Nat) : Int) * 3) = some ((j * w * 3 : Nat) : Int) := by
    rw [checkedInt_of_range]
    · push_cast; rfl
    · positivity
    · have : j * w * 3 < 2 ^ 31 := by omega
      exact_mod_cast this
  have c3 : checkedInt (((j * w * 3 : Nat) : Int) + (i : Int)) =
      some ((j * w * 3 + i : Nat) : Int) := by
    rw [checkedInt_of_range]
    · push_cast; rfl
    · positivity
    · have : j * w * 3 + i < 2 ^ 31 := by omega
      exact_mod_cast this
  have c4 : checkedInt ((h : Int) - 1) = some ((h - 1 : Nat) : Int) := by
    have e : ((h - 1 : Nat) : Int) = (h : Int) - 1 := by omega
    rw [checkedInt_of_range, e]
    · omega
    · have : h < 2 ^ 31 := by
        have : h ≤ w * h * 3 := by
          have hw : 0 < w := by omega
          calc h = 1 * h * 1 := by ring
            _ ≤ w * h * 3 := Nat.mul_le_mul (Nat.mul_le_mul hw (le_refl h)) (by norm_num)
        omega
      omega
  have hh : h < 2 ^ 31 := by
    have : h ≤ w * h * 3 := by
      have hw : 0 < w := by omega
      calc h = 1 * h * 1 := by ring
        _ ≤ w * h * 3 := Nat.mul_le_mul (Nat.mul_le_mul hw (le_refl h)) (by norm_num)
    omega
  have c5 : checkedInt (((h - 1 : Nat) : Int) - (j : Int)) = some ((h - 1 - j : Nat) : Int) := by
    have e : ((h - 1 - j : Nat) : Int) = ((h - 1 : Nat) : Int) - (j : Int) := by omega
    rw [checkedInt_of_range, e] <;> omega
  have c6 : checkedInt (((h - 1 - j : Nat) : Int) * (w : Int)) =
      some (((h - 1 - j) * w : Nat) : Int) := by
    rw [checkedInt_of_range]
    · push_cast; rfl
    · positivity
    · have : (h - 1 - j) * w < 2 ^ 31 := by omega
      exact_mod_cast this
  have c7 : checkedInt ((((h - 1 - j) * w : Nat) : Int) * 3) =
      some (((h - 1 - j) * w * 3 : Nat) : Int) := by
    rw [checkedInt_of_range]
    · push_cast; rfl
    · positivity
    · have : (h - 1 - j) * w * 3 < 2 ^ 31 := by omega
      exact_mod_cast this
  have c8 : checkedInt ((((h - 1 - j) * w * 3 : Nat) : Int) + (i : Int)) =
      some (((h - 1 - j) * w * 3 + i : Nat) : Int) := by
    rw [checkedInt_of_range]
    · push_cast; rfl
    · positivity
    · have : (h - 1 - j) * w * 3 + i < 2 ^ 31 := by omega
      exact_mod_cast this
  unfold flipCell
  simp only [Option.bind_eq_bind]
  rw [c1, Option.some_bind, c2, Option.some_bind, c3, Option.some_bind, c4, Option.some_bind,
    c5, Option.some_bind, c6, Option.some_bind, c7, Option.some_bind, c8, Option.some_bind]
  exact swapPixels_eq l _ _ (by rw [hlen]; exact ha) (by rw [hlen]; exact hb)

theorem flipInner_spec (w h j : Nat) (l : List Nat) (hj : 2 * j + 2 ≤ h)
    (hsize : w * h * 3 < 2 ^ 31) (hlen : l.length = w * h * 3) (I : Nat) (hI : I ≤ w * 3) :
    ∃ out, (List.range I).foldlM (fun p i => flipCell (w : Int) (h : Int) j i p) l = some out ∧
      out.length = l.length ∧
      ∀ r c, r < h → c < w * 3 →
        out[r * w * 3 + c]? =
          if r = j ∧ c < I then l[(h - 1 - j) * w * 3 + c]?
          else if r = h - 1 - j ∧ c < I then l[j * w * 3 + c]?
          else l[r * w * 3 + c]? := by
  induction I with
  | zero => exact ⟨l, rfl, rfl, fun r c _ _ => by simp⟩
  | succ I ih =>
    obtain ⟨out, ho, hl, hg⟩ := ih (by omega)
    have hI2 : I < w * 3 := by omega
    have hcell := flipCell_eq w h j I out (by omega) hI2 hsize (by rw [hl, hlen])
    have ha : j * w * 3 + I < out.length := by
      rw [hl, hlen]; exact cell_lt w h j I (by omega) hI2
    have hb : (h - 1 - j) * w * 3 + I < out.length := by
      rw [hl, hlen]; exact cell_lt w h (h - 1 - j) I (by omega) hI2
    refine ⟨(out.set (j * w * 3 + I) (out.getD ((h - 1 - j) * w * 3 + I) 0)).set
      ((h - 1 - j) * w * 3 + I) (out.getD (j * w * 3 + I) 0), ?_, ?_, ?_⟩
    · rw [List.range_succ, List.foldlM_append, ho, Option.bind_eq_bind, Option.some_bind,
        List.foldlM_cons, hcell, Option.bind_eq_bind, Option.some_bind, List.foldlM_nil]
      rfl
    · rw [List.length_set, List.length_set, hl]
    · intro r c hr hc
      rw [swap_getElem? out _ _ _ ha hb]
      by_cases h1 : r = h - 1 - j ∧ c = I
      · obtain ⟨e1, e2⟩ := h1
        subst e1 e2
        rw [if_pos rfl, hg j c (by omega) hc, if_neg (by omega), if_neg (by omega),
          if_neg (by omega), if_pos (by omega)]
      · have n1 : r * w * 3 + c ≠ (h - 1 - j) * w * 3 + I := by
          intro e
          exact h1 (cell_inj w r c (h - 1 - j) I hc hI2 e)
        rw [if_neg n1]
        by_cases h2 : r = j ∧ c = I
        · obtain ⟨e1, e2⟩ := h2
          subst e1 e2
          rw [if_pos rfl, hg (h - 1 - r) c (by omega) hc, if_neg (by omega), if_neg (by omega),
            if_pos (by omega)]
        · have n2 : r * w * 3 + c ≠ j * w * 3 + I := by
            intro e
            exact h2 (cell_inj w r c j I hc hI2 e)
          rw [if_neg n2, hg r c hr hc]
          have e1 : (r = j ∧ c < I + 1) ↔ (r = j ∧ c < I) := by omega
          have e2 : (r = h - 1 - j ∧ c < I + 1) ↔ (r = h - 1 - j ∧ c < I) := by omega
          simp only [e1, e2]

theorem flipRow_spec (w h j : Nat) (l : List Nat) (hj : 2 * j + 2 ≤ h)
    (hsize : w * h * 3 < 2 ^ 31) (hlen : l.length = w * h * 3) :
    ∃ out, flipRow (w : Int) (h : Int) j l = some out ∧ out.length = l.length ∧
      ∀ r c, r < h → c < w * 3 →
        out[r * w * 3 + c]? =
          if r = j then l[(h - 1 - j) * w * 3 + c]?
          else if r = h - 1 - j then l[j * w * 3 + c]?
          else l[r * w * 3 + c]? := by
  have hw3 : w * 3 < 2 ^ 31 := by
    have : 1 * (w * 3) ≤ h * (w * 3) := Nat.mul_le_mul_right _ (by omega)
    have e : h * (w * 3) = w * h * 3 := by ring
    omega
  have cb : checkedInt ((w : Int) * 3) = some ((w * 3 : Nat) : Int) := by
    rw [checkedInt_of_range]
    · push_cast; rfl
    · positivity
    · exact_mod_cast hw3
  obtain ⟨out, ho, hl, hg⟩ := flipInner_spec w h j l hj hsize hlen (w * 3) (le_refl _)
  refine ⟨out, ?_, hl, ?_⟩
  · unfold flipRow
    simp only [Option.bind_eq_bind]
    rw [cb, Option.some_bind]
    exact ho
  · intro r c hr hc
    rw [hg r c hr hc]
    simp only [hc, and_true]

theorem flipOuter_spec (w h : Nat) (l : List Nat)
    (hsize : w * h * 3 < 2 ^ 31) (hlen : l.length = w * h * 3) (J : Nat) (hJ : J ≤ h / 2) :
    ∃ out, (List.range J).foldlM (fun p j => flipRow (w : Int) (h : Int) j p) l = some out ∧
      out.length = l.length ∧
      ∀ r c, r < h → c < w * 3 →
        out[r * w * 3 + c]? =
          if r < J ∨ h - 1 - r < J then l[(h - 1 - r) * w * 3 + c]?
          else l[r * w * 3 + c]? := by
  induction J with
  | zero => exact ⟨l, rfl, rfl, fun r c _ _ => by simp⟩
  | succ J ih =>
    obtain ⟨out, ho, hl, hg⟩ := ih (by omega)
    obtain ⟨out2, ho2, hl2, hg2⟩ :=
      flipRow_spec w h J out (by omega) hsize (by rw [hl, hlen])
    refine ⟨out2, ?_, by rw [hl2, hl], ?_⟩
    · rw [List.range_succ, List.foldlM_append, ho, Option.bind_eq_bind, Option.some_bind,
        List.foldlM_cons, ho2, Option.bind_eq_bind, Option.some_bind, List.foldlM_nil]
      rfl
    · intro r c hr hc
      rw [hg2 r c hr hc]
      by_cases h1 : r = J
      · subst h1
        rw [if_pos rfl, hg (h - 1 - r) c (by omega) hc, if_neg (by omega), if_pos (by omega)]
      · rw [if_neg h1]
        by_cases h2 : r = h - 1 - J
        · subst h2
          have e : h - 1 - (h - 1 - J) = J := by omega
          rw [if_pos rfl, hg J c (by omega) hc, if_neg (by omega), if_pos (by omega), e]
        · rw [if_neg h2, hg r c hr hc]
          have e1 : (r < J + 1 ∨ h - 1 - r < J + 1) ↔ (r < J ∨ h - 1 - r < J) := by omega
          simp only [e1]

theorem flipRows_overflow (width height : Int) (pixels : List Nat)
    (hw : 2 ^ 31 ≤ width * 3) (hh : 2 ≤ height) : flipRows width height pixels = none := by
  have h1 : 1 ≤ Int.tdiv height 2 := by
    have e : Int.tdiv height 2 = height / 2 := Int.tdiv_eq_ediv (by omega) (by norm_num)
    rw [e]
    omega
  obtain ⟨n, hn⟩ : ∃ n : Nat, (Int.tdiv height 2).toNat = n + 1 :=
    ⟨(Int.tdiv height 2).toNat - 1, by omega⟩
  unfold flipRows
  rw [hn, List.range_succ_eq_map, List.foldlM_cons]
  have e : flipRow width height 0 pixels = none := by
    unfold flipRow
    rw [checkedInt_of_overflow _ hw]
    rfl
  rw [e]
  rfl

/-- C18, amended.  When `width * height * 3` is at most `INT_MAX` (so that no
`int` operation of the loop overflows), then for every `width >= 0`,
`height >= 0` and pixel vector of `width * height * 3` bytes the flip loop of
`saveScreenshot` runs to its end with every index it uses inside the vector,
keeps the length, and leaves at row `j`, offset `i` the byte the vector had
at row `height - 1 - j`, offset `i`, for every `0 <= j < height` and
`0 <= i < width * 3`: rows are reversed, the bytes within a row keep their
order, and the middle row of an odd height is unchanged. -/
theorem flip_reverses_rows (width height : Int) (pixels : List Nat)
    (hw : 0 ≤ width) (hh : 0 ≤ height) (hsize : width * height * 3 < 2 ^ 31)
    (hlen : (pixels.length : Int) = width * height * 3) :
    ∃ out, flipRows width height pixels = some out ∧ out.length = pixels.length ∧
      ∀ j i : Int, 0 ≤ j → j < height → 0 ≤ i → i < width * 3 →
        (j * width * 3 + i).toNat < pixels.length ∧
        ((height - 1 - j) * width * 3 + i).toNat < pixels.length ∧
        out[(j * width * 3 + i).toNat]? =
          pixels[((height - 1 - j) * width * 3 + i).toNat]? := by
  obtain ⟨w, rfl⟩ := Int.eq_ofNat_of_zero_le hw
  obtain ⟨h, rfl⟩ := Int.eq_ofNat_of_zero_le hh
  have hsize2 : w * h * 3 < 2 ^ 31 := by exact_mod_cast hsize
  have hlen2 : pixels.length = w * h * 3 := by exact_mod_cast hlen
  have hdiv : (Int.tdiv (h : Int) 2).toNat = h / 2 := by
    have e : Int.tdiv (h : Int) 2 = ((h / 2 : Nat) : Int) := by
      rw [Int.tdiv_eq_ediv (by omega) (by norm_num)]
      omega
    rw [e, Int.toNat_ofNat]
  obtain ⟨out, ho, hl, hg⟩ := flipOuter_spec w h pixels hsize2 hlen2 (h / 2) (le_refl _)
  refine ⟨out, ?_, hl, ?_⟩
  · unfold flipRows
    rw [hdiv]
    exact ho
  · intro j i hj0 hj hi0 hi
    obtain ⟨j, rfl⟩ := Int.eq_ofNat_of_zero_le hj0
    obtain ⟨i, rfl⟩ := Int.eq_ofNat_of_zero_le hi0
    have hj2 : j < h := by exact_mod_cast hj
    have hi2 : i < w * 3 := by exact_mod_cast hi
    have e1 : (j : Int) * (w : Int) * 3 + (i : Int) = ((j * w * 3 + i : Nat) : Int) := by
      push_cast; rfl
    have e2 : ((h : Int) - 1 - (j : Int)) * (w : Int) * 3 + (i : Int) =
        (((h - 1 - j) * w * 3 + i : Nat) : Int) := by
      have e3 : ((h - 1 - j : Nat) : Int) = (h : Int) - 1 - (j : Int) := by omega
      push_cast
      rw [e3]
    rw [e1, e2, Int.toNat_ofNat, Int.toNat_ofNat, hlen2]
    refine ⟨cell_lt w h j i hj2 hi2, cell_lt w h (h - 1 - j) i (by omega) hi2, ?_⟩
    rw [hg j i hj2 hi2]
    by_cases hc : j < h / 2 ∨ h - 1 - j < h / 2
    · rw [if_pos hc]
    · rw [if_neg hc]
      have e : h - 1 - j = j := by omega
      rw [e]

theorem flip_reverses_rows_witness :
    (0 : Int) ≤ 2 ∧ (0 : Int) ≤ 3 ∧ (2 : Int) * 3 * 3 < 2 ^ 31 ∧
    (((List.range 18).length : Nat) : Int) = 2 * 3 * 3 ∧
    ∃ out, flipRows 2 3 (List.range 18) = some out ∧ out.length = (List.range 18).length ∧
      ∀ j i : Int, 0 ≤ j → j < 3 → 0 ≤ i → i < 2 * 3 →
        (j * 2 * 3 + i).toNat < (List.range 18).length ∧
        ((3 - 1 - j) * 2 * 3 + i).toNat < (List.range 18).length ∧
        (out[(j * 2 * 3 + i).toNat]? : Option Nat) =
          (List.range 18)[((3 - 1 - j) * 2 * 3 + i).toNat]? :=
  ⟨by decide, by decide, by decide, by decide,
    flip_reverses_rows 2 3 (List.range 18) (by decide) (by decide) (by decide) (by decide)⟩

theorem flipRows_sample :
    flipRows 2 3 (List.range 18) =
      some [12, 13, 14, 15, 16, 17, 6, 7, 8, 9, 10, 11, 0, 1, 2, 3, 4, 5] := by
  decide

/-- C18 as stated fails for a frame 2^30 pixels wide and 2 pixels high: the
vector has `width * height * 3` bytes and both sizes are non-negative, but the
first test `i < width * 3` of the inner loop multiplies 2^30 by 3 in `int`,
which overflows, so the loop has no defined result and no row is known to be
swapped. -/
theorem flip_overflows_for_wide_frame :
    (0 : Int) ≤ 2 ^ 30 ∧ (0 : Int) ≤ 2 ∧
    (((1 :: List.replicate (2 ^ 30 * 2 * 3 - 1) 0).length : Nat) : Int) = 2 ^ 30 * 2 * 3 ∧
    flipRows (2 ^ 30) 2 (1 :: List.replicate (2 ^ 30 * 2 * 3 - 1) 0) = none := by
  refine ⟨by norm_num, by norm_num, ?_, flipRows_overflow _ _ _ (by norm_num) (by norm_num)⟩
  rw [List.length_cons, List.length_replicate]
  norm_num

end FlipLemmas

/-! ## Theorems: the camera position at the view matrix -/

section ViewLemmas
variable {α : Type}

theorem SameButView.viewRefl (w : World α) : SameButView w w := rfl

theorem SameButView.viewLift {w w2 a a2 : World α} (G : World α → World α) (h : SameButView w w2)
    (e1 : World.withViewOf a a2 = World.withViewOf a (G (World.withViewOf w w2)))
    (e2 : World.withViewOf a (G w) = a) : SameButView a a2 := by
  unfold SameButView
  rw [e1, h, e2]

theorem SameButView.viewEmit {w w2 : World α} (h : SameButView w w2) (op op2 : Op α) :
    SameButView (w.emit op) (w2.emit op2) :=
  h.viewLift (fun y => y.emit op2) rfl rfl

theorem SameButView.viewGlCall {w w2 : World α} (h : SameButView w w2) (op op2 : Op α)
    (f : GLState → GLState) : SameButView (w.glCall op f) (w2.glCall op2 f) :=
  h.viewLift (fun y => y.glCall op2 f) rfl rfl

theorem SameButView.viewBoth {w w2 : World α} (h : SameButView w w2) (r r2 : α)
    (c c2 : Camera α) :
    SameButView { w with rotY := r, camera := c } { w2 with rotY := r2, camera := c2 } :=
  h.viewLift (fun y => y) rfl rfl

theorem SameButView.viewCamera {w w2 : World α} (h : SameButView w w2) (c c2 : Camera α) :
    SameButView { w with camera := c } { w2 with camera := c2 } :=
  h.viewLift (fun y => y) rfl rfl

theorem SameButView.viewIteCamera {w w2 : World α} (h : SameButView w w2) (k k2 : Bool)
    (c c2 : Camera α) :
    SameButView (if k = true then { w with camera := c } else w)
      (if k2 = true then { w2 with camera := c2 } else w2) := by
  cases k <;> cases k2
  · exact h
  · exact h.viewLift (fun y => y) rfl rfl
  · exact h.viewLift (fun y => y) rfl rfl
  · exact h.viewCamera c c2

theorem SameButView.viewIteBoth {w w2 : World α} (h : SameButView w w2) (k k2 : Bool)
    (r r2 : α) (c c2 : Camera α) :
    SameButView (if k = true then { w with rotY := r, camera := c } else w)
      (if k2 = true then { w2 with rotY := r2, camera := c2 } else w2) := by
  cases k <;> cases k2
  · exact h
  · exact h.viewLift (fun y => y) rfl rfl
  · exact h.viewLift (fun y => y) rfl rfl
  · exact h.viewBoth r r2 c c2

theorem SameButView.viewEqOn {β : Type} {w w2 : World α} (h : SameButView w w2)
    (F : World α → β) (hF : ∀ x y : World α, F (World.withViewOf x y) = F y) : F w2 = F w := by
  rw [← hF w w2]
  exact congrArg F h

theorem SameButView.viewIteOf {a a2 b b2 : World α} {k k2 : Prop} [Decidable k] [Decidable k2]
    (hk : k2 ↔ k) (ha : SameButView a a2) (hb : SameButView b b2) :
    SameButView (if k then a else b) (if k2 then a2 else b2) := by
  by_cases h : k
  · rw [if_pos h, if_pos (hk.mpr h)]; exact ha
  · rw [if_neg h, if_neg (fun h2 => h (hk.mp h2))]; exact hb

theorem SameButView.viewCoutFold (logs : List (List (LogItem α))) {w w2 : World α}
    (h : SameButView w w2) :
    SameButView (logs.foldl (fun w items => w.cout items) w)
      (logs.foldl (fun w items => w.cout items) w2) := by
  induction logs generalizing w w2 with
  | nil => exact h
  | cons a t ih => exact ih (h.viewEmit (Op.cout a) (Op.cout a))

theorem SameButView.viewMeshDraw (mesh : Mesh α) (shader : Shader) {w w2 : World α}
    (h : SameButView w w2) : SameButView (mesh.draw shader w) (mesh.draw shader w2) :=
  h.viewLift (fun y => mesh.draw shader y) rfl rfl

theorem SameButView.viewFoldlDraw (meshes : List (Mesh α)) (shader : Shader) {w w2 : World α}
    (h : SameButView w w2) :
    SameButView (meshes.foldl (fun w mesh => mesh.draw shader w) w)
      (meshes.foldl (fun w mesh => mesh.draw shader w) w2) := by
  induction meshes generalizing w w2 with
  | nil => exact h
  | cons m t ih => exact ih (h.viewMeshDraw m shader)

theorem SameButViewResult.viewOfSome {w w2 : World α} (h : SameButView w w2) :
    SameButViewResult (some w) (some w2) := h

theorem sim_drawTail (shader : Shader) {x x2 : World α} (h : SameButView x x2) :
    SameButViewResult
      (match index? x.allModels x.selectedModel with
        | none => none
        | some m => some (World.emit (Model.draw m shader x) Op.drawModelReturn))
      (match index? x2.allModels x2.selectedModel with
        | none => none
        | some m => some (World.emit (Model.draw m shader x2) Op.drawModelReturn)) := by
  have e1 : x2.allModels = x.allModels := h.viewEqOn World.allModels (fun _ _ => rfl)
  have e2 : x2.selectedModel = x.selectedModel := h.viewEqOn World.selectedModel (fun _ _ => rfl)
  cases hidx : index? x.allModels x.selectedModel with
  | none =>
    have hidx2 : index? x2.allModels x2.selectedModel = none := by rw [e1, e2]; exact hidx
    simp only [hidx2]
    trivial
  | some m =>
    have hidx2 : index? x2.allModels x2.selectedModel = some m := by rw [e1, e2]; exact hidx
    simp only [hidx2]
    exact SameButViewResult.viewOfSome ((h.viewFoldlDraw _ shader).viewEmit _ _)

theorem sim_logFPSTestStart (model refraction skybox : String) {w w2 : World α}
    (h : SameButView w w2) :
    SameButView (logFPSTestStart model refraction skybox w)
      (logFPSTestStart model refraction skybox w2) := by
  unfold logFPSTestStart
  exact ((((((((h.viewEmit _ _).viewEmit _ _).viewEmit _ _).viewEmit _ _).viewEmit _ _).viewEmit _ _).viewEmit _ _).viewEmit
    _ _).viewEmit _ _

theorem sim_frameBufferSizeCallback (width height : Int) {w w2 : World α}
    (h : SameButView w w2) :
    SameButView (frameBufferSizeCallback width height w)
      (frameBufferSizeCallback width height w2) := by
  unfold frameBufferSizeCallback
  exact SameButView.viewIteOf Iff.rfl h
    (h.viewLift (fun y => { y.glViewport 0 0 width height with
      SCREEN_WIDTH := intToUInt width, SCREEN_HEIGHT := intToUInt height }) rfl rfl)

end ViewLemmas

section ViewLemmas2
variable {α : Type} [LinearOrderedField α]

theorem sim_processUserInput (keys keys2 : Int → Bool)
    (hk : ∀ key : Int,
      key ∉ [GLFW_KEY_W, GLFW_KEY_A, GLFW_KEY_S, GLFW_KEY_D, GLFW_KEY_Q, GLFW_KEY_E,
        GLFW_KEY_R] → keys key = keys2 key)
    {w w2 : World α} (h : SameButView w w2) :
    SameButView (processUserInput keys w) (processUserInput keys2 w2) := by
  have kEsc : keys GLFW_KEY_ESCAPE = keys2 GLFW_KEY_ESCAPE := hk _ (by decide)
  have kI : keys GLFW_KEY_I = keys2 GLFW_KEY_I := hk _ (by decide)
  unfold processUserInput
  lift_lets
  intro s0 a1 a2 a3 a4 a5 a6 a7 sc c0 c1 c2 c3 a8 a9 sn sd a10
  intro t0 b1 b2 b3 b4 b5 b6 b7 tc d0 d1 d2 d3 b8 b9 tn td b10
  have h1 : SameButView a1 b1 := by
    simp only [a1, b1, s0, t0, ← kEsc]
    split_ifs
    · exact h.viewLift (fun y => { y.emit Op.glfwSetWindowShouldClose with windowShouldClose := true })
        rfl rfl
    · exact h
  have h2 : SameButView a2 b2 := h1.viewIteCamera _ _ _ _
  have h3 : SameButView a3 b3 := h2.viewIteCamera _ _ _ _
  have h4 : SameButView a4 b4 := h3.viewIteCamera _ _ _ _
  have h5 : SameButView a5 b5 := h4.viewIteCamera _ _ _ _
  have h6 : SameButView a6 b6 := h5.viewIteCamera _ _ _ _
  have h7 : SameButView a7 b7 := h6.viewIteCamera _ _ _ _
  have h8 : SameButView a8 b8 := h7.viewIteBoth _ _ _ _ _ _
  have eR : b8.IKeyReleased = a8.IKeyReleased := by
    have := congrArg World.IKeyReleased h8
    exact this
  have eM : b8.ImGuiUseMouse = a8.ImGuiUseMouse := by
    have := congrArg World.ImGuiUseMouse h8
    exact this
  have h9 : SameButView a9 b9 :=
    h8.viewLift (fun y => { y with IKeyReleased := false }) rfl rfl
  have h10 : SameButView a10 b10 := by
    simp only [a10, b10, ← kI, eR]
    by_cases hc : (keys GLFW_KEY_I && a8.IKeyReleased) = true
    · rw [if_pos hc, if_pos hc]
      have e9 : b9.ImGuiUseMouse = a9.ImGuiUseMouse := eM
      rw [e9]
      by_cases hm : a9.ImGuiUseMouse = false
      · rw [if_pos hm, if_pos hm]
        exact h9.viewLift (fun y => { y.emit (Op.glfwSetInputMode CursorMode.GLFW_CURSOR_NORMAL) with
          ImGuiUseMouse := true }) rfl rfl
      · rw [if_neg hm, if_neg hm]
        exact h9.viewLift (fun y => { y.emit (Op.glfwSetInputMode CursorMode.GLFW_CURSOR_DISABLED) with
          ImGuiUseMouse := false }) rfl rfl
    · rw [if_neg hc, if_neg hc]
      exact h8
  rw [← kI]
  by_cases hi : keys GLFW_KEY_I = false
  · rw [if_pos hi, if_pos hi]
    exact h10.viewLift (fun y => { y with IKeyReleased := true }) rfl rfl
  · rw [if_neg hi, if_neg hi]
    exact h10

theorem sim_untilView [FloorRing α] (inp inp2 : FrameInput α)
    (hi : SameButMovementKeys inp inp2) {w w2 : World α} (h : SameButView w w2) :
    SameButView (iterationUntilView inp w) (iterationUntilView inp2 w2) := by
  obtain ⟨htime, _, _, hkeys⟩ := hi
  unfold iterationUntilView
  rw [← htime]
  lift_lets
  intro a1 a2 cf a3 a4 a5 a6 a7 a8 a9 sc
  intro b1 b2 b3 b4 b5 b6 b7 b8 b9 tc
  have h1 : SameButView a1 b1 := h.viewEmit _ _
  have h2 : SameButView a2 b2 := h1.viewEmit _ _
  have h3 : SameButView a3 b3 :=
    h2.viewLift (fun y => { y with deltaTime := inp.time - y.prevFrame }) rfl rfl
  have h4 : SameButView a4 b4 :=
    h3.viewLift (fun y => { y with elapsedTime := y.elapsedTime + y.deltaTime }) rfl rfl
  have h5 : SameButView a5 b5 :=
    h4.viewLift (fun y => { y with prevFrame := inp.time }) rfl rfl
  have h7 : SameButView a7 b7 := by
    have e : b5.spinModel = a5.spinModel := h5.viewEqOn World.spinModel (fun _ _ => rfl)
    exact SameButView.viewIteOf (by rw [e]) (h5.viewLift (fun y => y) rfl rfl) h5
  have h8 : SameButView a8 b8 := sim_processUserInput inp.keys inp2.keys hkeys h7
  have h9 : SameButView a9 b9 := by
    have e : b8.fpsTracker = a8.fpsTracker := h8.viewEqOn World.fpsTracker (fun _ _ => rfl)
    exact SameButView.viewIteOf (by rw [e]) (h8.viewEmit _ _) h8
  have e : b9.zoomIn = a9.zoomIn := h9.viewEqOn World.zoomIn (fun _ _ => rfl)
  exact SameButView.viewIteOf (by rw [e]) (h9.viewCamera _ _) (h9.viewCamera _ _)

theorem sim_drawSkyBox (shader : Shader) (projection view projection2 view2 : Mat4 α)
    {w w2 : World α} (h : SameButView w w2) :
    SameButView (drawSkyBox shader projection view w)
      (drawSkyBox shader projection2 view2 w2) := by
  unfold drawSkyBox
  lift_lets
  intro a1 a2 va a3 a4 a5 ag an am a6 a7 a8 a9
  intro b1 b2 vb b3 b4 b5 bg bn bm b6 b7 b8 b9
  have h1 : SameButView a1 b1 := h.viewGlCall _ _ _
  have h2 : SameButView a2 b2 := h1.viewGlCall _ _ _
  have h3 : SameButView a3 b3 := h2.viewEmit _ _
  have h4 : SameButView a4 b4 := h3.viewEmit _ _
  have h5 : SameButView a5 b5 := h4.viewGlCall _ _ _
  have e : b5.selectedSkybox = a5.selectedSkybox := h5.viewEqOn World.selectedSkybox (fun _ _ => rfl)
  have h6 : SameButView a6 b6 :=
    SameButView.viewIteOf (by rw [e])
      (h5.viewLift (fun y => (y.glBindTexture TextureTarget.GL_TEXTURE_CUBE_MAP
        y.graffitiCubemapTexture).glBindVertexArray y.graffitiSkyboxVAO) rfl rfl)
      (SameButView.viewIteOf (by rw [e])
        (h5.viewLift (fun y => (y.glBindTexture TextureTarget.GL_TEXTURE_CUBE_MAP
          y.nightCubemapTexture).glBindVertexArray y.nightSkyboxVAO) rfl rfl)
        (SameButView.viewIteOf (by rw [e])
          (h5.viewLift (fun y => (y.glBindTexture TextureTarget.GL_TEXTURE_CUBE_MAP
            y.museumCubemapTexture).glBindVertexArray y.museumSkyboxVAO) rfl rfl)
          h5))
  have h7 : SameButView a7 b7 := h6.viewEmit _ _
  have h8 : SameButView a8 b8 := h7.viewEmit _ _
  have h9 : SameButView a9 b9 := h8.viewGlCall _ _ _
  exact h9.viewGlCall _ _ _

theorem sim_drawModel (ops : FrameOps α) (shader : Shader)
    (projection view projection2 view2 : Mat4 α) (shaderType : Int) {w w2 : World α}
    (h : SameButView w w2) :
    SameButViewResult (drawModel ops shader projection view shaderType w)
      (drawModel ops shader projection2 view2 shaderType w2) := by
  let a1 := w.emit (Op.drawModel shader.ID shaderType)
  let a2 := shader.use a1
  let a3 := shader.setMat4 "model"
    (ops.rotate identityMat4 (radians ops.toFloatOps a2.rotY) ⟨0, 1, 0⟩) a2
  let a4 := shader.setMat4 "view" view a3
  let a5 := shader.setMat4 "projection" projection a4
  let a6 := shader.setFloat "modelIOR" a5.IOR a5
  let a7 := shader.setBool "reflectEnable" a6.enableReflect a6
  let a8 := shader.setBool "viewSpaceOnly" a7.screenSpaceOnly a7
  let a9 := shader.setInt "skybox" 0 a8
  let a10 := shader.setInt "backfaceNormalTex" 1 a9
  let b1 := w2.emit (Op.drawModel shader.ID shaderType)
  let b2 := shader.use b1
  let b3 := shader.setMat4 "model"
    (ops.rotate identityMat4 (radians ops.toFloatOps b2.rotY) ⟨0, 1, 0⟩) b2
  let b4 := shader.setMat4 "view" view2 b3
  let b5 := shader.setMat4 "projection" projection2 b4
  let b6 := shader.setFloat "modelIOR" b5.IOR b5
  let b7 := shader.setBool "reflectEnable" b6.enableReflect b6
  let b8 := shader.setBool "viewSpaceOnly" b7.screenSpaceOnly b7
  let b9 := shader.setInt "skybox" 0 b8
  let b10 := shader.setInt "backfaceNormalTex" 1 b9
  have h1 : SameButView a1 b1 := h.viewEmit _ _
  have h2 : SameButView a2 b2 := h1.viewGlCall _ _ _
  have h3 : SameButView a3 b3 := h2.viewEmit _ _
  have h4 : SameButView a4 b4 := h3.viewEmit _ _
  have h5 : SameButView a5 b5 := h4.viewEmit _ _
  have h6 : SameButView a6 b6 := h5.viewEmit _ _
  have h7 : SameButView a7 b7 := h6.viewEmit _ _
  have h8 : SameButView a8 b8 := h7.viewEmit _ _
  have h9 : SameButView a9 b9 := h8.viewEmit _ _
  have h10 : SameButView a10 b10 := h9.viewEmit _ _
  by_cases t1 : shaderType = OneSurfaceShader
  · have e := sim_drawTail shader (h7.viewEmit (Op.setInt shader.ID "skybox" 0)
      (Op.setInt shader.ID "skybox" 0))
    simp only [drawModel, t1, if_true]
    simp only [a7, a6, a5, a4, a3, a2, a1, b7, b6, b5, b4, b3, b2, b1, t1] at e
    exact e
  · by_cases t2 : shaderType = TwoSurfacesBackFaceShader
    · have e := sim_drawTail shader h5
      simp only [drawModel, t2, OneSurfaceShader, TwoSurfacesBackFaceShader, if_true]
      simp only [a5, a4, a3, a2, a1, b5, b4, b3, b2, b1, t2, TwoSurfacesBackFaceShader] at e
      exact e
    · by_cases t3 : shaderType = TwoSurfacesFrontFaceShader
      · have e := sim_drawTail shader (h10.viewEmit (Op.setInt shader.ID "backfaceDepthTex" 2)
          (Op.setInt shader.ID "backfaceDepthTex" 2))
        simp only [drawModel, t3, OneSurfaceShader, TwoSurfacesBackFaceShader,
          TwoSurfacesFrontFaceShader, if_true]
        simp only [a10, a9, a8, a7, a6, a5, a4, a3, a2, a1, b10, b9, b8, b7, b6, b5, b4, b3, b2,
          b1, t3, TwoSurfacesFrontFaceShader] at e
        exact e
      · simp only [drawModel, t1, t2, t3, if_false]
        exact SameButViewResult.viewOfSome ((h5.viewEmit _ _).viewEmit _ _)

theorem sim_dispatch (ops : FrameOps α) (sh : Shaders)
    (projection view projection2 view2 : Mat4 α) {w w2 : World α} (h : SameButView w w2) :
    SameButViewResult (refractionDispatch ops sh projection view w)
      (refractionDispatch ops sh projection2 view2 w2) := by
  have e : w2.selectedRefractionMethod = w.selectedRefractionMethod :=
    h.viewEqOn World.selectedRefractionMethod (fun _ _ => rfl)
  unfold refractionDispatch
  lift_lets
  intro a1 a2 a3 a4 a5 b1 b2 b3 b4 b5
  rw [e]
  have hpre : SameButView a5 b5 :=
    h.viewLift (fun y => ((((y.glBindFramebuffer y.backfaceFBO).glViewport 0 0 (toInt y.SCREEN_WIDTH)
      (toInt y.SCREEN_HEIGHT)).glClear true true).glEnable Capability.GL_CULL_FACE).glCullFace
      FaceMode.GL_FRONT) rfl rfl
  by_cases c1 : w.selectedRefractionMethod = OneSurface
  · rw [if_pos c1, if_pos c1]
    exact sim_drawModel ops _ _ _ _ _ _ h
  · rw [if_neg c1, if_neg c1]
    by_cases c2 : w.selectedRefractionMethod = TwoSurfaces
    · rw [if_pos c2, if_pos c2]
      have hback := sim_drawModel ops sh.backfaceShader projection view projection2 view2
        TwoSurfacesBackFaceShader hpre
      cases ha : drawModel ops sh.backfaceShader projection view TwoSurfacesBackFaceShader a5 with
      | none =>
        cases hb : drawModel ops sh.backfaceShader projection2 view2
            TwoSurfacesBackFaceShader b5 with
        | none => trivial
        | some y => rw [ha, hb] at hback; exact hback.elim
      | some x =>
        cases hb : drawModel ops sh.backfaceShader projection2 view2
            TwoSurfacesBackFaceShader b5 with
        | none => rw [ha, hb] at hback; exact hback.elim
        | some y =>
          rw [ha, hb] at hback
          have hxy : SameButView x y := hback
          exact sim_drawModel ops sh.frontfaceShader _ _ _ _ TwoSurfacesFrontFaceShader
            (hxy.viewLift (fun z => (((((z.glCullFace FaceMode.GL_BACK).glBindFramebuffer
              0).glActiveTexture 1).glBindTexture TextureTarget.GL_TEXTURE_2D
              z.backfaceNormalTex).glActiveTexture 2).glBindTexture TextureTarget.GL_TEXTURE_2D
              z.backfaceDepthTex) rfl rfl)
    · rw [if_neg c2, if_neg c2]
      exact sim_drawModel ops _ _ _ _ _ _ h

theorem sim_screenshotStep [FloorRing α] {w w2 : World α} (h : SameButView w w2) :
    SameButViewResult (screenshotStep w) (screenshotStep w2) := by
  have e1 : w2.takeScreenshot = w.takeScreenshot :=
    h.viewEqOn World.takeScreenshot (fun _ _ => rfl)
  have e2 : screenshotFileName w2 = screenshotFileName w :=
    h.viewEqOn screenshotFileName (fun _ _ => rfl)
  unfold screenshotStep
  rw [e1, e2]
  by_cases c : w.takeScreenshot = true
  · rw [if_pos c, if_pos c]
    cases screenshotFileName w with
    | none => trivial
    | some name =>
      exact SameButViewResult.viewOfSome (h.viewLift (fun y =>
        { saveScreenshot name (toInt y.SCREEN_WIDTH) (toInt y.SCREEN_HEIGHT) y with
          takeScreenshot := false }) rfl rfl)
  · rw [if_neg c, if_neg c]
    exact SameButViewResult.viewOfSome h

theorem sim_ImGuiDrawWindow (p : PanelInput α) {w w2 : World α} (h : SameButView w w2) :
    SameButViewResult (ImGuiDrawWindow p w) (ImGuiDrawWindow p w2) := by
  unfold ImGuiDrawWindow
  lift_lets
  intro a9 a8 a7 a6 a5 a4 a3 a2 startedA
  intro b9 b8 b7 b6 b5 b4 b3 b2 startedB
  have h9 : SameButView a9 b9 := h.viewEmit _ _
  have h8 : SameButView a8 b8 := by
    simp only [a8, b8]
    cases p.sliderIOR with
    | none => exact h9
    | some v => exact h9.viewLift (fun y => { y with IOR := v }) rfl rfl
  have h7 : SameButView a7 b7 :=
    SameButView.viewIteOf Iff.rfl
      (h8.viewLift (fun y => { y with screenSpaceOnly := !y.screenSpaceOnly }) rfl rfl) h8
  have h6 : SameButView a6 b6 :=
    SameButView.viewIteOf Iff.rfl (h7.viewLift (fun y => { y with spinModel := !y.spinModel }) rfl rfl) h7
  have h5 : SameButView a5 b5 :=
    SameButView.viewIteOf Iff.rfl
      (h6.viewLift (fun y => { y with enableReflect := !y.enableReflect }) rfl rfl) h6
  have h4 : SameButView a4 b4 := by
    simp only [a4, b4]
    cases p.comboModel with
    | none => exact h5
    | some v => exact h5.viewLift (fun y => { y with selectedModel := v }) rfl rfl
  have h3 : SameButView a3 b3 := by
    simp only [a3, b3]
    cases p.comboRefraction with
    | none => exact h4
    | some v => exact h4.viewLift (fun y => { y with selectedRefractionMethod := v }) rfl rfl
  have h2 : SameButView a2 b2 := by
    simp only [a2, b2]
    cases p.comboSkybox with
    | none => exact h3
    | some v => exact h3.viewLift (fun y => { y with selectedSkybox := v }) rfl rfl
  have e1 : b2.selectedModel = a2.selectedModel := h2.viewEqOn World.selectedModel (fun _ _ => rfl)
  have e2 : b2.selectedRefractionMethod = a2.selectedRefractionMethod :=
    h2.viewEqOn World.selectedRefractionMethod (fun _ _ => rfl)
  have e3 : b2.selectedSkybox = a2.selectedSkybox := h2.viewEqOn World.selectedSkybox (fun _ _ => rfl)
  have hs : SameButViewResult startedA startedB := by
    by_cases hb : p.buttonStartFPSTest = true
    · cases hx : index? modelOptions a2.selectedModel with
      | none =>
        simp only [startedA, startedB, hb, if_true, e1, hx]
        trivial
      | some x =>
        cases hy : index? refractionOptions a2.selectedRefractionMethod with
        | none =>
          simp only [startedA, startedB, hb, if_true, e1, e2, hx, hy]
          trivial
        | some y =>
          cases hz : index? skyboxOptions a2.selectedSkybox with
          | none =>
            simp only [startedA, startedB, hb, if_true, e1, e2, e3, hx, hy, hz]
            trivial
          | some z =>
            simp only [startedA, startedB, hb, if_true, e1, e2, e3, hx, hy, hz]
            exact SameButViewResult.viewOfSome ((sim_logFPSTestStart x y z h2).viewLift
              (fun u => { u with fpsTracker := u.fpsTracker.start 1000 }) rfl rfl)
    · simp only [startedA, startedB, hb, Bool.false_eq_true, if_false]
      exact SameButViewResult.viewOfSome h2
  cases hA : startedA with
  | none =>
    cases hB : startedB with
    | none => trivial
    | some y => rw [hA, hB] at hs; exact hs.elim
  | some x =>
    cases hB : startedB with
    | none => rw [hA, hB] at hs; exact hs.elim
    | some y =>
      rw [hA, hB] at hs
      have hxy : SameButView x y := hs
      have hz : SameButView (if p.clickZoomIn = true then { x with zoomIn := !x.zoomIn } else x)
          (if p.clickZoomIn = true then { y with zoomIn := !y.zoomIn } else y) :=
        SameButView.viewIteOf Iff.rfl (hxy.viewLift (fun u => { u with zoomIn := !u.zoomIn }) rfl rfl) hxy
      exact SameButViewResult.viewOfSome (SameButView.viewIteOf Iff.rfl
        (hz.viewLift (fun u => { u with takeScreenshot := true }) rfl rfl) hz)

theorem sim_mouseCallback (ops : FrameOps α) (xIn yIn : α) {w w2 : World α}
    (h : SameButView w w2) :
    SameButView (mouseCallback ops xIn yIn w) (mouseCallback ops xIn yIn w2) := by
  have e1 : w2.ImGuiUseMouse = w.ImGuiUseMouse := h.viewEqOn World.ImGuiUseMouse (fun _ _ => rfl)
  have e2 : w2.firstMouse = w.firstMouse := h.viewEqOn World.firstMouse (fun _ _ => rfl)
  unfold mouseCallback
  refine SameButView.viewIteOf (by rw [e1])
    (h.viewLift (fun y => { y with xPrev := xIn, yPrev := yIn }) rfl rfl) ?_
  by_cases hf : w.firstMouse = true
  · have hf2 : w2.firstMouse = true := by rw [e2]; exact hf
    simp only [hf, hf2, if_true]
    exact h.viewLift (fun y => { y with xPrev := xIn, yPrev := yIn, firstMouse := false }) rfl rfl
  · have hf2 : ¬ w2.firstMouse = true := by rw [e2]; exact hf
    simp only [hf, hf2, if_false]
    exact h.viewLift (fun y => { y with xPrev := xIn, yPrev := yIn }) rfl rfl

theorem sim_scrollCallback (xOff yOff : α) {w w2 : World α} (h : SameButView w w2) :
    SameButView (scrollCallback xOff yOff w) (scrollCallback xOff yOff w2) :=
  h.viewCamera _ _

theorem sim_glfwPollEvents (ops : FrameOps α) (events : List (WindowEvent α)) {w w2 : World α}
    (h : SameButView w w2) :
    SameButView (glfwPollEvents ops events w) (glfwPollEvents ops events w2) := by
  unfold glfwPollEvents
  have key : ∀ (x y : World α), SameButView x y →
      SameButView
        (events.foldl
          (fun w e =>
            match e with
            | WindowEvent.framebufferSize width height => frameBufferSizeCallback width height w
            | WindowEvent.cursorPos xIn yIn => mouseCallback ops xIn yIn w
            | WindowEvent.scroll xOff yOff => scrollCallback xOff yOff w) x)
        (events.foldl
          (fun w e =>
            match e with
            | WindowEvent.framebufferSize width height => frameBufferSizeCallback width height w
            | WindowEvent.cursorPos xIn yIn => mouseCallback ops xIn yIn w
            | WindowEvent.scroll xOff yOff => scrollCallback xOff yOff w) y) := by
    induction events with
    | nil => intro x y hxy; exact hxy
    | cons e t ih =>
      intro x y hxy
      rw [List.foldl_cons, List.foldl_cons]
      apply ih
      cases e with
      | framebufferSize width height => exact sim_frameBufferSizeCallback width height hxy
      | cursorPos xIn yIn => exact sim_mouseCallback ops xIn yIn hxy
      | scroll xOff yOff => exact sim_scrollCallback xOff yOff hxy
  exact key _ _ (h.viewEmit _ _)

theorem sim_iterationEnd (ops : FrameOps α) (p : PanelInput α)
    (events : List (WindowEvent α)) {x y : World α} (h : SameButView x y) :
    SameButViewResult
      (match (if x.fpsTracker.active = false then ImGuiDrawWindow p x else some x) with
        | none => none
        | some w => some (glfwPollEvents ops events (w.emit Op.glfwSwapBuffers)))
      (match (if y.fpsTracker.active = false then ImGuiDrawWindow p y else some y) with
        | none => none
        | some w => some (glfwPollEvents ops events (w.emit Op.glfwSwapBuffers))) := by
  have e : y.fpsTracker = x.fpsTracker := h.viewEqOn World.fpsTracker (fun _ _ => rfl)
  rw [e]
  by_cases c : x.fpsTracker.active = false
  · rw [if_pos c, if_pos c]
    have hd := sim_ImGuiDrawWindow p h
    cases hA : ImGuiDrawWindow p x with
    | none =>
      cases hB : ImGuiDrawWindow p y with
      | none => trivial
      | some v => rw [hA, hB] at hd; exact hd.elim
    | some u =>
      cases hB : ImGuiDrawWindow p y with
      | none => rw [hA, hB] at hd; exact hd.elim
      | some v =>
        rw [hA, hB] at hd
        have huv : SameButView u v := hd
        exact SameButViewResult.viewOfSome (sim_glfwPollEvents ops events (huv.viewEmit _ _))
  · rw [if_neg c, if_neg c]
    exact SameButViewResult.viewOfSome (sim_glfwPollEvents ops events (h.viewEmit _ _))

theorem sim_fromView [FloorRing α] (ops : FrameOps α) (sh : Shaders) (inp inp2 : FrameInput α)
    (hi : SameButMovementKeys inp inp2) {w w2 : World α} (h : SameButView w w2) :
    SameButViewResult (iterationFromView ops sh inp w) (iterationFromView ops sh inp2 w2) := by
  obtain ⟨_, hpanel, hevents, _⟩ := hi
  unfold iterationFromView
  rw [← hpanel, ← hevents]
  lift_lets
  intro viewA projA rA aF aS viewB projB rB bF bS
  have eT : w2.fpsTracker = w.fpsTracker := h.viewEqOn World.fpsTracker (fun _ _ => rfl)
  have eD : w2.deltaTime = w.deltaTime := h.viewEqOn World.deltaTime (fun _ _ => rfl)
  have er : rB = rA := by
    show w2.fpsTracker.update w2.deltaTime = w.fpsTracker.update w.deltaTime
    rw [eT, eD]
  have hF : SameButView aF bF := by
    refine SameButView.viewIteOf (by rw [eT]) ?_ h
    rw [er]
    exact SameButView.viewCoutFold _ (h.viewLift (fun y => { y with fpsTracker := rA.1 }) rfl rfl)
  have hS : SameButView aS bS := sim_drawSkyBox _ _ _ _ _ hF
  have hd := sim_dispatch ops sh projA viewA projB viewB hS
  cases hA : refractionDispatch ops sh projA viewA aS with
  | none =>
    cases hB : refractionDispatch ops sh projB viewB bS with
    | none => trivial
    | some v => rw [hA, hB] at hd; exact hd.elim
  | some u =>
    cases hB : refractionDispatch ops sh projB viewB bS with
    | none => rw [hA, hB] at hd; exact hd.elim
    | some v =>
      rw [hA, hB] at hd
      have huv : SameButView u v := hd
      have hs := sim_screenshotStep huv
      dsimp only
      cases hA2 : screenshotStep u with
      | none =>
        cases hB2 : screenshotStep v with
        | none => trivial
        | some v2 => rw [hA2, hB2] at hs; exact hs.elim
      | some u2 =>
        cases hB2 : screenshotStep v with
        | none => rw [hA2, hB2] at hs; exact hs.elim
        | some v2 =>
          rw [hA2, hB2] at hs
          have huv2 : SameButView u2 v2 := hs
          dsimp only
          exact sim_iterationEnd ops inp.panel inp.events huv2

theorem sim_iteration [FloorRing α] (ops : FrameOps α) (sh : Shaders) (inp inp2 : FrameInput α)
    (hi : SameButMovementKeys inp inp2) {w w2 : World α} (h : SameButView w w2) :
    SameButViewResult (renderLoopIteration ops sh inp w) (renderLoopIteration ops sh inp2 w2) :=
  sim_fromView ops sh inp inp2 hi (sim_untilView inp inp2 hi h)

theorem untilView_position [FloorRing α] (inp : FrameInput α) (w : World α) :
    (iterationUntilView inp w).camera.position =
      if w.zoomIn = true then ⟨0, 0, 4⟩ else ⟨0, 0, 5⟩ := by
  unfold iterationUntilView
  lift_lets
  intro a1 a2 cf a3 a4 a5 a6 a7 a8 a9 sc
  have h7 : a7.zoomIn = w.zoomIn := by
    show (if a5.spinModel = true then _ else a5).zoomIn = w.zoomIn
    split_ifs <;> rfl
  have h8 : a8.zoomIn = a7.zoomIn := by
    have hf := flow_processUserInput (fun _ => true) rfl inp.keys a7
    have := congrArg World.zoomIn hf.settings
    exact this
  have h9 : a9.zoomIn = a8.zoomIn := by
    show (if a8.fpsTracker.active = false then _ else a8).zoomIn = a8.zoomIn
    split_ifs <;> rfl
  have hz : a9.zoomIn = w.zoomIn := by rw [h9, h8, h7]
  rw [← hz]
  by_cases c : a9.zoomIn = true
  · rw [if_pos c, if_pos c]
  · rw [if_neg c, if_neg c]

theorem viewPositions_sim [FloorRing α] (ops : FrameOps α) (sh : Shaders)
    (ins ins2 : List (FrameInput α)) (hi : List.Forall₂ SameButMovementKeys ins ins2) :
    ∀ {w w2 : World α}, SameButView w w2 →
      viewPositions ops sh ins w = viewPositions ops sh ins2 w2 := by
  induction hi with
  | nil => intro w w2 _; rfl
  | @cons inp inp2 rest rest2 hab _ ih =>
    intro w w2 h
    have e : w2.windowShouldClose = w.windowShouldClose :=
      h.viewEqOn World.windowShouldClose (fun _ _ => rfl)
    have hpos : (iterationUntilView inp2 w2).camera.position =
        (iterationUntilView inp w).camera.position := by
      have e2 : w2.zoomIn = w.zoomIn := h.viewEqOn World.zoomIn (fun _ _ => rfl)
      rw [untilView_position, untilView_position, e2]
    have hit := sim_iteration ops sh inp inp2 hab h
    have u1 : viewPositions ops sh (inp :: rest) w =
        if w.windowShouldClose = true then []
        else (iterationUntilView inp w).camera.position ::
          match renderLoopIteration ops sh inp w with
          | none => []
          | some w => viewPositions ops sh rest w := rfl
    have u2 : viewPositions ops sh (inp2 :: rest2) w2 =
        if w2.windowShouldClose = true then []
        else (iterationUntilView inp2 w2).camera.position ::
          match renderLoopIteration ops sh inp2 w2 with
          | none => []
          | some w => viewPositions ops sh rest2 w := rfl
    rw [u1, u2, e, hpos]
    by_cases c : w.windowShouldClose = true
    · rw [if_pos c, if_pos c]
    · rw [if_neg c, if_neg c]
      congr 1
      cases hA : renderLoopIteration ops sh inp w with
      | none =>
        cases hB : renderLoopIteration ops sh inp2 w2 with
        | none => rfl
        | some v => rw [hA, hB] at hit; exact hit.elim
      | some u =>
        cases hB : renderLoopIteration ops sh inp2 w2 with
        | none => rw [hA, hB] at hit; exact hit.elim
        | some v =>
          rw [hA, hB] at hit
          exact ih hit

end ViewLemmas2

section ViewTheorems
variable {α : Type} [LinearOrderedField α] [FloorRing α]

theorem viewPositions_values (ops : FrameOps α) (sh : Shaders) (ins : List (FrameInput α)) :
    ∀ w : World α, ∀ p ∈ viewPositions ops sh ins w, p = ⟨0, 0, 4⟩ ∨ p = ⟨0, 0, 5⟩ := by
  induction ins with
  | nil => intro w p hp; cases hp
  | cons inp rest ih =>
    intro w p hp
    have u1 : viewPositions ops sh (inp :: rest) w =
        if w.windowShouldClose = true then []
        else (iterationUntilView inp w).camera.position ::
          match renderLoopIteration ops sh inp w with
          | none => []
          | some w => viewPositions ops sh rest w := rfl
    rw [u1] at hp
    by_cases c : w.windowShouldClose = true
    · rw [if_pos c] at hp; cases hp
    · rw [if_neg c] at hp
      rcases List.mem_cons.mp hp with hp | hp
      · rw [hp, untilView_position]
        by_cases z : w.zoomIn = true
        · rw [if_pos z]; exact Or.inl rfl
        · rw [if_neg z]; exact Or.inr rfl
      · cases hA : renderLoopIteration ops sh inp w with
        | none => rw [hA] at hp; cases hp
        | some u => rw [hA] at hp; exact ih u p hp

/-- C19.  In every iteration of the render loop, from every state and for every
input, the body of the loop is the part up to the `camera.getViewMatrix()`
call followed by the part from that call on, and the camera position in the
state in which the view matrix is built is (0, 0, 4) when `zoomIn` is set at
the start of the iteration and (0, 0, 5) otherwise, whatever keys are down.
For two runs of the loop from the same state whose inputs differ at most in
the movement keys W, A, S, D, Q, E and R pressed in each iteration (same
times, panel actions, callbacks and other keys), the camera positions at the
`getViewMatrix` calls of the successive iterations are the same list, each
entry being (0, 0, 4) or (0, 0, 5). -/
theorem view_position_ignores_movement_keys (ops : FrameOps α) (sh : Shaders)
    (ins ins2 : List (FrameInput α)) (w : World α)
    (h : List.Forall₂ SameButMovementKeys ins ins2) :
    viewPositions ops sh ins w = viewPositions ops sh ins2 w ∧
    (∀ p ∈ viewPositions ops sh ins w, p = ⟨0, 0, 4⟩ ∨ p = ⟨0, 0, 5⟩) ∧
    (∀ (inp : FrameInput α) (x : World α),
      renderLoopIteration ops sh inp x =
        iterationFromView ops sh inp (iterationUntilView inp x) ∧
      (iterationUntilView inp x).camera.position =
        (if x.zoomIn = true then ⟨0, 0, 4⟩ else ⟨0, 0, 5⟩)) :=
  ⟨viewPositions_sim ops sh ins ins2 h (SameButView.viewRefl w),
    viewPositions_values ops sh ins w,
    fun inp x => ⟨rfl, untilView_position inp x⟩⟩

theorem view_position_ignores_movement_keys_witness :
    List.Forall₂ SameButMovementKeys [forwardInput] [idleInput] ∧
    viewPositions approxFrameOps sampleShaders [forwardInput] twoSurfaceWorld =
      viewPositions approxFrameOps sampleShaders [idleInput] twoSurfaceWorld :=
  have hk : List.Forall₂ SameButMovementKeys [forwardInput] [idleInput] :=
    List.Forall₂.cons
      ⟨rfl, rfl, rfl, fun key hkey => by
        have hne : key ≠ GLFW_KEY_W := fun e => hkey (by rw [e]; exact List.mem_cons_self _ _)
        show decide (key = GLFW_KEY_W) = false
        exact decide_eq_false hne⟩
      List.Forall₂.nil
  ⟨hk, (view_position_ignores_movement_keys approxFrameOps sampleShaders [forwardInput]
    [idleInput] twoSurfaceWorld hk).1⟩

end ViewTheorems

end RTR
